import Mathlib

/-!
# Renesas R-Car BSP: clock dividers and LVDS PLL synthesis

A shallow embedding of

* `drivers/gpu/drm/rcar-du/rcar_du_lvdsenc.c` (PLL parameter search, the
  shared-PLL pre-start programming, and the power-up and power-down
  sequences of the encoder),
* `drivers/clk/renesas/clk-avb.c` (the AVB counter clock dividers), and
* `drivers/clk/renesas/r8a77965-cpg-mssr.c` (the decoding of the mode pins),

together with theorems about them.

Machine integers are natural numbers.  `unsigned int` / `u32` values are
reduced modulo `2 ^ 32` where a value is narrowed, `unsigned long` values
modulo `2 ^ 64` (arm64, the architecture of the R-Car Gen3 parts these
drivers serve) where a product or sum could wrap.
-/

namespace RcarBsp

/-! ## Machine integers -/

/-- Narrowing to `unsigned int` / `u32`. -/
def u32 (x : Nat) : Nat := x % 4294967296

/-- Wrap-around of `unsigned long` arithmetic (64 bits on arm64). -/
def ulong (x : Nat) : Nat := x % 18446744073709551616

/-- Conversion of a bit pattern to `int` (32-bit two's complement). -/
def to_int (x : Nat) : Int :=
  if u32 x < 2147483648 then Int.ofNat (u32 x) else Int.ofNat (u32 x) - 4294967296

/-- Conversion of an `unsigned long` bit pattern to `long` (64-bit two's complement). -/
def to_long (x : Nat) : Int :=
  if ulong x < 9223372036854775808 then Int.ofNat (ulong x)
  else Int.ofNat (ulong x) - 18446744073709551616

/-- The kernel's `BIT(nr)`, i.e. `1UL << nr`. -/
def BIT (nr : Nat) : Nat := ulong (1 <<< nr)

/-- Bitwise complement of an `unsigned long`. -/
def not_ulong (x : Nat) : Nat := 18446744073709551615 - ulong x

/-- Bitwise complement of a 32-bit value (`~x` on an `int` constant, then
converted to `u32` by the `&` with a `u32`). -/
def not_u32 (x : Nat) : Nat := 4294967295 - u32 x

/-! ## `rcar_du_lvdsenc.c`: the PLL parameter search -/

/-- The record `struct pll_info`. -/
structure pll_info where
  pllclk : Nat
  diff : Nat
  clk_n : Nat
  clk_m : Nat
  clk_e : Nat
  div : Nat
deriving DecidableEq, Repr

/-- A `struct pll_info` as `kzalloc` returns it. -/
def pll_info_zero : pll_info := ⟨0, 0, 0, 0, 0, 0⟩

/-- The variables of `rcar_du_lvdsenc_pll_calc` that live across loop
iterations: the output record, the local `clk_diff_set`, and whether control
has jumped to the label `done`. -/
structure pll_calc_state where
  pll : pll_info
  clk_diff_set : Bool
  done : Bool
deriving DecidableEq, Repr

/-- The expression `abs((long)a - (long)b)`, stored in an `unsigned long`. -/
def abs_long_diff (a b : Nat) : Nat := ulong (Int.natAbs (to_long a - to_long b))

/-- One iteration of `for (div = 0; div < 64; div++)` (lines 229-248). Once
`goto done` has been taken the remaining iterations do nothing. -/
def pll_calc_div_body (fout mode_freq n m e : Nat) (s : pll_calc_state) (div : Nat) :
    pll_calc_state :=
  match s with
  | ⟨pll, clk_diff_set, done⟩ =>
    if done then ⟨pll, clk_diff_set, done⟩
    else
      let diff := abs_long_diff (fout / (div + 1)) mode_freq
      if clk_diff_set || (diff == 0 || decide (pll.diff > diff)) then
        { pll := { pllclk := u32 fout, diff := u32 diff, clk_n := u32 n, clk_m := u32 m,
                   clk_e := u32 e, div := u32 div },
          clk_diff_set := false,
          done := diff == 0 }
      else ⟨pll, clk_diff_set, done⟩

/-- The value first assigned to `fout` (lines 207-213): the PLL output before
the fixed divide-by-7 stage. -/
def pll_calc_fout (in_fre n m e : Nat) (edivider : Bool) : Nat :=
  if edivider then
    ulong (ulong (ulong (u32 (in_fre / 1000) * (n + 1)) / ulong ((m + 1) * (e + 1) * 2)) * 1000)
  else
    ulong (ulong (ulong (u32 (in_fre / 1000) * (n + 1)) / (m + 1)) * 1000)

/-- The value assigned to `fpfd` (line 218). -/
def pll_calc_fpfd (in_fre m : Nat) : Nat := in_fre / (m + 1)

/-- The value assigned to `fvco` (lines 222-223). -/
def pll_calc_fvco (in_fre n m : Nat) : Nat :=
  ulong (ulong (ulong (u32 (in_fre / 1000) * (n + 1)) / (m + 1)) * 1000)

/-- One iteration of `for (e = 0; e < 1; e++)` (lines 206-249): the three
`continue` checks, the divide by 7, and the `div` loop. -/
def pll_calc_e_body (in_fre mode_freq : Nat) (edivider : Bool) (n m : Nat)
    (s : pll_calc_state) (e : Nat) : pll_calc_state :=
  match s with
  | ⟨pll, clk_diff_set, done⟩ =>
    if done then ⟨pll, clk_diff_set, done⟩
    else
      let fout := pll_calc_fout in_fre n m e edivider
      if fout > 1039500000 then ⟨pll, clk_diff_set, done⟩
      else
        let fpfd := pll_calc_fpfd in_fre m
        if fpfd < 12000000 || fpfd > 24000000 then ⟨pll, clk_diff_set, done⟩
        else
          let fvco := pll_calc_fvco in_fre n m
          if fvco < 900000000 || fvco > 1800000000 then ⟨pll, clk_diff_set, done⟩
          else
            let fout := fout / 7
            (List.range 64).foldl (pll_calc_div_body fout mode_freq n m e)
              ⟨pll, clk_diff_set, done⟩

/-- One iteration of `for (m = 0; m < 7; m++)` (lines 205-250). -/
def pll_calc_m_body (in_fre mode_freq : Nat) (edivider : Bool) (n : Nat)
    (s : pll_calc_state) (m : Nat) : pll_calc_state :=
  match s with
  | ⟨pll, clk_diff_set, done⟩ =>
    if done then ⟨pll, clk_diff_set, done⟩
    else (List.range 1).foldl (pll_calc_e_body in_fre mode_freq edivider n m)
      ⟨pll, clk_diff_set, done⟩

/-- One iteration of `for (n = 0; n < 127; n++)` (lines 201-251). -/
def pll_calc_n_body (in_fre mode_freq : Nat) (edivider : Bool)
    (s : pll_calc_state) (n : Nat) : pll_calc_state :=
  match s with
  | ⟨pll, clk_diff_set, done⟩ =>
    if done then ⟨pll, clk_diff_set, done⟩
    else if (n + 1) < 60 || (n + 1) > 120 then ⟨pll, clk_diff_set, done⟩
    else (List.range 7).foldl (pll_calc_m_body in_fre mode_freq edivider n)
      ⟨pll, clk_diff_set, done⟩

/-- The body of `rcar_du_lvdsenc_pll_calc` with its loop-carried variables,
started on the caller's record `pll`: the range check on `in_fre` (lines
198-199), then the loop nest. -/
def pll_calc_run (pll : pll_info) (in_fre mode_freq : Nat) (edivider : Bool) :
    pll_calc_state :=
  if in_fre < 12000000 || in_fre > 192000000 then
    { pll := pll, clk_diff_set := true, done := false }
  else
    (List.range 127).foldl (pll_calc_n_body in_fre mode_freq edivider)
      { pll := pll, clk_diff_set := true, done := false }

/-- The function `rcar_du_lvdsenc_pll_calc(rcrtc, pll, in_fre, mode_freq,
edivider)`: the contents of `*pll` on return, given its contents on entry.
The `rcrtc` argument is not used by the function. -/
def rcar_du_lvdsenc_pll_calc (pll : pll_info) (in_fre mode_freq : Nat) (edivider : Bool) :
    pll_info :=
  (pll_calc_run pll in_fre mode_freq edivider).pll

/-! ### The search domain, stated independently of the loop nest -/

/-- The pair `(n, m)` lies in the search domain (`N + 1` in `[60, 120]`,
`M + 1` in `[1, 7]`) and passes the three legality checks on the stage
frequencies as the function computes them: output before the divide-by-7
stage at most 1039.5 MHz, `fpfd` in `[12 MHz, 24 MHz]`, `fvco` in
`[900 MHz, 1800 MHz]`. -/
def pll_legal (in_fre : Nat) (edivider : Bool) (n m : Nat) : Prop :=
  60 ≤ n + 1 ∧ n + 1 ≤ 120 ∧ 1 ≤ m + 1 ∧ m + 1 ≤ 7 ∧
  pll_calc_fout in_fre n m 0 edivider ≤ 1039500000 ∧
  12000000 ≤ pll_calc_fpfd in_fre m ∧ pll_calc_fpfd in_fre m ≤ 24000000 ∧
  900000000 ≤ pll_calc_fvco in_fre n m ∧ pll_calc_fvco in_fre n m ≤ 1800000000

instance (in_fre : Nat) (edivider : Bool) (n m : Nat) :
    Decidable (pll_legal in_fre edivider n m) := by
  unfold pll_legal; infer_instance

/-- The frequency after the divide-by-7 stage for the pair `(n, m)`. -/
def pll_fout7 (in_fre : Nat) (edivider : Bool) (n m : Nat) : Nat :=
  pll_calc_fout in_fre n m 0 edivider / 7

/-- The error `|fout / DIV - mode_freq|` of the candidate `(n, m, div)`, with
`DIV = div + 1` and integer division. -/
def pll_error (in_fre mode_freq : Nat) (edivider : Bool) (n m div : Nat) : Nat :=
  Int.natAbs ((pll_fout7 in_fre edivider n m / (div + 1) : Nat) - (mode_freq : Int))

/-- The candidate `(n, m, d)` comes before `(n', m', d')` in the order of the
search: lowest `n`, then lowest `m`, then lowest `div`. -/
def pll_before (n m d n' m' d' : Nat) : Prop :=
  n < n' ∨ (n = n' ∧ (m < m' ∨ (m = m' ∧ d < d')))

/-- The legal candidates `(n, m, d)` the search has been through when it
stands at position `(N, M, D)`. -/
def pll_seen (in_fre : Nat) (edivider : Bool) (N M D n m d : Nat) : Prop :=
  pll_legal in_fre edivider n m ∧ d < 64 ∧ pll_before n m d N M D

/-- The invariant of the loop nest at position `(N, M, D)`, for a search
started on the record `pll0`. -/
structure pll_inv (pll0 : pll_info) (in_fre mode_freq : Nat) (edivider : Bool)
    (N M D : Nat) (s : pll_calc_state) : Prop where
  fresh : s.clk_diff_set = true →
    s.pll = pll0 ∧ s.done = false ∧ ∀ n m d, ¬ pll_seen in_fre edivider N M D n m d
  stored_seen : s.clk_diff_set = false →
    pll_seen in_fre edivider N M D s.pll.clk_n s.pll.clk_m s.pll.div
  stored_diff : s.clk_diff_set = false →
    s.pll.diff = pll_error in_fre mode_freq edivider s.pll.clk_n s.pll.clk_m s.pll.div
  stored_clk : s.clk_diff_set = false →
    s.pll.pllclk = pll_fout7 in_fre edivider s.pll.clk_n s.pll.clk_m ∧ s.pll.clk_e = 0
  done_iff : s.clk_diff_set = false → (s.done = true ↔ s.pll.diff = 0)
  least : s.clk_diff_set = false → s.done = false →
    ∀ n m d, pll_seen in_fre edivider N M D n m d →
      s.pll.diff ≤ pll_error in_fre mode_freq edivider n m d
  first : s.clk_diff_set = false →
    ∀ n m d, pll_legal in_fre edivider n m → d < 64 →
      pll_before n m d s.pll.clk_n s.pll.clk_m s.pll.div →
      s.pll.diff < pll_error in_fre mode_freq edivider n m d
  done_set : s.done = true → s.clk_diff_set = false

/-! ## `rcar_du_lvdsenc.c`: programming the shared PLL -/

/-- The register offsets and bit constants of `rcar_lvds_regs.h` that
`rcar_du_lvdsenc.c` uses. The header is not among the sources at hand, so its
values are parameters of the model. -/
structure rcar_lvds_regs where
  LVDCR0 : Nat
  LVDCR0_DUSEL : Nat
  LVDCR0_LVMD_SHIFT : Nat
  LVDCR0_PLLON : Nat
  LVDCR0_PWD : Nat
  LVDCR0_BEN : Nat
  LVDCR0_LVEN : Nat
  LVDCR0_LVRES : Nat
  LVDCR1 : Nat
  LVDCR1_CHSTBY_GEN2 : Nat → Nat
  LVDCR1_CHSTBY_GEN3 : Nat → Nat
  LVDCR1_CLKSTBY_GEN2 : Nat
  LVDCR1_CLKSTBY_GEN3 : Nat
  LVDPLLCR : Nat
  LVDPLLCR_CEEN : Nat
  LVDPLLCR_COSEL : Nat
  LVDPLLCR_PLLDLYCNT_150M : Nat
  LVDPLLCR_PLLDLYCNT_121M : Nat
  LVDPLLCR_PLLDLYCNT_60M : Nat
  LVDPLLCR_PLLDLYCNT_38M : Nat
  LVDPLLCR_PLLDIVCNT_42M : Nat
  LVDPLLCR_PLLDIVCNT_85M : Nat
  LVDPLLCR_PLLDIVCNT_128M : Nat
  LVDPLLCR_PLLDIVCNT_148M : Nat
  LVDPLLCR_PLLON : Nat
  LVDPLLCR_OCKSEL_7 : Nat
  LVDPLLCR_STP_CLKOUTE1_DIS : Nat
  LVDPLLCR_STP_CLKOUTE1_EN : Nat
  LVDPLLCR_OUTCLKSEL_BEFORE : Nat
  LVDPLLCR_OUTCLKSEL_AFTER : Nat
  LVDPLLCR_CLKOUT_ENABLE : Nat
  LVDPLLCR_CKSEL_EXTAL : Nat
  LVDCTRCR : Nat
  LVDCTRCR_CTR3SEL_ZERO : Nat
  LVDCTRCR_CTR2SEL_DISP : Nat
  LVDCTRCR_CTR1SEL_VSYNC : Nat
  LVDCTRCR_CTR0SEL_HSYNC : Nat
  LVDCHCR : Nat
  LVDCHCR_CHSEL_CH : Nat → Nat → Nat
  LVDSTRIPE : Nat
  LVDDIV : Nat
  LVDDIV_DIVSEL : Nat
  LVDDIV_DIVRESET : Nat

/-- What the encoder does to the outside world, in program order. -/
inductive lvds_event where
  | reset_control_deassert
  | reset_control_assert
  | clk_prepare_enable
  | clk_disable_unprepare
  | rcar_lvds_write (reg data : Nat)
  | usleep_range (min max : Nat)
deriving DecidableEq, Repr

/-- The fields of `struct rcar_du_lvdsenc` and of the device it belongs to
that the encoder code consults: `dev->info->gen`, the feature
`RCAR_DU_FEATURE_LVDS_PLL`, the quirk `RCAR_DU_QUIRK_LVDS_LANES`, and the
encoder's own `index`, `enabled`, `input` and `mode`. -/
structure rcar_du_lvdsenc where
  gen : Nat
  has_lvds_pll : Bool
  needs_lvds_lanes : Bool
  index : Nat
  enabled : Bool
  input : Nat
  mode : Nat
deriving DecidableEq, Repr

/-- The local `mode_freq` of `rcar_du_lvdsenc_pll_pre_start` (line 261). -/
def pll_pre_start_mode_freq (mode_clock : Nat) : Nat := u32 (mode_clock * 1000)

/-- The two records `lvds_pll[0]` (search with the E-divider) and
`lvds_pll[1]` (search without it) after the loop of lines 283-293; both
start zeroed and the input clock is the fixed 48 MHz EXTAL. -/
def pll_pre_start_runs (mode_clock : Nat) : pll_info × pll_info :=
  (rcar_du_lvdsenc_pll_calc pll_info_zero 48000000 (pll_pre_start_mode_freq mode_clock) true,
   rcar_du_lvdsenc_pll_calc pll_info_zero 48000000 (pll_pre_start_mode_freq mode_clock) false)

/-- The index `i` chosen by the comparison of lines 297-307. -/
def pll_pre_start_index (mode_clock : Nat) : Nat :=
  if (pll_pre_start_runs mode_clock).2.diff ≥ (pll_pre_start_runs mode_clock).1.diff then 0
  else 1

/-- The value of `clksel` chosen by the comparison of lines 297-307. -/
def pll_pre_start_clksel (k : rcar_lvds_regs) (mode_clock : Nat) : Nat :=
  if (pll_pre_start_runs mode_clock).2.diff ≥ (pll_pre_start_runs mode_clock).1.diff then
    u32 (k.LVDPLLCR_OUTCLKSEL_AFTER ||| k.LVDPLLCR_STP_CLKOUTE1_EN)
  else
    u32 (k.LVDPLLCR_OUTCLKSEL_BEFORE ||| k.LVDPLLCR_STP_CLKOUTE1_DIS)

/-- The record `lvds_pll[i]` for the chosen `i`. -/
def pll_pre_start_chosen (mode_clock : Nat) : pll_info :=
  if pll_pre_start_index mode_clock = 0 then (pll_pre_start_runs mode_clock).1
  else (pll_pre_start_runs mode_clock).2

/-- The value written to `LVDPLLCR` (lines 316-319). -/
def pll_pre_start_pllcr (k : rcar_lvds_regs) (mode_clock : Nat) : Nat :=
  u32 (k.LVDPLLCR_PLLON ||| k.LVDPLLCR_OCKSEL_7 ||| pll_pre_start_clksel k mode_clock |||
    k.LVDPLLCR_CLKOUT_ENABLE ||| k.LVDPLLCR_CKSEL_EXTAL |||
    u32 ((pll_pre_start_chosen mode_clock).clk_e <<< 10) |||
    u32 ((pll_pre_start_chosen mode_clock).clk_n <<< 3) |||
    (pll_pre_start_chosen mode_clock).clk_m)

/-- The value written to `LVDDIV` (lines 321-325). -/
def pll_pre_start_lvddiv (k : rcar_lvds_regs) (mode_clock : Nat) : Nat :=
  if (pll_pre_start_chosen mode_clock).div > 0 then
    u32 (k.LVDDIV_DIVSEL ||| k.LVDDIV_DIVRESET ||| (pll_pre_start_chosen mode_clock).div)
  else 0

/-- The function `rcar_du_lvdsenc_pll_pre_start(lvds, rcrtc)`, as the trace
of its effects. `mode_clock` is `rcrtc->crtc.state->adjusted_mode.clock`,
`kzalloc_ok i` tells whether the allocation of `lvds_pll[i]` succeeds
(`RCAR_DU_MAX_LVDS` is 2, the length of `lvds_pll`), and `clk_ret` is the
value `clk_prepare_enable` returns. The function does not modify `*lvds`. -/
def rcar_du_lvdsenc_pll_pre_start (k : rcar_lvds_regs) (lvds : rcar_du_lvdsenc)
    (mode_clock : Nat) (kzalloc_ok : Nat → Bool) (clk_ret : Int) : List lvds_event :=
  if lvds.enabled then []
  else if !(kzalloc_ok 0) then []
  else if !(kzalloc_ok 1) then []
  else if clk_ret < 0 then
    [lvds_event.reset_control_deassert, lvds_event.clk_prepare_enable]
  else
    [lvds_event.reset_control_deassert, lvds_event.clk_prepare_enable,
     lvds_event.rcar_lvds_write k.LVDPLLCR (pll_pre_start_pllcr k mode_clock),
     lvds_event.rcar_lvds_write k.LVDDIV (pll_pre_start_lvddiv k mode_clock)]

/-! ## `clk-avb.c`: the AVB counter clock dividers -/

def AVB_DIV_MASK : Nat := 0x3ffff
def AVB_MAX_DIV : Nat := 0x3ffc0
def AVB_COUNTER_MAX_FREQ : Nat := 25000000
def AVB_COUNTER_NUM : Nat := 8
def AVB_CLK_CONFIG : Nat := 0x20
def AVB_DIV_EN_COM : Nat := BIT 31

/-- The macro `AVB_ID_TO_DIV(id)`, on an `unsigned int` index. -/
def AVB_ID_TO_DIV (id : Nat) : Nat := u32 (id * 4)

/-- The register block behind `data->base`: the 32-bit word at each byte
offset. -/
abbrev avb_regs := Nat → Nat

/-- The read `clk_readl(base + off)`. -/
def clk_readl (base : avb_regs) (off : Nat) : Nat := u32 (base off)

/-- The write `clk_writel(val, base + off)`. -/
def clk_writel (val : Nat) (base : avb_regs) (off : Nat) : avb_regs :=
  fun o => if o = off then u32 val else base o

/-- The function `clk_avb_is_enabled` for the instance with index `idx`. -/
def clk_avb_is_enabled (base : avb_regs) (idx : Nat) : Int :=
  to_int (clk_readl base AVB_CLK_CONFIG &&& BIT idx)

/-- The function `clk_avb_enabledisable`: its return value and the register
block it leaves. The spinlock is not modelled. -/
def clk_avb_enabledisable (base : avb_regs) (idx : Nat) (enable : Int) : Int × avb_regs :=
  let val := clk_readl base AVB_CLK_CONFIG
  let val := if enable ≠ 0 then u32 (val ||| BIT idx) else u32 (val &&& not_ulong (BIT idx))
  (0, clk_writel val base AVB_CLK_CONFIG)

/-- The function `clk_avb_enable`. -/
def clk_avb_enable (base : avb_regs) (idx : Nat) : Int × avb_regs :=
  clk_avb_enabledisable base idx 1

/-- The function `clk_avb_disable` (a `void` function). -/
def clk_avb_disable (base : avb_regs) (idx : Nat) : avb_regs :=
  (clk_avb_enabledisable base idx 0).2

/-- The function `clk_avb_recalc_rate`. -/
def clk_avb_recalc_rate (base : avb_regs) (idx : Nat) (parent_rate : Nat) : Nat :=
  let div := clk_readl base (AVB_ID_TO_DIV idx) &&& AVB_DIV_MASK
  if div = 0 then parent_rate
  else ulong (parent_rate * 32) / div

/-- The macro `DIV_ROUND_CLOSEST(x, divisor)` on `unsigned long` operands,
which is `(x + divisor / 2) / divisor`. -/
def DIV_ROUND_CLOSEST (x divisor : Nat) : Nat := ulong (x + divisor / 2) / divisor

/-- The function `clk_avb_calc_div`. The quotient is an `unsigned long` and is
narrowed by the assignment to the `unsigned int div` before the comparison
with `AVB_MAX_DIV`. -/
def clk_avb_calc_div (rate parent_rate : Nat) : Nat :=
  let rate := if rate = 0 then 1 else rate
  let rate := if rate > AVB_COUNTER_MAX_FREQ then AVB_COUNTER_MAX_FREQ else rate
  let div := u32 (DIV_ROUND_CLOSEST (ulong (parent_rate * 32)) rate)
  if div > AVB_MAX_DIV then AVB_MAX_DIV else div

/-- The function `clk_avb_round_rate`, given `*parent_rate`. The division by
`div` has no defined result when `div` is 0, which is the result `none`;
otherwise the `unsigned long` quotient is returned as a `long`. -/
def clk_avb_round_rate (rate parent_rate : Nat) : Option Int :=
  let div := clk_avb_calc_div rate parent_rate
  if div = 0 then none
  else some (to_long (ulong (parent_rate * 32) / div))

/-- The function `clk_avb_set_rate`: its return value and the register block
it leaves. -/
def clk_avb_set_rate (base : avb_regs) (idx : Nat) (rate parent_rate : Nat) : Int × avb_regs :=
  let div := clk_avb_calc_div rate parent_rate
  let val := clk_readl base (AVB_ID_TO_DIV idx) &&& not_u32 AVB_DIV_MASK
  (0, clk_writel (val ||| div) base (AVB_ID_TO_DIV idx))

/-- The divisor the interface description asks for: round to nearest of
`32 * parent_rate / r` with `r` the rate clamped to `[1, 25000000]`, then
clamped to `0x3ffc0`, in unbounded arithmetic. -/
def calc_div_spec (rate parent_rate : Nat) : Nat :=
  let r := min (max rate 1) 25000000
  min ((32 * parent_rate + r / 2) / r) 0x3ffc0

/-- An assignment of the constants of `rcar_lvds_regs.h`, used to evaluate the
model at concrete inputs. No theorem depends on the values chosen here. -/
def rcar_lvds_regs_sample : rcar_lvds_regs where
  LVDCR0 := 0x0000
  LVDCR0_DUSEL := 1 <<< 15
  LVDCR0_LVMD_SHIFT := 8
  LVDCR0_PLLON := 1 <<< 4
  LVDCR0_PWD := 1 <<< 2
  LVDCR0_BEN := 1 <<< 2
  LVDCR0_LVEN := 1 <<< 1
  LVDCR0_LVRES := 1 <<< 0
  LVDCR1 := 0x0004
  LVDCR1_CHSTBY_GEN2 := fun n => 3 <<< (2 + n * 2)
  LVDCR1_CHSTBY_GEN3 := fun n => 1 <<< (2 + n * 2)
  LVDCR1_CLKSTBY_GEN2 := 3 <<< 0
  LVDCR1_CLKSTBY_GEN3 := 1 <<< 0
  LVDPLLCR := 0x0008
  LVDPLLCR_CEEN := 1 <<< 14
  LVDPLLCR_COSEL := 1 <<< 12
  LVDPLLCR_PLLDLYCNT_150M := 0x1bf
  LVDPLLCR_PLLDLYCNT_121M := 0x22c
  LVDPLLCR_PLLDLYCNT_60M := 0x77b
  LVDPLLCR_PLLDLYCNT_38M := 0x69a
  LVDPLLCR_PLLDIVCNT_42M := 0x014cb
  LVDPLLCR_PLLDIVCNT_85M := 0x00a45
  LVDPLLCR_PLLDIVCNT_128M := 0x006c3
  LVDPLLCR_PLLDIVCNT_148M := 0x046c1
  LVDPLLCR_PLLON := 1 <<< 22
  LVDPLLCR_OCKSEL_7 := 0 <<< 16
  LVDPLLCR_STP_CLKOUTE1_DIS := 0 <<< 14
  LVDPLLCR_STP_CLKOUTE1_EN := 1 <<< 14
  LVDPLLCR_OUTCLKSEL_BEFORE := 0 <<< 12
  LVDPLLCR_OUTCLKSEL_AFTER := 1 <<< 12
  LVDPLLCR_CLKOUT_ENABLE := 1 <<< 11
  LVDPLLCR_CKSEL_EXTAL := 3 <<< 17
  LVDCTRCR := 0x000c
  LVDCTRCR_CTR3SEL_ZERO := 0 <<< 12
  LVDCTRCR_CTR2SEL_DISP := 3 <<< 8
  LVDCTRCR_CTR1SEL_VSYNC := 2 <<< 4
  LVDCTRCR_CTR0SEL_HSYNC := 1 <<< 0
  LVDCHCR := 0x0010
  LVDCHCR_CHSEL_CH := fun n c => ((c + 4 - n) % 4) <<< (n * 4)
  LVDSTRIPE := 0x0014
  LVDDIV := 0x0038
  LVDDIV_DIVSEL := 1 <<< 8
  LVDDIV_DIVRESET := 1 <<< 7

/-- An encoder as `rcar_du_lvdsenc_init` leaves it (index 0, not enabled) on
a Gen3 device with the shared LVDS PLL. -/
def rcar_du_lvdsenc_sample : rcar_du_lvdsenc where
  gen := 3
  has_lvds_pll := true
  needs_lvds_lanes := false
  index := 0
  enabled := false
  input := 0
  mode := 0

/-- A register block used to evaluate the model at concrete inputs: the enable
register holds the common-enable bit 31 and the bits of instances 0 and 2,
every divider register holds `AVB_MAX_DIV` below upper bits that are all set. -/
def avb_regs_sample : avb_regs :=
  fun off => if off = 0x20 then 0x80000005 else 0xffffffc0

/-! ## `rcar_du_lvdsenc.c`: the power-up and power-down sequences -/

/-- The fields of `struct rcar_du_crtc` that the encoder code consults: the
CRTC `index` and the pixel clock `crtc.mode.clock` in kHz, as the
`unsigned int freq` the start functions read it into. -/
structure rcar_du_crtc where
  index : Nat
  mode_clock : Nat
deriving DecidableEq, Repr

/-- What a call on an encoder leaves behind: its return value, the encoder
structure after the call, and the trace of its effects. -/
structure lvds_result where
  ret : Int
  lvds : rcar_du_lvdsenc
  trace : List lvds_event
deriving DecidableEq, Repr

/-- The error number `EINVAL`. -/
def EINVAL : Int := 22

/-- The error number `ENOMEM`. -/
def ENOMEM : Int := 12

/-- The value written to `LVDCTRCR` (lines 166-168 and 342-344). -/
def lvdctrcr_routing (k : rcar_lvds_regs) : Nat :=
  u32 (k.LVDCTRCR_CTR3SEL_ZERO ||| k.LVDCTRCR_CTR2SEL_DISP ||| k.LVDCTRCR_CTR1SEL_VSYNC |||
    k.LVDCTRCR_CTR0SEL_HSYNC)

/-- The local `lvdhcr` of `rcar_du_lvdsenc_start` (lines 170-175). -/
def start_lvdhcr (k : rcar_lvds_regs) (lvds : rcar_du_lvdsenc) : Nat :=
  if lvds.needs_lvds_lanes then
    u32 (k.LVDCHCR_CHSEL_CH 0 0 ||| k.LVDCHCR_CHSEL_CH 1 3 ||| k.LVDCHCR_CHSEL_CH 2 2 |||
      k.LVDCHCR_CHSEL_CH 3 1)
  else
    u32 (k.LVDCHCR_CHSEL_CH 0 0 ||| k.LVDCHCR_CHSEL_CH 1 1 ||| k.LVDCHCR_CHSEL_CH 2 2 |||
      k.LVDCHCR_CHSEL_CH 3 3)

/-- The local `pllcr` of `rcar_du_lvdsenc_start_gen2` (lines 62-69). -/
def start_gen2_pllcr (k : rcar_lvds_regs) (freq : Nat) : Nat :=
  if freq < 39000 then
    u32 (k.LVDPLLCR_CEEN ||| k.LVDPLLCR_COSEL ||| k.LVDPLLCR_PLLDLYCNT_38M)
  else if freq < 61000 then
    u32 (k.LVDPLLCR_CEEN ||| k.LVDPLLCR_COSEL ||| k.LVDPLLCR_PLLDLYCNT_60M)
  else if freq < 121000 then
    u32 (k.LVDPLLCR_CEEN ||| k.LVDPLLCR_COSEL ||| k.LVDPLLCR_PLLDLYCNT_121M)
  else
    u32 k.LVDPLLCR_PLLDLYCNT_150M

/-- The local `lvdcr0` of `rcar_du_lvdsenc_start_gen2` as first written
(lines 77-79). -/
def start_gen2_lvdcr0 (k : rcar_lvds_regs) (lvds : rcar_du_lvdsenc) (rcrtc : rcar_du_crtc) :
    Nat :=
  let lvdcr0 := u32 ((lvds.mode <<< k.LVDCR0_LVMD_SHIFT) ||| k.LVDCR0_BEN ||| k.LVDCR0_LVEN)
  if rcrtc.index = 2 then u32 (lvdcr0 ||| k.LVDCR0_DUSEL) else lvdcr0

/-- The function `rcar_du_lvdsenc_start_gen2`, as the trace of its effects. -/
def rcar_du_lvdsenc_start_gen2 (k : rcar_lvds_regs) (lvds : rcar_du_lvdsenc)
    (rcrtc : rcar_du_crtc) : List lvds_event :=
  let lvdcr0 := start_gen2_lvdcr0 k lvds rcrtc
  [lvds_event.rcar_lvds_write k.LVDPLLCR (start_gen2_pllcr k rcrtc.mode_clock),
   lvds_event.rcar_lvds_write k.LVDCR0 lvdcr0,
   lvds_event.rcar_lvds_write k.LVDCR1
     (u32 (k.LVDCR1_CHSTBY_GEN2 3 ||| k.LVDCR1_CHSTBY_GEN2 2 ||| k.LVDCR1_CHSTBY_GEN2 1 |||
       k.LVDCR1_CHSTBY_GEN2 0 ||| k.LVDCR1_CLKSTBY_GEN2)),
   lvds_event.rcar_lvds_write k.LVDCR0 (u32 (lvdcr0 ||| k.LVDCR0_PLLON)),
   lvds_event.usleep_range 100 150,
   lvds_event.rcar_lvds_write k.LVDCR0 (u32 (u32 (lvdcr0 ||| k.LVDCR0_PLLON) ||| k.LVDCR0_LVRES))]

/-- The local `pllcr` of `rcar_du_lvdsenc_start_gen3` (lines 110-117). -/
def start_gen3_pllcr (k : rcar_lvds_regs) (freq : Nat) : Nat :=
  if freq < 42000 then u32 k.LVDPLLCR_PLLDIVCNT_42M
  else if freq < 85000 then u32 k.LVDPLLCR_PLLDIVCNT_85M
  else if freq < 128000 then u32 k.LVDPLLCR_PLLDIVCNT_128M
  else u32 k.LVDPLLCR_PLLDIVCNT_148M

/-- The function `rcar_du_lvdsenc_start_gen3`, as the trace of its effects. -/
def rcar_du_lvdsenc_start_gen3 (k : rcar_lvds_regs) (lvds : rcar_du_lvdsenc)
    (rcrtc : rcar_du_crtc) : List lvds_event :=
  let lvdcr0 := u32 ((lvds.mode <<< k.LVDCR0_LVMD_SHIFT) ||| k.LVDCR0_PLLON)
  [lvds_event.rcar_lvds_write k.LVDPLLCR (start_gen3_pllcr k rcrtc.mode_clock),
   lvds_event.rcar_lvds_write k.LVDCR1
     (u32 (k.LVDCR1_CHSTBY_GEN3 3 ||| k.LVDCR1_CHSTBY_GEN3 2 ||| k.LVDCR1_CHSTBY_GEN3 1 |||
       k.LVDCR1_CHSTBY_GEN3 0 ||| k.LVDCR1_CLKSTBY_GEN3)),
   lvds_event.rcar_lvds_write k.LVDCR0 lvdcr0,
   lvds_event.rcar_lvds_write k.LVDCR0 (u32 (lvdcr0 ||| k.LVDCR0_PWD)),
   lvds_event.usleep_range 100 150,
   lvds_event.rcar_lvds_write k.LVDCR0 (u32 (u32 (lvdcr0 ||| k.LVDCR0_PWD) ||| k.LVDCR0_LVRES))]

/-- The function `rcar_du_lvdsenc_start`. `clk_ret` is the value
`clk_prepare_enable` returns. -/
def rcar_du_lvdsenc_start (k : rcar_lvds_regs) (lvds : rcar_du_lvdsenc) (rcrtc : rcar_du_crtc)
    (clk_ret : Int) : lvds_result :=
  if lvds.enabled then { ret := 0, lvds := lvds, trace := [] }
  else if clk_ret < 0 then
    { ret := clk_ret, lvds := lvds,
      trace := [lvds_event.reset_control_deassert, lvds_event.clk_prepare_enable] }
  else
    { ret := 0,
      lvds := { lvds with enabled := true },
      trace :=
        [lvds_event.reset_control_deassert, lvds_event.clk_prepare_enable,
         lvds_event.rcar_lvds_write k.LVDCTRCR (lvdctrcr_routing k),
         lvds_event.rcar_lvds_write k.LVDCHCR (start_lvdhcr k lvds)] ++
        (if lvds.gen < 3 then rcar_du_lvdsenc_start_gen2 k lvds rcrtc
         else rcar_du_lvdsenc_start_gen3 k lvds rcrtc) }

/-- The function `rcar_du_lvdsenc_pll_start`. -/
def rcar_du_lvdsenc_pll_start (k : rcar_lvds_regs) (lvds : rcar_du_lvdsenc)
    (_rcrtc : rcar_du_crtc) : lvds_result :=
  let lvdcr0 := u32 ((lvds.mode <<< k.LVDCR0_LVMD_SHIFT) ||| k.LVDCR0_PWD)
  { ret := 0,
    lvds := { lvds with enabled := true },
    trace :=
      [lvds_event.rcar_lvds_write k.LVDCTRCR (lvdctrcr_routing k),
       lvds_event.rcar_lvds_write k.LVDCHCR
         (u32 (k.LVDCHCR_CHSEL_CH 0 0 ||| k.LVDCHCR_CHSEL_CH 1 1 ||| k.LVDCHCR_CHSEL_CH 2 2 |||
           k.LVDCHCR_CHSEL_CH 3 3)),
       lvds_event.rcar_lvds_write k.LVDSTRIPE 0,
       lvds_event.rcar_lvds_write k.LVDCR1
         (u32 (k.LVDCR1_CHSTBY_GEN3 3 ||| k.LVDCR1_CHSTBY_GEN3 2 ||| k.LVDCR1_CHSTBY_GEN3 1 |||
           k.LVDCR1_CHSTBY_GEN3 0 ||| k.LVDCR1_CLKSTBY_GEN3)),
       lvds_event.rcar_lvds_write k.LVDCR0 lvdcr0,
       lvds_event.rcar_lvds_write k.LVDCR0 (u32 (lvdcr0 ||| k.LVDCR0_LVEN)),
       lvds_event.rcar_lvds_write k.LVDCR0
         (u32 (u32 (lvdcr0 ||| k.LVDCR0_LVEN) ||| k.LVDCR0_LVRES))] }

/-- The function `__rcar_du_lvdsenc_stop`: the encoder it leaves and the trace
of its effects. -/
def __rcar_du_lvdsenc_stop (k : rcar_lvds_regs) (lvds : rcar_du_lvdsenc) :
    rcar_du_lvdsenc × List lvds_event :=
  ({ lvds with enabled := false },
   [lvds_event.rcar_lvds_write k.LVDCR0 0,
    lvds_event.rcar_lvds_write k.LVDCR1 0,
    lvds_event.rcar_lvds_write k.LVDPLLCR 0,
    lvds_event.clk_disable_unprepare,
    lvds_event.reset_control_assert])

/-- The function `rcar_du_lvdsenc_stop`. -/
def rcar_du_lvdsenc_stop (k : rcar_lvds_regs) (lvds : rcar_du_lvdsenc) :
    rcar_du_lvdsenc × List lvds_event :=
  if !lvds.enabled || lvds.has_lvds_pll then (lvds, [])
  else __rcar_du_lvdsenc_stop k lvds

/-- The function `rcar_du_lvdsenc_enable(lvds, crtc, enable)`. A `NULL` crtc
is `none`; `clk_ret` is the value `clk_prepare_enable` returns if it comes to
be called. -/
def rcar_du_lvdsenc_enable (k : rcar_lvds_regs) (lvds : rcar_du_lvdsenc)
    (crtc : Option rcar_du_crtc) (enable : Bool) (clk_ret : Int) : lvds_result :=
  if !enable then
    { ret := 0, lvds := (rcar_du_lvdsenc_stop k lvds).1,
      trace := (rcar_du_lvdsenc_stop k lvds).2 }
  else
    match crtc with
    | some rcrtc =>
      if lvds.has_lvds_pll then rcar_du_lvdsenc_pll_start k lvds rcrtc
      else rcar_du_lvdsenc_start k lvds rcrtc clk_ret
    | none => { ret := -EINVAL, lvds := lvds, trace := [] }

/-- The kernel's `max(x, y)`, which is `x > y ? x : y`. -/
def kernel_max (x y : Int) : Int := if x > y then x else y

/-- The kernel's `min(x, y)`, which is `x < y ? x : y`. -/
def kernel_min (x y : Int) : Int := if x < y then x else y

/-- The kernel's `clamp(val, lo, hi)`, which is `min(max(val, lo), hi)`. -/
def clamp (val lo hi : Int) : Int := kernel_min (kernel_max val lo) hi

/-- The function `rcar_du_lvdsenc_atomic_check(lvds, mode)`: the encoder after
the call and the value of `mode->clock` after the call, given its value
`clock` before. -/
def rcar_du_lvdsenc_atomic_check (lvds : rcar_du_lvdsenc) (clock : Int) :
    rcar_du_lvdsenc × Int :=
  if lvds.gen < 3 then (lvds, clamp clock 30000 150000)
  else (lvds, clamp clock 25175 148500)

/-- The function `rcar_du_lvdsenc_set_mode`. -/
def rcar_du_lvdsenc_set_mode (lvds : rcar_du_lvdsenc) (mode : Nat) : rcar_du_lvdsenc :=
  { lvds with mode := mode }

/-- The loop of `rcar_du_lvdsenc_init` from index `i` on, with `remaining`
encoders still to create: the return value and the encoders stored in
`rcdu->lvds[]`. `kzalloc_ok i` tells whether the allocation for index `i`
succeeds and `get_resources i` is what `rcar_du_lvdsenc_get_resources`
returns for it. The device fields `gen`, `has_lvds_pll` and `needs_lvds_lanes`
are reached through `lvds->dev`; `mode` is 0 from `devm_kzalloc`. -/
def rcar_du_lvdsenc_init_from (gen : Nat) (has_lvds_pll needs_lvds_lanes : Bool)
    (kzalloc_ok : Nat → Bool) (get_resources : Nat → Int) :
    Nat → Nat → Int × List rcar_du_lvdsenc
  | _, 0 => (0, [])
  | i, remaining + 1 =>
    if !(kzalloc_ok i) then (-ENOMEM, [])
    else if get_resources i < 0 then (get_resources i, [])
    else
      ((rcar_du_lvdsenc_init_from gen has_lvds_pll needs_lvds_lanes kzalloc_ok get_resources
          (i + 1) remaining).1,
       { gen := gen, has_lvds_pll := has_lvds_pll, needs_lvds_lanes := needs_lvds_lanes,
         index := i, enabled := false, input := if i ≠ 0 then 1 else 0, mode := 0 } ::
       (rcar_du_lvdsenc_init_from gen has_lvds_pll needs_lvds_lanes kzalloc_ok get_resources
          (i + 1) remaining).2)

/-- The function `rcar_du_lvdsenc_init` for a device with `num_lvds`
encoders. -/
def rcar_du_lvdsenc_init (gen : Nat) (has_lvds_pll needs_lvds_lanes : Bool) (num_lvds : Nat)
    (kzalloc_ok : Nat → Bool) (get_resources : Nat → Int) : Int × List rcar_du_lvdsenc :=
  rcar_du_lvdsenc_init_from gen has_lvds_pll needs_lvds_lanes kzalloc_ok get_resources 0 num_lvds

/-- An encoder as `rcar_du_lvdsenc_init` leaves it (index 0, not enabled) on
a Gen2 device without the shared LVDS PLL. -/
def rcar_du_lvdsenc_sample_gen2 : rcar_du_lvdsenc where
  gen := 2
  has_lvds_pll := false
  needs_lvds_lanes := false
  index := 0
  enabled := false
  input := 0
  mode := 0

/-! ### The stage formulas of the interface description -/

/-- The documented VCO frequency `input_freq * (N + 1) / (M + 1)`. -/
def pll_doc_fvco (in_fre n m : Nat) : Nat := in_fre * (n + 1) / (m + 1)

/-- The documented phase-detector frequency `input_freq / (M + 1)`. -/
def pll_doc_fpfd (in_fre m : Nat) : Nat := in_fre / (m + 1)

/-- The documented output before the divide-by-7 stage: `fvco` divided by 2
if the extra divider is requested, `fvco` unchanged otherwise. -/
def pll_doc_fout_pre (in_fre n m : Nat) (edivider : Bool) : Nat :=
  if edivider then pll_doc_fvco in_fre n m / 2 else pll_doc_fvco in_fre n m

/-! ### What the sequencer claims assume of the register constants -/

/-- The properties of the constants of `rcar_lvds_regs.h` that the claims on
the order of the register writes depend on: the five registers of the legacy
start sequence have different offsets, `LVDCR0_PLLON` and `LVDCR0_LVRES` are
32-bit values, `LVDCR0_LVRES` is not 0, lies below the mode field and shares
no bit with the other `LVDCR0` constants the start functions use. -/
structure rcar_lvds_regs_layout (k : rcar_lvds_regs) : Prop where
  lvdpllcr_ne_lvdctrcr : k.LVDPLLCR ≠ k.LVDCTRCR
  lvdpllcr_ne_lvdchcr : k.LVDPLLCR ≠ k.LVDCHCR
  lvdpllcr_ne_lvdcr0 : k.LVDPLLCR ≠ k.LVDCR0
  lvdpllcr_ne_lvdcr1 : k.LVDPLLCR ≠ k.LVDCR1
  lvdcr0_ne_lvdctrcr : k.LVDCR0 ≠ k.LVDCTRCR
  lvdcr0_ne_lvdchcr : k.LVDCR0 ≠ k.LVDCHCR
  lvdcr0_ne_lvdcr1 : k.LVDCR0 ≠ k.LVDCR1
  pllon_lt : k.LVDCR0_PLLON < 2 ^ 32
  lvres_lt : k.LVDCR0_LVRES < 2 ^ 32
  lvres_ne_zero : k.LVDCR0_LVRES ≠ 0
  lvres_below_mode : k.LVDCR0_LVRES < 2 ^ k.LVDCR0_LVMD_SHIFT
  ben_lvres : k.LVDCR0_BEN &&& k.LVDCR0_LVRES = 0
  lven_lvres : k.LVDCR0_LVEN &&& k.LVDCR0_LVRES = 0
  dusel_lvres : k.LVDCR0_DUSEL &&& k.LVDCR0_LVRES = 0
  pllon_lvres : k.LVDCR0_PLLON &&& k.LVDCR0_LVRES = 0
  pwd_lvres : k.LVDCR0_PWD &&& k.LVDCR0_LVRES = 0

/-- The values written to the register `reg`, in program order. -/
def lvds_writes_to (reg : Nat) : List lvds_event → List Nat
  | [] => []
  | lvds_event.rcar_lvds_write r data :: rest =>
    if r = reg then data :: lvds_writes_to reg rest else lvds_writes_to reg rest
  | _ :: rest => lvds_writes_to reg rest

/-- The delays of a trace, in program order. -/
def lvds_delays : List lvds_event → List (Nat × Nat)
  | [] => []
  | lvds_event.usleep_range lo hi :: rest => (lo, hi) :: lvds_delays rest
  | _ :: rest => lvds_delays rest

/-! ## `clk-avb.c`: registration and sequences of calls -/

/-- The effect of `clk_register_avb(data, id)` on the register block: the
divider register of the instance is set to `AVB_MAX_DIV`, unless the
allocation of the `struct clk_avb` fails, in which case the function returns
before the write. -/
def clk_register_avb (base : avb_regs) (id : Nat) (kzalloc_ok : Bool) : avb_regs :=
  if !kzalloc_ok then base
  else clk_writel AVB_MAX_DIV base (AVB_ID_TO_DIV id)

/-- The register block after the loop of `clk_avb_setup` (lines 226-233) has
registered all `AVB_COUNTER_NUM` instances. -/
def clk_avb_register_all (base : avb_regs) : avb_regs :=
  (List.range AVB_COUNTER_NUM).foldl (fun b i => clk_register_avb b i true) base

/-- The register block `clk_avb_setup` leaves when every allocation and
registration succeeds: all instances registered, then `AVB_DIV_EN_COM`
written to `AVB_CLK_CONFIG` (line 241). -/
def clk_avb_setup (base : avb_regs) : avb_regs :=
  clk_writel AVB_DIV_EN_COM (clk_avb_register_all base) AVB_CLK_CONFIG

/-- A call of one of the clock operations that change the register block. -/
inductive avb_call where
  | enable (idx : Nat)
  | disable (idx : Nat)
  | set_rate (idx rate parent_rate : Nat)
deriving DecidableEq, Repr

/-- The instance a call is made on. -/
def avb_call_idx : avb_call → Nat
  | avb_call.enable idx => idx
  | avb_call.disable idx => idx
  | avb_call.set_rate idx _ _ => idx

/-- The register block after one call. -/
def avb_call_run (base : avb_regs) : avb_call → avb_regs
  | avb_call.enable idx => (clk_avb_enable base idx).2
  | avb_call.disable idx => clk_avb_disable base idx
  | avb_call.set_rate idx rate parent_rate => (clk_avb_set_rate base idx rate parent_rate).2

/-- The register block after a sequence of calls. -/
def avb_calls_run (base : avb_regs) (calls : List avb_call) : avb_regs :=
  calls.foldl avb_call_run base

/-! ## `r8a77965-cpg-mssr.c`: decoding the mode pins -/

/-- The fields of `struct rcar_gen3_cpg_pll_config` that `cpg_pll_configs`
initialises. -/
structure rcar_gen3_cpg_pll_config where
  extal_div : Nat
  pll1_mult : Nat
  pll3_mult : Nat
deriving DecidableEq, Repr

/-- The macro `CPG_PLL_CONFIG_INDEX(md)`. -/
def CPG_PLL_CONFIG_INDEX (md : Nat) : Nat :=
  ((md &&& BIT 14) >>> 11) ||| ((md &&& BIT 13) >>> 11) ||| ((md &&& BIT 19) >>> 18) |||
    ((md &&& BIT 17) >>> 17)

/-- The array `cpg_pll_configs[16]`; a `Prohibited setting` row has all its
fields 0. -/
def cpg_pll_configs : List rcar_gen3_cpg_pll_config :=
  [⟨1, 192, 192⟩, ⟨1, 192, 128⟩, ⟨0, 0, 0⟩, ⟨1, 192, 192⟩,
   ⟨1, 160, 160⟩, ⟨1, 160, 106⟩, ⟨0, 0, 0⟩, ⟨1, 160, 160⟩,
   ⟨1, 128, 128⟩, ⟨1, 128, 84⟩, ⟨0, 0, 0⟩, ⟨1, 128, 128⟩,
   ⟨2, 192, 192⟩, ⟨2, 192, 128⟩, ⟨0, 0, 0⟩, ⟨2, 192, 192⟩]

/-- How `r8a77965_cpg_mssr_init` ends: with a return value of its own, or with
the call `rcar_gen3_cpg_init(cpg_pll_config, CLK_EXTALR, cpg_mode)` whose
value it returns. -/
inductive cpg_mssr_init_result where
  | returned (code : Int)
  | rcar_gen3_cpg_init (config : rcar_gen3_cpg_pll_config) (clk_extalr mode : Nat)
deriving DecidableEq, Repr

/-- The function `r8a77965_cpg_mssr_init`. `clk_osc` is `R8A77965_CLK_OSC`
(from the binding header; `CLK_EXTALR` is two enumerators after it),
`read_error` is what `rcar_rst_read_mode_pins` returns and `cpg_mode` the
mode word it stores. The index is below 16, so the entry read is one of the
array. -/
def r8a77965_cpg_mssr_init (clk_osc : Nat) (read_error : Int) (cpg_mode : Nat) :
    cpg_mssr_init_result :=
  if read_error ≠ 0 then cpg_mssr_init_result.returned read_error
  else
    let cpg_pll_config := cpg_pll_configs.getD (CPG_PLL_CONFIG_INDEX cpg_mode) ⟨0, 0, 0⟩
    if cpg_pll_config.extal_div = 0 then cpg_mssr_init_result.returned (-EINVAL)
    else cpg_mssr_init_result.rcar_gen3_cpg_init cpg_pll_config (clk_osc + 2) cpg_mode

/-- The table in the comment above `CPG_PLL_CONFIG_INDEX`, by the mode pins
MD14, MD13, MD19, MD17: `none` for a `Prohibited setting`, otherwise the EXTAL
divider (1 for `x 1`, 2 for `/ 2`) and the PLL1 and PLL3 multipliers of the
row. -/
def cpg_pll_documented : Bool → Bool → Bool → Bool → Option rcar_gen3_cpg_pll_config
  | false, false, false, false => some ⟨1, 192, 192⟩
  | false, false, false, true => some ⟨1, 192, 128⟩
  | false, false, true, false => none
  | false, false, true, true => some ⟨1, 192, 192⟩
  | false, true, false, false => some ⟨1, 160, 160⟩
  | false, true, false, true => some ⟨1, 160, 106⟩
  | false, true, true, false => none
  | false, true, true, true => some ⟨1, 160, 160⟩
  | true, false, false, false => some ⟨1, 128, 128⟩
  | true, false, false, true => some ⟨1, 128, 84⟩
  | true, false, true, false => none
  | true, false, true, true => some ⟨1, 128, 128⟩
  | true, true, false, false => some ⟨2, 192, 192⟩
  | true, true, false, true => some ⟨2, 192, 128⟩
  | true, true, true, false => none
  | true, true, true, true => some ⟨2, 192, 192⟩

/-! ### The search domain under the documented and the truncated formulas -/

/-- The pair `(n, m)` lies in the search domain and passes the three legality
checks on the documented stage frequencies. -/
def pll_doc_legal (in_fre : Nat) (edivider : Bool) (n m : Nat) : Prop :=
  60 ≤ n + 1 ∧ n + 1 ≤ 120 ∧ 1 ≤ m + 1 ∧ m + 1 ≤ 7 ∧
  pll_doc_fout_pre in_fre n m edivider ≤ 1039500000 ∧
  12000000 ≤ pll_doc_fpfd in_fre m ∧ pll_doc_fpfd in_fre m ≤ 24000000 ∧
  900000000 ≤ pll_doc_fvco in_fre n m ∧ pll_doc_fvco in_fre n m ≤ 1800000000

instance (in_fre : Nat) (edivider : Bool) (n m : Nat) :
    Decidable (pll_doc_legal in_fre edivider n m) := by
  unfold pll_doc_legal; infer_instance

/-- The error `|fout / DIV - mode_freq|` of the candidate `(n, m, div)` under
the documented formulas: `fout` is the documented output divided by 7,
`DIV = div + 1`, integer division. -/
def pll_doc_error (in_fre mode_freq : Nat) (edivider : Bool) (n m div : Nat) : Nat :=
  Int.natAbs ((pll_doc_fout_pre in_fre n m edivider / 7 / (div + 1) : Nat) - (mode_freq : Int))

/-- The VCO frequency from the input clock truncated to kHz, in plain
arithmetic: `(in_fre / 1000) * (N + 1) / (M + 1) * 1000`. -/
def pll_khz_fvco (in_fre n m : Nat) : Nat := in_fre / 1000 * (n + 1) / (m + 1) * 1000

/-- The output before the divide-by-7 stage from the input clock truncated to
kHz, in plain arithmetic: `(in_fre / 1000) * (N + 1) / ((M + 1) * 2) * 1000`
with the extra divider, the truncated `fvco` without it. -/
def pll_khz_fout_pre (in_fre n m : Nat) (edivider : Bool) : Nat :=
  if edivider then in_fre / 1000 * (n + 1) / ((m + 1) * 2) * 1000 else pll_khz_fvco in_fre n m

/-- The pair `(n, m)` lies in the search domain and passes the three legality
checks on the stage frequencies of the truncated formulas (`fpfd` is
`in_fre / (M + 1)`, not truncated). -/
def pll_khz_legal (in_fre : Nat) (edivider : Bool) (n m : Nat) : Prop :=
  60 ≤ n + 1 ∧ n + 1 ≤ 120 ∧ 1 ≤ m + 1 ∧ m + 1 ≤ 7 ∧
  pll_khz_fout_pre in_fre n m edivider ≤ 1039500000 ∧
  12000000 ≤ in_fre / (m + 1) ∧ in_fre / (m + 1) ≤ 24000000 ∧
  900000000 ≤ pll_khz_fvco in_fre n m ∧ pll_khz_fvco in_fre n m ≤ 1800000000

instance (in_fre : Nat) (edivider : Bool) (n m : Nat) :
    Decidable (pll_khz_legal in_fre edivider n m) := by
  unfold pll_khz_legal; infer_instance

/-- The error `|fout / DIV - mode_freq|` of the candidate `(n, m, div)` under
the truncated formulas: `fout` is the truncated output divided by 7,
`DIV = div + 1`, integer division. -/
def pll_khz_error (in_fre mode_freq : Nat) (edivider : Bool) (n m div : Nat) : Nat :=
  Int.natAbs ((pll_khz_fout_pre in_fre n m edivider / 7 / (div + 1) : Nat) - (mode_freq : Int))

instance (n m d n' m' d' : Nat) : Decidable (pll_before n m d n' m' d') := by
  unfold pll_before; infer_instance

/-! # Theorems -/

/-! ## Loops and machine arithmetic -/

/-- Induction over a counted loop: an invariant that holds before the loop and
is carried by each iteration holds after it. -/
theorem foldl_range_inv {σ : Type} (f : σ → Nat → σ) (I : Nat → σ → Prop) (k : Nat) (s0 : σ)
    (h0 : I 0 s0) (hstep : ∀ i s, i < k → I i s → I (i + 1) (f s i)) :
    I k ((List.range k).foldl f s0) := by
  induction k with
  | zero => simpa using h0
  | succ k ih =>
    rw [List.range_succ, List.foldl_append]
    simp only [List.foldl_cons, List.foldl_nil]
    exact hstep k _ (Nat.lt_succ_self k)
      (ih (fun i s hi hI => hstep i s (Nat.lt_succ_of_lt hi) hI))

theorem u32_of_lt {x : Nat} (h : x < 4294967296) : u32 x = x := Nat.mod_eq_of_lt h

theorem ulong_of_lt {x : Nat} (h : x < 18446744073709551616) : ulong x = x :=
  Nat.mod_eq_of_lt h

theorem u32_lt (x : Nat) : u32 x < 4294967296 := Nat.mod_lt _ (by decide)

theorem abs_long_diff_eq {a b : Nat} (ha : a < 4294967296) (hb : b < 4294967296) :
    abs_long_diff a b = Int.natAbs ((a : Int) - (b : Int)) := by
  unfold abs_long_diff to_long ulong
  have h1 : a % 18446744073709551616 = a := Nat.mod_eq_of_lt (by omega)
  have h2 : b % 18446744073709551616 = b := Nat.mod_eq_of_lt (by omega)
  rw [h1, h2, if_pos (by omega), if_pos (by omega)]
  simp only [Int.ofNat_eq_coe]
  omega

theorem abs_long_diff_lt {a b : Nat} (ha : a < 4294967296) (hb : b < 4294967296) :
    abs_long_diff a b < 4294967296 := by
  rw [abs_long_diff_eq ha hb]; omega

/-! ## The PLL parameter search -/

theorem pll_before_trans {n m d n' m' d' n'' m'' d'' : Nat}
    (h1 : pll_before n m d n' m' d') (h2 : pll_before n' m' d' n'' m'' d'') :
    pll_before n m d n'' m'' d'' := by
  unfold pll_before at *; omega

theorem pll_seen_mono {in_fre : Nat} {edivider : Bool} {N M D N' M' D' n m d : Nat}
    (hpos : pll_before N M D N' M' D' ∨ (N = N' ∧ M = M' ∧ D = D'))
    (h : pll_seen in_fre edivider N M D n m d) : pll_seen in_fre edivider N' M' D' n m d := by
  refine ⟨h.1, h.2.1, ?_⟩
  have := h.2.2
  unfold pll_before at *; omega

/-- A legal pair has small stage frequencies: nothing wraps. -/
theorem pll_fout7_le {in_fre : Nat} {edivider : Bool} {n m : Nat}
    (h : pll_legal in_fre edivider n m) : pll_fout7 in_fre edivider n m ≤ 148500000 := by
  have := h.2.2.2.2.1
  unfold pll_fout7; omega

/-- On a legal candidate the machine expression for `diff` is the error of the
candidate. -/
theorem abs_long_diff_eq_error {in_fre mode_freq : Nat} {edivider : Bool} {n m d : Nat}
    (h : pll_legal in_fre edivider n m) (hmode : mode_freq < 4294967296) :
    abs_long_diff (pll_fout7 in_fre edivider n m / (d + 1)) mode_freq
      = pll_error in_fre mode_freq edivider n m d := by
  have h7 := pll_fout7_le h
  have hq : pll_fout7 in_fre edivider n m / (d + 1) ≤ pll_fout7 in_fre edivider n m :=
    Nat.div_le_self _ _
  rw [abs_long_diff_eq (by omega) hmode]
  rfl

theorem pll_error_lt {in_fre mode_freq : Nat} {edivider : Bool} {n m d : Nat}
    (h : pll_legal in_fre edivider n m) (hmode : mode_freq < 4294967296) :
    pll_error in_fre mode_freq edivider n m d < 4294967296 := by
  have h7 := pll_fout7_le h
  have hq : pll_fout7 in_fre edivider n m / (d + 1) ≤ pll_fout7 in_fre edivider n m :=
    Nat.div_le_self _ _
  unfold pll_error
  generalize pll_fout7 in_fre edivider n m / (d + 1) = q at hq ⊢
  omega

/-- The invariant only depends on which candidates have been seen. -/
theorem pll_inv_congr {pll0 : pll_info} {in_fre mode_freq : Nat} {edivider : Bool}
    {N M D N' M' D' : Nat} {s : pll_calc_state}
    (hiff : ∀ n m d, pll_seen in_fre edivider N M D n m d ↔
      pll_seen in_fre edivider N' M' D' n m d)
    (h : pll_inv pll0 in_fre mode_freq edivider N M D s) :
    pll_inv pll0 in_fre mode_freq edivider N' M' D' s where
  fresh hc := ⟨(h.fresh hc).1, (h.fresh hc).2.1,
    fun n m d hs => (h.fresh hc).2.2 n m d ((hiff n m d).2 hs)⟩
  stored_seen hc := (hiff _ _ _).1 (h.stored_seen hc)
  stored_diff := h.stored_diff
  stored_clk := h.stored_clk
  done_iff := h.done_iff
  least hc hd n m d hs := h.least hc hd n m d ((hiff n m d).2 hs)
  first := h.first
  done_set := h.done_set

/-- After `goto done` the invariant holds at every later position. -/
theorem pll_inv_done {pll0 : pll_info} {in_fre mode_freq : Nat} {edivider : Bool}
    {N M D N' M' D' : Nat} {s : pll_calc_state} (hdone : s.done = true)
    (hpos : pll_before N M D N' M' D' ∨ (N = N' ∧ M = M' ∧ D = D'))
    (h : pll_inv pll0 in_fre mode_freq edivider N M D s) :
    pll_inv pll0 in_fre mode_freq edivider N' M' D' s where
  fresh hc := by have := h.done_set hdone; simp_all
  stored_seen hc := pll_seen_mono hpos (h.stored_seen hc)
  stored_diff := h.stored_diff
  stored_clk := h.stored_clk
  done_iff := h.done_iff
  least hc hd := by simp_all
  first := h.first
  done_set := h.done_set

/-- One iteration of the `div` loop on a legal pair carries the invariant from
position `(n, m, d)` to `(n, m, d + 1)`. -/
theorem pll_calc_div_body_inv {pll0 : pll_info} {in_fre mode_freq : Nat} {edivider : Bool}
    {n m d : Nat} {s : pll_calc_state}
    (hl : pll_legal in_fre edivider n m) (hd : d < 64) (hmode : mode_freq < 4294967296)
    (h : pll_inv pll0 in_fre mode_freq edivider n m d s) :
    pll_inv pll0 in_fre mode_freq edivider n m (d + 1)
      (pll_calc_div_body (pll_fout7 in_fre edivider n m) mode_freq n m 0 s d) := by
  obtain ⟨pll, cds, dn⟩ := s
  have herr := abs_long_diff_eq_error (d := d) hl hmode
  have hlt := pll_error_lt (d := d) hl hmode
  have hn : n < 120 := by have := hl.2.1; omega
  have hm : m < 7 := by have := hl.2.2.2.1; omega
  have h7 := pll_fout7_le hl
  have hnew : pll_seen in_fre edivider n m (d + 1) n m d :=
    ⟨hl, hd, by unfold pll_before; omega⟩
  have hsplit : ∀ n' m' d', pll_seen in_fre edivider n m (d + 1) n' m' d' →
      pll_seen in_fre edivider n m d n' m' d' ∨ (n' = n ∧ m' = m ∧ d' = d) := by
    intro n' m' d' hs
    by_cases hc : n' = n ∧ m' = m ∧ d' = d
    · exact Or.inr hc
    · refine Or.inl ⟨hs.1, hs.2.1, ?_⟩
      have := hs.2.2
      unfold pll_before at *; omega
  cases dn with
  | true =>
    simp only [pll_calc_div_body, if_true]
    exact pll_inv_done rfl (Or.inl (by unfold pll_before; omega)) h
  | false =>
    simp only [pll_calc_div_body, herr, Bool.false_eq_true, if_false]
    by_cases hupd : (cds || (pll_error in_fre mode_freq edivider n m d == 0 ||
        decide (pll.diff > pll_error in_fre mode_freq edivider n m d))) = true
    · rw [if_pos hupd]
      rw [u32_of_lt (by omega : pll_fout7 in_fre edivider n m < 4294967296), u32_of_lt hlt,
        u32_of_lt (by omega : n < 4294967296), u32_of_lt (by omega : m < 4294967296),
        u32_of_lt (by omega : 0 < 4294967296), u32_of_lt (by omega : d < 4294967296)]
      -- every candidate seen so far has an error above the new one
      have hold : ∀ n' m' d', pll_seen in_fre edivider n m d n' m' d' →
          pll_error in_fre mode_freq edivider n m d <
            pll_error in_fre mode_freq edivider n' m' d' := by
        intro n' m' d' hs
        cases cds with
        | true => exact absurd hs ((h.fresh rfl).2.2 n' m' d')
        | false =>
          have hle := h.least rfl rfl n' m' d' hs
          have hne : pll.diff ≠ 0 := fun h0 => by
            have := (h.done_iff rfl).2 h0
            simp at this
          simp only [Bool.false_or, Bool.or_eq_true, beq_iff_eq, decide_eq_true_eq] at hupd
          simp only at hle hne
          omega
      constructor
      · intro hc; simp at hc
      · intro _; exact hnew
      · intro _; rfl
      · intro _; exact ⟨rfl, rfl⟩
      · intro _; simp
      · intro _ _ n' m' d' hs
        rcases hsplit n' m' d' hs with hs' | ⟨rfl, rfl, rfl⟩
        · exact Nat.le_of_lt (hold n' m' d' hs')
        · exact Nat.le_refl _
      · intro _ n' m' d' hl' hd' hb
        exact hold n' m' d' ⟨hl', hd', hb⟩
      · intro _; rfl
    · rw [if_neg hupd]
      simp only [Bool.or_eq_true, beq_iff_eq, decide_eq_true_eq, not_or, Bool.not_eq_true,
        not_lt] at hupd
      obtain ⟨hc, hne, hge⟩ := hupd
      subst hc
      exact {
        fresh := fun hc => by simp at hc
        stored_seen := fun _ =>
          pll_seen_mono (Or.inl (by unfold pll_before; omega)) (h.stored_seen rfl)
        stored_diff := h.stored_diff
        stored_clk := h.stored_clk
        done_iff := h.done_iff
        least := fun _ _ n' m' d' hs => by
          rcases hsplit n' m' d' hs with hs' | ⟨rfl, rfl, rfl⟩
          · exact h.least rfl rfl n' m' d' hs'
          · exact hge
        first := h.first
        done_set := h.done_set }

/-- The body of the `e` loop, read through `pll_legal`: the three `continue`
checks let exactly the legal pairs through to the `div` loop. -/
theorem pll_calc_e_body_eq (in_fre mode_freq : Nat) (edivider : Bool) (n m : Nat)
    (s : pll_calc_state) (hn1 : 60 ≤ n + 1) (hn2 : n + 1 ≤ 120) (hm : m + 1 ≤ 7) :
    pll_calc_e_body in_fre mode_freq edivider n m s 0 =
      if s.done = true then s
      else if pll_legal in_fre edivider n m then
        (List.range 64).foldl
          (pll_calc_div_body (pll_fout7 in_fre edivider n m) mode_freq n m 0) s
      else s := by
  obtain ⟨pll, cds, dn⟩ := s
  cases dn with
  | true => simp [pll_calc_e_body]
  | false =>
    simp only [pll_calc_e_body, Bool.false_eq_true, if_false, pll_fout7]
    by_cases h1 : pll_calc_fout in_fre n m 0 edivider > 1039500000
    · rw [if_pos h1, if_neg]
      intro hl; have := hl.2.2.2.2.1; omega
    · rw [if_neg h1]
      by_cases h2 : (decide (pll_calc_fpfd in_fre m < 12000000) ||
          decide (pll_calc_fpfd in_fre m > 24000000)) = true
      · rw [if_pos h2, if_neg]
        intro hl
        have h3 := hl.2.2.2.2.2.1
        have h4 := hl.2.2.2.2.2.2.1
        simp only [Bool.or_eq_true, decide_eq_true_eq] at h2
        omega
      · rw [if_neg h2]
        by_cases h3 : (decide (pll_calc_fvco in_fre n m < 900000000) ||
            decide (pll_calc_fvco in_fre n m > 1800000000)) = true
        · rw [if_pos h3, if_neg]
          intro hl
          have h4 := hl.2.2.2.2.2.2.2
          simp only [Bool.or_eq_true, decide_eq_true_eq] at h3
          omega
        · rw [if_neg h3, if_pos]
          simp only [Bool.or_eq_true, decide_eq_true_eq, not_or, not_lt] at h2 h3
          exact ⟨hn1, hn2, by omega, hm, by omega, by omega, by omega, by omega, by omega⟩

/-- The `e` loop body carries the invariant from `(n, m, 0)` to `(n, m + 1, 0)`. -/
theorem pll_calc_e_body_inv {pll0 : pll_info} {in_fre mode_freq : Nat} {edivider : Bool}
    {n m : Nat} {s : pll_calc_state}
    (hn1 : 60 ≤ n + 1) (hn2 : n + 1 ≤ 120) (hm : m + 1 ≤ 7) (hmode : mode_freq < 4294967296)
    (h : pll_inv pll0 in_fre mode_freq edivider n m 0 s) :
    pll_inv pll0 in_fre mode_freq edivider n (m + 1) 0
      (pll_calc_e_body in_fre mode_freq edivider n m s 0) := by
  rw [pll_calc_e_body_eq in_fre mode_freq edivider n m s hn1 hn2 hm]
  by_cases hdn : s.done = true
  · rw [if_pos hdn]
    exact pll_inv_done hdn (Or.inl (by unfold pll_before; omega)) h
  · rw [if_neg hdn]
    by_cases hl : pll_legal in_fre edivider n m
    · rw [if_pos hl]
      have h64 := foldl_range_inv
        (pll_calc_div_body (pll_fout7 in_fre edivider n m) mode_freq n m 0)
        (fun i s => pll_inv pll0 in_fre mode_freq edivider n m i s) 64 s h
        (fun i s hi hI => pll_calc_div_body_inv hl hi hmode hI)
      refine pll_inv_congr (fun n' m' d' => ?_) h64
      unfold pll_seen pll_before
      constructor <;> rintro ⟨h1, h2, h3⟩ <;> exact ⟨h1, h2, by omega⟩
    · rw [if_neg hl]
      refine pll_inv_congr (fun n' m' d' => ?_) h
      unfold pll_seen pll_before
      constructor
      · rintro ⟨h1, h2, h3⟩; exact ⟨h1, h2, by omega⟩
      · rintro ⟨h1, h2, h3⟩
        refine ⟨h1, h2, ?_⟩
        by_cases hc : n' = n ∧ m' = m
        · exact absurd (hc.1 ▸ hc.2 ▸ h1) hl
        · omega

/-- The `m` loop body carries the invariant from `(n, m, 0)` to `(n, m + 1, 0)`. -/
theorem pll_calc_m_body_inv {pll0 : pll_info} {in_fre mode_freq : Nat} {edivider : Bool}
    {n m : Nat} {s : pll_calc_state}
    (hn1 : 60 ≤ n + 1) (hn2 : n + 1 ≤ 120) (hm : m < 7) (hmode : mode_freq < 4294967296)
    (h : pll_inv pll0 in_fre mode_freq edivider n m 0 s) :
    pll_inv pll0 in_fre mode_freq edivider n (m + 1) 0
      (pll_calc_m_body in_fre mode_freq edivider n s m) := by
  obtain ⟨pll, cds, dn⟩ := s
  cases dn with
  | true =>
    simp only [pll_calc_m_body, if_true]
    exact pll_inv_done rfl (Or.inl (by unfold pll_before; omega)) h
  | false =>
    simp only [pll_calc_m_body, Bool.false_eq_true, if_false]
    have : List.range 1 = [0] := rfl
    rw [this]
    simp only [List.foldl_cons, List.foldl_nil]
    exact pll_calc_e_body_inv hn1 hn2 (by omega) hmode h

/-- The `n` loop body carries the invariant from `(n, 0, 0)` to `(n + 1, 0, 0)`. -/
theorem pll_calc_n_body_inv {pll0 : pll_info} {in_fre mode_freq : Nat} {edivider : Bool}
    {n : Nat} {s : pll_calc_state} (hmode : mode_freq < 4294967296)
    (h : pll_inv pll0 in_fre mode_freq edivider n 0 0 s) :
    pll_inv pll0 in_fre mode_freq edivider (n + 1) 0 0
      (pll_calc_n_body in_fre mode_freq edivider s n) := by
  obtain ⟨pll, cds, dn⟩ := s
  cases dn with
  | true =>
    simp only [pll_calc_n_body, if_true]
    exact pll_inv_done rfl (Or.inl (by unfold pll_before; omega)) h
  | false =>
    simp only [pll_calc_n_body, Bool.false_eq_true, if_false]
    by_cases hr : (decide (n + 1 < 60) || decide (n + 1 > 120)) = true
    · rw [if_pos hr]
      simp only [Bool.or_eq_true, decide_eq_true_eq] at hr
      refine pll_inv_congr (fun n' m' d' => ?_) h
      unfold pll_seen pll_before
      constructor
      · rintro ⟨h1, h2, h3⟩; exact ⟨h1, h2, by omega⟩
      · rintro ⟨h1, h2, h3⟩
        refine ⟨h1, h2, ?_⟩
        have h4 := h1.1
        have h5 := h1.2.1
        omega
    · rw [if_neg hr]
      simp only [Bool.or_eq_true, decide_eq_true_eq, not_or, not_lt] at hr
      have h7 := foldl_range_inv (pll_calc_m_body in_fre mode_freq edivider n)
        (fun i s => pll_inv pll0 in_fre mode_freq edivider n i 0 s) 7 ⟨pll, cds, false⟩ h
        (fun i s hi hI => pll_calc_m_body_inv (by omega) (by omega) hi hmode hI)
      refine pll_inv_congr (fun n' m' d' => ?_) h7
      unfold pll_seen pll_before
      constructor
      · rintro ⟨h1, h2, h3⟩; exact ⟨h1, h2, by omega⟩
      · rintro ⟨h1, h2, h3⟩
        refine ⟨h1, h2, ?_⟩
        have h4 := h1.2.2.2.1
        omega

/-- The invariant holds, at the end position, for the state the search
returns when the input clock is in range. -/
theorem pll_calc_run_inv (pll0 : pll_info) (in_fre mode_freq : Nat) (edivider : Bool)
    (hlo : 12000000 ≤ in_fre) (hhi : in_fre ≤ 192000000) (hmode : mode_freq < 4294967296) :
    pll_inv pll0 in_fre mode_freq edivider 127 0 0
      (pll_calc_run pll0 in_fre mode_freq edivider) := by
  unfold pll_calc_run
  rw [if_neg (by simp only [Bool.or_eq_true, decide_eq_true_eq]; omega)]
  refine foldl_range_inv (pll_calc_n_body in_fre mode_freq edivider)
    (fun i s => pll_inv pll0 in_fre mode_freq edivider i 0 0 s) 127 _ ?_
    (fun i s _ hI => pll_calc_n_body_inv hmode hI)
  exact {
    fresh := fun _ => ⟨rfl, rfl, fun n m d hs => by
      have := hs.2.2; unfold pll_before at this; omega⟩
    stored_seen := fun hc => by simp at hc
    stored_diff := fun hc => by simp at hc
    stored_clk := fun hc => by simp at hc
    done_iff := fun hc => by simp at hc
    least := fun hc => by simp at hc
    first := fun hc => by simp at hc
    done_set := fun hc => by simp at hc }

/-- At the end position every legal candidate has been seen. -/
theorem pll_seen_end {in_fre : Nat} {edivider : Bool} {n m d : Nat}
    (hl : pll_legal in_fre edivider n m) (hd : d < 64) :
    pll_seen in_fre edivider 127 0 0 n m d := by
  refine ⟨hl, hd, ?_⟩
  have := hl.2.1
  unfold pll_before; omega

/-- C2: when the input clock is outside `[12 MHz, 192 MHz]` the search is
skipped: `rcar_du_lvdsenc_pll_calc` returns with the caller's record exactly
as it was, no field written (`clk_diff_set` is still set, the label `done`
was not jumped to). -/
theorem rcar_du_lvdsenc_pll_calc_out_of_range (pll : pll_info) (in_fre mode_freq : Nat)
    (edivider : Bool) (h : in_fre < 12000000 ∨ in_fre > 192000000) :
    rcar_du_lvdsenc_pll_calc pll in_fre mode_freq edivider = pll ∧
    pll_calc_run pll in_fre mode_freq edivider =
      { pll := pll, clk_diff_set := true, done := false } := by
  have hrun : pll_calc_run pll in_fre mode_freq edivider =
      { pll := pll, clk_diff_set := true, done := false } := by
    unfold pll_calc_run
    rw [if_pos (by simpa only [Bool.or_eq_true, decide_eq_true_eq] using h)]
  exact ⟨by rw [rcar_du_lvdsenc_pll_calc, hrun], hrun⟩

/-- C2, at a 5 MHz input clock: a record holding 1, 2, 3, 4, 5, 6 comes back
untouched. -/
theorem rcar_du_lvdsenc_pll_calc_out_of_range_witness :
    (5000000 < 12000000 ∨ 5000000 > 192000000) ∧
    rcar_du_lvdsenc_pll_calc ⟨1, 2, 3, 4, 5, 6⟩ 5000000 148500000 true = ⟨1, 2, 3, 4, 5, 6⟩ ∧
    rcar_du_lvdsenc_pll_calc ⟨1, 2, 3, 4, 5, 6⟩ 5000000 148500000 false = ⟨1, 2, 3, 4, 5, 6⟩ :=
  ⟨Or.inl (by decide),
   (rcar_du_lvdsenc_pll_calc_out_of_range ⟨1, 2, 3, 4, 5, 6⟩ 5000000 148500000 true
      (Or.inl (by decide))).1,
   (rcar_du_lvdsenc_pll_calc_out_of_range ⟨1, 2, 3, 4, 5, 6⟩ 5000000 148500000 false
      (Or.inl (by decide))).1⟩

/-! ## Programming the shared PLL -/

/-- C3, as stated, fails on a tie. At a mode clock of 72000 kHz both searches
reach `diff = 0`; the comparison `lvds_pll[1]->diff >= lvds_pll[0]->diff`
picks index 0, the search with the E-divider (`N + 1 = 63`, `M + 1 = 3`,
`DIV = 1`), not the search without it (`N + 1 = 63`, `M + 1 = 3`, `DIV = 2`),
and `clksel` is `OUTCLKSEL_AFTER | STP_CLKOUTE1_EN`. -/
theorem pll_pre_start_tie_takes_edivider :
    rcar_du_lvdsenc_pll_calc pll_info_zero 48000000 (pll_pre_start_mode_freq 72000) true =
      { pllclk := 72000000, diff := 0, clk_n := 62, clk_m := 2, clk_e := 0, div := 0 } ∧
    rcar_du_lvdsenc_pll_calc pll_info_zero 48000000 (pll_pre_start_mode_freq 72000) false =
      { pllclk := 144000000, diff := 0, clk_n := 62, clk_m := 2, clk_e := 0, div := 1 } ∧
    pll_pre_start_index 72000 = 0 ∧
    pll_pre_start_chosen 72000 =
      rcar_du_lvdsenc_pll_calc pll_info_zero 48000000 (pll_pre_start_mode_freq 72000) true ∧
    pll_pre_start_chosen 72000 ≠
      rcar_du_lvdsenc_pll_calc pll_info_zero 48000000 (pll_pre_start_mode_freq 72000) false ∧
    (∀ k : rcar_lvds_regs, pll_pre_start_clksel k 72000 =
      u32 (k.LVDPLLCR_OUTCLKSEL_AFTER ||| k.LVDPLLCR_STP_CLKOUTE1_EN)) := by
  refine ⟨by decide!, by decide!, by decide!, by decide!, by decide!, fun k => ?_⟩
  unfold pll_pre_start_clksel
  rw [if_pos (by decide!)]

/-- C3, amended: when the encoder is not yet enabled, both allocations succeed
and the clock can be enabled, `rcar_du_lvdsenc_pll_pre_start` releases the
reset, enables the clock and programs `LVDPLLCR` and `LVDDIV` from the search
whose `diff` is smaller, so the programmed `diff` is the minimum of the two.
If the search without the E-divider is strictly better it is taken with
`OUTCLKSEL_BEFORE | STP_CLKOUTE1_DIS`; otherwise, in particular on a tie, the
search with the E-divider is taken with `OUTCLKSEL_AFTER | STP_CLKOUTE1_EN`. -/
theorem rcar_du_lvdsenc_pll_pre_start_selects (k : rcar_lvds_regs) (lvds : rcar_du_lvdsenc)
    (mode_clock : Nat) (kzalloc_ok : Nat → Bool) (clk_ret : Int)
    (hen : lvds.enabled = false) (hk0 : kzalloc_ok 0 = true) (hk1 : kzalloc_ok 1 = true)
    (hclk : 0 ≤ clk_ret) :
    rcar_du_lvdsenc_pll_pre_start k lvds mode_clock kzalloc_ok clk_ret =
      [lvds_event.reset_control_deassert, lvds_event.clk_prepare_enable,
       lvds_event.rcar_lvds_write k.LVDPLLCR
         (u32 (k.LVDPLLCR_PLLON ||| k.LVDPLLCR_OCKSEL_7 ||| pll_pre_start_clksel k mode_clock |||
           k.LVDPLLCR_CLKOUT_ENABLE ||| k.LVDPLLCR_CKSEL_EXTAL |||
           u32 ((pll_pre_start_chosen mode_clock).clk_e <<< 10) |||
           u32 ((pll_pre_start_chosen mode_clock).clk_n <<< 3) |||
           (pll_pre_start_chosen mode_clock).clk_m)),
       lvds_event.rcar_lvds_write k.LVDDIV
         (if (pll_pre_start_chosen mode_clock).div > 0 then
            u32 (k.LVDDIV_DIVSEL ||| k.LVDDIV_DIVRESET ||| (pll_pre_start_chosen mode_clock).div)
          else 0)] ∧
    (pll_pre_start_chosen mode_clock).diff =
      min (rcar_du_lvdsenc_pll_calc pll_info_zero 48000000
            (pll_pre_start_mode_freq mode_clock) true).diff
          (rcar_du_lvdsenc_pll_calc pll_info_zero 48000000
            (pll_pre_start_mode_freq mode_clock) false).diff ∧
    ((rcar_du_lvdsenc_pll_calc pll_info_zero 48000000
          (pll_pre_start_mode_freq mode_clock) false).diff <
        (rcar_du_lvdsenc_pll_calc pll_info_zero 48000000
          (pll_pre_start_mode_freq mode_clock) true).diff →
      pll_pre_start_chosen mode_clock =
        rcar_du_lvdsenc_pll_calc pll_info_zero 48000000
          (pll_pre_start_mode_freq mode_clock) false ∧
      pll_pre_start_clksel k mode_clock =
        u32 (k.LVDPLLCR_OUTCLKSEL_BEFORE ||| k.LVDPLLCR_STP_CLKOUTE1_DIS)) ∧
    ((rcar_du_lvdsenc_pll_calc pll_info_zero 48000000
          (pll_pre_start_mode_freq mode_clock) true).diff ≤
        (rcar_du_lvdsenc_pll_calc pll_info_zero 48000000
          (pll_pre_start_mode_freq mode_clock) false).diff →
      pll_pre_start_chosen mode_clock =
        rcar_du_lvdsenc_pll_calc pll_info_zero 48000000
          (pll_pre_start_mode_freq mode_clock) true ∧
      pll_pre_start_clksel k mode_clock =
        u32 (k.LVDPLLCR_OUTCLKSEL_AFTER ||| k.LVDPLLCR_STP_CLKOUTE1_EN)) := by
  have hr : pll_pre_start_runs mode_clock =
      (rcar_du_lvdsenc_pll_calc pll_info_zero 48000000 (pll_pre_start_mode_freq mode_clock) true,
       rcar_du_lvdsenc_pll_calc pll_info_zero 48000000 (pll_pre_start_mode_freq mode_clock)
         false) := rfl
  refine ⟨?_, ?_⟩
  · unfold rcar_du_lvdsenc_pll_pre_start
    rw [if_neg (by simp [hen]), if_neg (by simp [hk0]), if_neg (by simp [hk1]),
      if_neg (by omega)]
    rfl
  · unfold pll_pre_start_chosen pll_pre_start_clksel pll_pre_start_index
    rw [hr]
    generalize rcar_du_lvdsenc_pll_calc pll_info_zero 48000000
      (pll_pre_start_mode_freq mode_clock) true = p0
    generalize rcar_du_lvdsenc_pll_calc pll_info_zero 48000000
      (pll_pre_start_mode_freq mode_clock) false = p1
    by_cases h : p1.diff ≥ p0.diff
    · simp only [if_pos h, if_true]
      exact ⟨(Nat.min_eq_left h).symm, fun h' => absurd h' (by omega), fun _ => by simp⟩
    · simp only [if_neg h, if_neg (by decide : ¬ (1 = 0))]
      exact ⟨(Nat.min_eq_right (by omega)).symm, fun _ => by simp,
        fun h' => absurd h' (by omega)⟩

/-- C3, amended, at a mode clock of 148500 kHz: the search without the
E-divider has the strictly smaller error (1071429 against 19928572) and is
the one programmed, with `N = 85`, `M = 3` and `LVDDIV` written as 0. -/
theorem rcar_du_lvdsenc_pll_pre_start_selects_witness :
    rcar_du_lvdsenc_sample.enabled = false ∧
    rcar_du_lvdsenc_pll_pre_start rcar_lvds_regs_sample rcar_du_lvdsenc_sample 148500
        (fun _ => true) 0 =
      [lvds_event.reset_control_deassert, lvds_event.clk_prepare_enable,
       lvds_event.rcar_lvds_write 0x0008 0x460aab,
       lvds_event.rcar_lvds_write 0x0038 0] ∧
    (pll_pre_start_chosen 148500).diff = 1071429 ∧
    pll_pre_start_chosen 148500 =
      rcar_du_lvdsenc_pll_calc pll_info_zero 48000000 (pll_pre_start_mode_freq 148500) false := by
  have h := rcar_du_lvdsenc_pll_pre_start_selects rcar_lvds_regs_sample rcar_du_lvdsenc_sample
    148500 (fun _ => true) 0 rfl rfl rfl (by decide)
  have e1 : rcar_du_lvdsenc_pll_calc pll_info_zero 48000000 (pll_pre_start_mode_freq 148500)
      true = { pllclk := 128571428, diff := 19928572, clk_n := 74, clk_m := 1, clk_e := 0,
               div := 0 } := by decide!
  have e2 : rcar_du_lvdsenc_pll_calc pll_info_zero 48000000 (pll_pre_start_mode_freq 148500)
      false = { pllclk := 147428571, diff := 1071429, clk_n := 85, clk_m := 3, clk_e := 0,
                div := 0 } := by decide!
  have hlt := h.2.2.1 (by rw [e1, e2]; decide)
  refine ⟨rfl, ?_, ?_, hlt.1⟩
  · rw [h.1, hlt.1, hlt.2, e2]
    decide
  · rw [hlt.1, e2]

/-! ## The AVB counter clock dividers -/

theorem avb_div_mask_eq : AVB_DIV_MASK = 2 ^ 18 - 1 := by decide

theorem not_u32_avb_div_mask : not_u32 AVB_DIV_MASK = 2 ^ 32 - ((2 ^ 18 - 1) + 1) := by decide

theorem testBit_not_u32_avb_div_mask (i : Nat) :
    (not_u32 AVB_DIV_MASK).testBit i = (decide (i < 32) && !decide (i < 18)) := by
  rw [not_u32_avb_div_mask, Nat.testBit_two_pow_sub_succ (by decide), Nat.testBit_two_pow_sub_one]

theorem BIT_eq {nr : Nat} (h : nr < 64) : BIT nr = 2 ^ nr := by
  unfold BIT
  rw [Nat.one_shiftLeft]
  exact ulong_of_lt (Nat.pow_lt_pow_right (by decide) h)

theorem clk_readl_lt (base : avb_regs) (off : Nat) : clk_readl base off < 2 ^ 32 :=
  u32_lt _

/-- A value below `2 ^ 32` has no bit set from position 32 on. -/
theorem testBit_eq_false_of_lt_u32 {v i : Nat} (hv : v < 2 ^ 32) (hi : 32 ≤ i) :
    v.testBit i = false :=
  Nat.testBit_lt_two_pow (Nat.lt_of_lt_of_le hv (Nat.pow_le_pow_right (by decide) hi))

/-- The divisor `clk_avb_calc_div` returns never exceeds `AVB_MAX_DIV`. -/
theorem clk_avb_calc_div_le (rate parent_rate : Nat) :
    clk_avb_calc_div rate parent_rate ≤ AVB_MAX_DIV := by
  unfold clk_avb_calc_div
  simp only
  split_ifs <;> omega

theorem clk_avb_calc_div_lt (rate parent_rate : Nat) :
    clk_avb_calc_div rate parent_rate < 2 ^ 18 :=
  Nat.lt_of_le_of_lt (clk_avb_calc_div_le rate parent_rate) (by decide)

/-- Where nothing wraps, `clk_avb_calc_div` is the divisor of the interface
description. -/
theorem clk_avb_calc_div_eq_spec {rate parent_rate : Nat}
    (h : 32 * parent_rate + 12500000 < 4294967296) :
    clk_avb_calc_div rate parent_rate = calc_div_spec rate parent_rate := by
  have hr : (if (if rate = 0 then 1 else rate) > AVB_COUNTER_MAX_FREQ then AVB_COUNTER_MAX_FREQ
      else (if rate = 0 then 1 else rate)) = min (max rate 1) 25000000 := by
    unfold AVB_COUNTER_MAX_FREQ
    split_ifs <;> omega
  unfold clk_avb_calc_div calc_div_spec
  simp only [hr]
  generalize min (max rate 1) 25000000 = r at *
  have hr1 : 1 ≤ r ∧ r ≤ 25000000 := by
    have := hr
    unfold AVB_COUNTER_MAX_FREQ at this
    split_ifs at this <;> omega
  unfold DIV_ROUND_CLOSEST AVB_MAX_DIV
  rw [ulong_of_lt (by omega : parent_rate * 32 < 18446744073709551616),
    ulong_of_lt (by omega : parent_rate * 32 + r / 2 < 18446744073709551616)]
  have hq : (parent_rate * 32 + r / 2) / r ≤ parent_rate * 32 + r / 2 := Nat.div_le_self _ _
  rw [u32_of_lt (by omega), Nat.mul_comm parent_rate 32]
  split_ifs <;> omega

/-- Replacing the divider field of a register word by `d` and reading the
field back gives `d`. -/
theorem avb_div_field_insert {v d : Nat} (hd : d < 2 ^ 18) :
    u32 ((v &&& not_u32 AVB_DIV_MASK) ||| d) &&& AVB_DIV_MASK = d := by
  apply Nat.eq_of_testBit_eq
  intro i
  unfold u32
  rw [show (4294967296 : Nat) = 2 ^ 32 from rfl, Nat.testBit_and, Nat.testBit_mod_two_pow,
    Nat.testBit_or, Nat.testBit_and, testBit_not_u32_avb_div_mask, avb_div_mask_eq,
    Nat.testBit_two_pow_sub_one]
  by_cases h18 : i < 18
  · have h32 : i < 32 := by omega
    simp [h18, h32]
  · have hfalse : d.testBit i = false :=
      Nat.testBit_lt_two_pow (Nat.lt_of_lt_of_le hd (Nat.pow_le_pow_right (by decide) (by omega)))
    simp [h18, hfalse]

/-- The word `clk_avb_set_rate` writes is already a 32-bit value. -/
theorem avb_div_word_lt {v d : Nat} (hv : v < 2 ^ 32) (hd : d < 2 ^ 18) :
    (v &&& not_u32 AVB_DIV_MASK) ||| d < 2 ^ 32 :=
  Nat.or_lt_two_pow (Nat.lt_of_le_of_lt Nat.and_le_left hv)
    (Nat.lt_of_lt_of_le hd (by decide))

/-- What `clk_avb_set_rate` leaves in the instance's own divider register. -/
theorem clk_avb_set_rate_own (base : avb_regs) (idx rate parent_rate : Nat) :
    clk_readl (clk_avb_set_rate base idx rate parent_rate).2 (AVB_ID_TO_DIV idx) =
      (clk_readl base (AVB_ID_TO_DIV idx) &&& not_u32 AVB_DIV_MASK) |||
        clk_avb_calc_div rate parent_rate := by
  have hlt := avb_div_word_lt (clk_readl_lt base (AVB_ID_TO_DIV idx))
    (clk_avb_calc_div_lt rate parent_rate)
  simp only [clk_avb_set_rate, clk_readl, clk_writel, if_true]
  unfold clk_readl at hlt
  rw [u32_of_lt (u32_lt _), u32_of_lt hlt]

/-- The rate `clk_avb_recalc_rate` reads back after `clk_avb_set_rate`:
the parent rate if the computed divisor is 0, the scaled quotient otherwise. -/
theorem clk_avb_recalc_after_set (base : avb_regs) (idx rate parent_rate p : Nat) :
    clk_avb_recalc_rate (clk_avb_set_rate base idx rate parent_rate).2 idx p =
      if clk_avb_calc_div rate parent_rate = 0 then p
      else ulong (p * 32) / clk_avb_calc_div rate parent_rate := by
  have hf : clk_readl (clk_avb_set_rate base idx rate parent_rate).2 (AVB_ID_TO_DIV idx) &&&
      AVB_DIV_MASK = clk_avb_calc_div rate parent_rate := by
    have hown := clk_avb_set_rate_own base idx rate parent_rate
    have hins := avb_div_field_insert (v := clk_readl base (AVB_ID_TO_DIV idx))
      (clk_avb_calc_div_lt rate parent_rate)
    rw [u32_of_lt (avb_div_word_lt (clk_readl_lt base (AVB_ID_TO_DIV idx))
      (clk_avb_calc_div_lt rate parent_rate))] at hins
    rw [hown, hins]
  unfold clk_avb_recalc_rate
  simp only [hf]

/-- Where the divisor is not 0 and the quotient fits a `long`, the rate
`clk_avb_round_rate` announces is the rate read back after
`clk_avb_set_rate`. -/
theorem clk_avb_round_rate_eq_recalc (base : avb_regs) (idx rate parent_rate : Nat)
    (hd : clk_avb_calc_div rate parent_rate ≠ 0)
    (hp : parent_rate * 32 < 9223372036854775808) :
    clk_avb_round_rate rate parent_rate =
      some (Int.ofNat
        (clk_avb_recalc_rate (clk_avb_set_rate base idx rate parent_rate).2 idx parent_rate)) := by
  rw [clk_avb_recalc_after_set, if_neg hd]
  unfold clk_avb_round_rate
  simp only [if_neg hd]
  have h1 : ulong (parent_rate * 32) = parent_rate * 32 := ulong_of_lt (by omega)
  have h2 : parent_rate * 32 / clk_avb_calc_div rate parent_rate ≤ parent_rate * 32 :=
    Nat.div_le_self _ _
  rw [h1]
  unfold to_long
  rw [ulong_of_lt (by omega), if_pos (by omega)]

/-- C4, the input on which the code leaves the stated formula: for a rate of
1 Hz under a parent of `2 ^ 27` Hz the rounded quotient is `2 ^ 32`, which the
assignment to the `unsigned int div` narrows to 0 before the comparison with
`AVB_MAX_DIV`; `clk_avb_calc_div` returns 0 where the stated formula gives
`0x3ffc0`. The same happens for a rate of 0. -/
theorem clk_avb_calc_div_narrowed_before_clamp :
    clk_avb_calc_div 1 134217728 = 0 ∧ calc_div_spec 1 134217728 = 0x3ffc0 ∧
    clk_avb_calc_div 0 134217728 = 0 ∧ calc_div_spec 0 134217728 = 0x3ffc0 := by
  decide

/-- C5, the input on which rounding and committing disagree: for a rate of
25 MHz under a parent of 100 kHz the divisor is 0, so `clk_avb_round_rate`
divides by zero and has no result, while `clk_avb_set_rate` stores the
divisor 0 and `clk_avb_recalc_rate` then passes the parent rate through. -/
theorem clk_avb_round_rate_divides_by_zero :
    clk_avb_calc_div 25000000 100000 = 0 ∧
    clk_avb_round_rate 25000000 100000 = none ∧
    ∀ (base : avb_regs) (idx : Nat),
      clk_avb_recalc_rate (clk_avb_set_rate base idx 25000000 100000).2 idx 100000 = 100000 := by
  refine ⟨by decide, by decide, fun base idx => ?_⟩
  rw [clk_avb_recalc_after_set, if_pos (by decide)]

/-- C6, as stated, fails where the product wraps: with a divider field of 1
and a parent rate of `2 ^ 59` the product `parent_rate * 32` is `2 ^ 64`, which
an `unsigned long` holds as 0, so `clk_avb_recalc_rate` returns 0 and not
`parent_rate * 32 / 1`. -/
theorem clk_avb_recalc_rate_wraps :
    clk_readl (fun _ => 1) (AVB_ID_TO_DIV 0) &&& 0x3ffff = 1 ∧
    clk_avb_recalc_rate (fun _ => 1) 0 576460752303423488 = 0 ∧
    576460752303423488 * 32 / (clk_readl (fun _ => 1) (AVB_ID_TO_DIV 0) &&& 0x3ffff) =
      18446744073709551616 := by
  decide

/-- C6, amended: `clk_avb_recalc_rate` returns exactly `parent_rate` when the
18-bit divider field of the instance's register is 0, and otherwise the
`unsigned long` product `parent_rate * 32` (taken modulo `2 ^ 64`) divided by
the field, which is `parent_rate * 32 / field` for every parent rate below
`2 ^ 59`; two register blocks that agree on the divider field give the same
result, whatever the other bits are. -/
theorem clk_avb_recalc_rate_spec (base : avb_regs) (idx parent_rate : Nat) :
    (clk_readl base (AVB_ID_TO_DIV idx) &&& 0x3ffff = 0 →
      clk_avb_recalc_rate base idx parent_rate = parent_rate) ∧
    (clk_readl base (AVB_ID_TO_DIV idx) &&& 0x3ffff ≠ 0 →
      clk_avb_recalc_rate base idx parent_rate =
        (parent_rate * 32 % 18446744073709551616) /
          (clk_readl base (AVB_ID_TO_DIV idx) &&& 0x3ffff)) ∧
    (clk_readl base (AVB_ID_TO_DIV idx) &&& 0x3ffff ≠ 0 → parent_rate < 576460752303423488 →
      clk_avb_recalc_rate base idx parent_rate =
        parent_rate * 32 / (clk_readl base (AVB_ID_TO_DIV idx) &&& 0x3ffff)) ∧
    (∀ base' : avb_regs,
      clk_readl base' (AVB_ID_TO_DIV idx) &&& 0x3ffff =
        clk_readl base (AVB_ID_TO_DIV idx) &&& 0x3ffff →
      clk_avb_recalc_rate base' idx parent_rate = clk_avb_recalc_rate base idx parent_rate) := by
  have hmask : AVB_DIV_MASK = 0x3ffff := rfl
  refine ⟨fun h => ?_, fun h => ?_, fun h hp => ?_, fun base' h => ?_⟩
  · unfold clk_avb_recalc_rate
    simp only [hmask, h, if_true]
  · unfold clk_avb_recalc_rate ulong
    simp only [hmask, if_neg h]
  · unfold clk_avb_recalc_rate
    simp only [hmask, if_neg h]
    rw [ulong_of_lt (by omega)]
  · unfold clk_avb_recalc_rate
    simp only [hmask, h]

/-- C7: where nothing wraps (`32 * p + 12500000 < 2 ^ 32`), for a target rate
`r` in `[1, 25000000]` whose divisor `d = clk_avb_calc_div r p` is neither 0
nor clamped, the rate `A` read back by `clk_avb_recalc_rate` after
`clk_avb_set_rate` is `32 * p / d`, and both `r` and `A` lie between the rates
of the neighbouring divisors: `32 * p / (d + 1) ≤ r`, `32 * p / (d + 1) ≤ A`,
and for `d ≥ 2` also `r ≤ 32 * p / (d - 1)` and `A ≤ 32 * p / (d - 1)`. -/
theorem clk_avb_set_rate_within_one_step (base : avb_regs) (idx r p : Nat)
    (hp : 32 * p + 12500000 < 4294967296) (hr1 : 1 ≤ r) (hr2 : r ≤ 25000000)
    (hd1 : 1 ≤ clk_avb_calc_div r p) (hd2 : clk_avb_calc_div r p < 0x3ffc0) :
    clk_avb_recalc_rate (clk_avb_set_rate base idx r p).2 idx p = 32 * p / clk_avb_calc_div r p ∧
    32 * p / (clk_avb_calc_div r p + 1) ≤ r ∧
    32 * p / (clk_avb_calc_div r p + 1) ≤
      clk_avb_recalc_rate (clk_avb_set_rate base idx r p).2 idx p ∧
    (2 ≤ clk_avb_calc_div r p →
      r ≤ 32 * p / (clk_avb_calc_div r p - 1) ∧
      clk_avb_recalc_rate (clk_avb_set_rate base idx r p).2 idx p ≤
        32 * p / (clk_avb_calc_div r p - 1)) := by
  have hA : clk_avb_recalc_rate (clk_avb_set_rate base idx r p).2 idx p =
      32 * p / clk_avb_calc_div r p := by
    rw [clk_avb_recalc_after_set, if_neg (by omega), ulong_of_lt (by omega), Nat.mul_comm p 32]
  -- the divisor is the unclamped rounded quotient
  have hspec := @clk_avb_calc_div_eq_spec r p hp
  unfold calc_div_spec at hspec
  simp only at hspec
  rw [show min (max r 1) 25000000 = r by omega] at hspec
  have hq : clk_avb_calc_div r p = (32 * p + r / 2) / r := by
    rw [hspec] at hd2 ⊢
    omega
  rw [hA]
  generalize clk_avb_calc_div r p = d at *
  have hdm := Nat.div_add_mod (32 * p + r / 2) r
  have hml := Nat.mod_lt (32 * p + r / 2) (by omega : r > 0)
  rw [← hq] at hdm
  have hhalf : r / 2 ≤ r := Nat.div_le_self _ _
  refine ⟨rfl, ?_, ?_, fun h2 => ⟨?_, ?_⟩⟩
  · apply Nat.div_le_of_le_mul
    rw [Nat.add_mul, Nat.one_mul, Nat.mul_comm d r]
    omega
  · exact Nat.div_le_div_left (Nat.le_succ d) (by omega)
  · rw [Nat.le_div_iff_mul_le (by omega)]
    have : r * (d - 1) + r = r * d := by
      rw [← Nat.mul_succ]; congr 1; omega
    omega
  · exact Nat.div_le_div_left (Nat.sub_le d 1) (by omega)

/-- C7, for a target of 3 MHz under a parent of 25 MHz: the divisor is 267,
the rate read back is 2996254 Hz, and its neighbours are 2985074 Hz and
3007518 Hz. -/
theorem clk_avb_set_rate_within_one_step_witness :
    clk_avb_calc_div 3000000 25000000 = 267 ∧
    clk_avb_recalc_rate (clk_avb_set_rate (fun _ => 0) 0 3000000 25000000).2 0 25000000 =
      2996254 ∧
    32 * 25000000 / (267 + 1) ≤ 3000000 ∧ 3000000 ≤ 32 * 25000000 / (267 - 1) := by
  have h := clk_avb_set_rate_within_one_step (fun _ => 0) 0 3000000 25000000
    (by decide) (by decide) (by decide) (by decide) (by decide)
  have hd : clk_avb_calc_div 3000000 25000000 = 267 := by decide
  rw [hd] at h
  exact ⟨hd, h.1, h.2.1, (h.2.2.2 (by decide)).1⟩

/-- C8, as stated, fails for a target above the parent rate: a target of 2 MHz
under a parent of 1 MHz gives the divisor 16, which is stored (it is not 0),
and the rate read back is 2 MHz, above the parent rate. -/
theorem clk_avb_set_rate_exceeds_parent :
    32 * 1000000 + 12500000 < 4294967296 ∧ 1 ≤ 2000000 ∧ 2000000 ≤ 25000000 ∧
    clk_avb_calc_div 2000000 1000000 = 16 ∧
    clk_readl (clk_avb_set_rate (fun _ => 0) 0 2000000 1000000).2 (AVB_ID_TO_DIV 0) &&&
      AVB_DIV_MASK = 16 ∧
    clk_avb_recalc_rate (clk_avb_set_rate (fun _ => 0) 0 2000000 1000000).2 0 1000000 =
      2000000 ∧
    ¬ (clk_avb_recalc_rate (clk_avb_set_rate (fun _ => 0) 0 2000000 1000000).2 0 1000000 ≤
      1000000) := by
  decide

/-- C8, amended: where nothing wraps (`32 * p + 12500000 < 2 ^ 32`), for a
target rate `r` in `[1, 25000000]` that does not exceed the parent rate `p`,
the divisor stored by `clk_avb_set_rate` is at least 32 and the rate read back
by `clk_avb_recalc_rate` does not exceed `p`. -/
theorem clk_avb_set_rate_le_parent (base : avb_regs) (idx r p : Nat)
    (hp : 32 * p + 12500000 < 4294967296) (hr1 : 1 ≤ r) (hr2 : r ≤ 25000000) (hrp : r ≤ p) :
    32 ≤ clk_avb_calc_div r p ∧
    clk_avb_recalc_rate (clk_avb_set_rate base idx r p).2 idx p ≤ p := by
  have hspec := @clk_avb_calc_div_eq_spec r p hp
  unfold calc_div_spec at hspec
  simp only at hspec
  rw [show min (max r 1) 25000000 = r by omega] at hspec
  have h32 : 32 ≤ (32 * p + r / 2) / r := by
    rw [Nat.le_div_iff_mul_le (by omega)]
    have : 32 * r ≤ 32 * p := Nat.mul_le_mul_left 32 hrp
    omega
  have hd : 32 ≤ clk_avb_calc_div r p := by
    rw [hspec]; omega
  refine ⟨hd, ?_⟩
  rw [clk_avb_recalc_after_set, if_neg (by omega), ulong_of_lt (by omega)]
  calc p * 32 / clk_avb_calc_div r p ≤ p * 32 / 32 := Nat.div_le_div_left hd (by decide)
    _ = p := Nat.mul_div_cancel p (by decide)

/-- C8, amended, for a target of 3 MHz under a parent of 25 MHz: the rate read
back, 2996254 Hz, is below the parent rate. -/
theorem clk_avb_set_rate_le_parent_witness :
    3000000 ≤ 25000000 ∧ 32 ≤ clk_avb_calc_div 3000000 25000000 ∧
    clk_avb_recalc_rate (clk_avb_set_rate (fun _ => 0) 0 3000000 25000000).2 0 25000000 ≤
      25000000 :=
  ⟨by decide,
   clk_avb_set_rate_le_parent (fun _ => 0) 0 3000000 25000000
     (by decide) (by decide) (by decide) (by decide)⟩

/-- The bits of the word `clk_avb_enabledisable` writes back: bit `idx` is
the requested state, every other bit is the bit read. -/
theorem avb_enable_word_testBit {v idx : Nat} (hv : v < 2 ^ 32) (hidx : idx < 32)
    (enable : Int) (i : Nat) :
    (if enable ≠ 0 then u32 (v ||| BIT idx) else u32 (v &&& not_ulong (BIT idx))).testBit i =
      if i = idx then decide (enable ≠ 0) else v.testBit i := by
  have hbit : BIT idx = 2 ^ idx := BIT_eq (by omega)
  have hnot : not_ulong (2 ^ idx) = 2 ^ 64 - (2 ^ idx + 1) := by
    unfold not_ulong
    rw [ulong_of_lt (Nat.pow_lt_pow_right (by decide) (by omega : idx < 64))]
    have : (2 : Nat) ^ 64 = 18446744073709551616 := by decide
    omega
  have hhigh : 32 ≤ i → v.testBit i = false := testBit_eq_false_of_lt_u32 hv
  unfold u32
  rw [hbit, show (4294967296 : Nat) = 2 ^ 32 from rfl]
  by_cases he : enable ≠ 0
  · rw [if_pos he, Nat.testBit_mod_two_pow, Nat.testBit_or, Nat.testBit_two_pow]
    by_cases hi : i = idx
    · subst hi; simp [he, hidx]
    · have hi' : ¬ idx = i := fun h => hi h.symm
      by_cases h32 : i < 32
      · simp [hi, hi', h32]
      · simp [hi, hi', h32, hhigh (by omega)]
  · rw [if_neg he, Nat.testBit_mod_two_pow, Nat.testBit_and, hnot,
      Nat.testBit_two_pow_sub_succ (Nat.pow_lt_pow_right (by decide) (by omega : idx < 64)),
      Nat.testBit_two_pow]
    by_cases hi : i = idx
    · subst hi; simp [he]
    · have hi' : ¬ idx = i := fun h => hi h.symm
      by_cases h32 : i < 32
      · have h64 : i < 64 := by omega
        simp [hi, hi', h32, h64]
      · simp [hi, hi', h32, hhigh (by omega)]

/-- The value `clk_avb_is_enabled` returns for an index below 31 is not 0
exactly when the bit of that index is set in the enable register. -/
theorem clk_avb_is_enabled_ne_zero_iff (base : avb_regs) {idx : Nat} (hidx : idx < 31) :
    clk_avb_is_enabled base idx ≠ 0 ↔ (clk_readl base AVB_CLK_CONFIG).testBit idx = true := by
  unfold clk_avb_is_enabled to_int
  rw [BIT_eq (by omega), Nat.and_two_pow]
  have hpow : (2 : Nat) ^ idx < 2 ^ 31 := Nat.pow_lt_pow_right (by decide) hidx
  have hpos : 0 < (2 : Nat) ^ idx := Nat.pow_pos (by decide)
  cases hb : (clk_readl base AVB_CLK_CONFIG).testBit idx with
  | false => simp [u32]
  | true =>
    simp only [Bool.toNat_true, Nat.one_mul]
    have h31 : (2 : Nat) ^ 31 = 2147483648 := by decide
    rw [u32_of_lt (by omega), if_pos (by omega)]
    simp only [Int.ofNat_eq_coe, ne_eq, iff_true]
    omega

/-- C9: for an index below 8, `clk_avb_enabledisable` returns 0 and leaves
the enable register (offset `0x20`) with bit `idx` equal to the requested
state and every other bit, bit 31 included, as it was; every other register,
so every divider register, is unchanged; afterwards `clk_avb_is_enabled` for
`idx` is non-zero exactly when enabling was requested, and for every other
index below 8 it returns what it returned before. -/
theorem clk_avb_enabledisable_frame (base : avb_regs) (idx : Nat) (enable : Int)
    (hidx : idx < 8) :
    (clk_avb_enabledisable base idx enable).1 = 0 ∧
    (∀ i, (clk_readl (clk_avb_enabledisable base idx enable).2 AVB_CLK_CONFIG).testBit i =
      if i = idx then decide (enable ≠ 0) else (clk_readl base AVB_CLK_CONFIG).testBit i) ∧
    (∀ off, off ≠ AVB_CLK_CONFIG → (clk_avb_enabledisable base idx enable).2 off = base off) ∧
    (∀ j, j < 8 → clk_readl (clk_avb_enabledisable base idx enable).2 (AVB_ID_TO_DIV j) =
      clk_readl base (AVB_ID_TO_DIV j)) ∧
    (clk_avb_is_enabled (clk_avb_enabledisable base idx enable).2 idx ≠ 0 ↔ enable ≠ 0) ∧
    (∀ j, j < 8 → j ≠ idx →
      clk_avb_is_enabled (clk_avb_enabledisable base idx enable).2 j =
        clk_avb_is_enabled base j) := by
  have hbits : ∀ i,
      (clk_readl (clk_avb_enabledisable base idx enable).2 AVB_CLK_CONFIG).testBit i =
        if i = idx then decide (enable ≠ 0) else (clk_readl base AVB_CLK_CONFIG).testBit i := by
    intro i
    have hw := avb_enable_word_testBit (clk_readl_lt base AVB_CLK_CONFIG)
      (by omega : idx < 32) enable i
    have hlt : (if enable ≠ 0 then u32 (clk_readl base AVB_CLK_CONFIG ||| BIT idx)
        else u32 (clk_readl base AVB_CLK_CONFIG &&& not_ulong (BIT idx))) < 4294967296 := by
      split_ifs <;> exact u32_lt _
    rw [← hw]
    simp only [clk_avb_enabledisable, clk_readl, clk_writel, if_true]
    unfold clk_readl at hlt
    rw [u32_of_lt hlt, u32_of_lt hlt]
  have hframe : ∀ off, off ≠ AVB_CLK_CONFIG →
      (clk_avb_enabledisable base idx enable).2 off = base off := by
    intro off hoff
    simp only [clk_avb_enabledisable, clk_writel, if_neg hoff]
  refine ⟨rfl, hbits, hframe, ?_, ?_, ?_⟩
  · intro j hj
    unfold clk_readl
    rw [hframe]
    unfold AVB_ID_TO_DIV AVB_CLK_CONFIG u32
    omega
  · rw [clk_avb_is_enabled_ne_zero_iff _ (by omega : idx < 31), hbits idx]
    simp
  · intro j hj hne
    unfold clk_avb_is_enabled
    rw [BIT_eq (by omega), Nat.and_two_pow, Nat.and_two_pow, hbits j, if_neg hne]

/-- C10: `clk_avb_set_rate` returns 0 and leaves in the instance's own divider
register (offset `4 * idx`) the word `(old & ~0x3ffff) | div` with
`div = clk_avb_calc_div rate parent_rate`: the 18-bit divider field holds
`div`, every bit from position 18 up is as it was, and every other register,
so every other instance's divider register and the shared enable register,
is unchanged. -/
theorem clk_avb_set_rate_frame (base : avb_regs) (idx rate parent_rate : Nat) (hidx : idx < 8) :
    (clk_avb_set_rate base idx rate parent_rate).1 = 0 ∧
    AVB_ID_TO_DIV idx = 4 * idx ∧
    clk_readl (clk_avb_set_rate base idx rate parent_rate).2 (AVB_ID_TO_DIV idx) =
      (clk_readl base (AVB_ID_TO_DIV idx) &&& not_u32 0x3ffff) |||
        clk_avb_calc_div rate parent_rate ∧
    clk_readl (clk_avb_set_rate base idx rate parent_rate).2 (AVB_ID_TO_DIV idx) &&& 0x3ffff =
      clk_avb_calc_div rate parent_rate ∧
    (∀ i, 18 ≤ i →
      (clk_readl (clk_avb_set_rate base idx rate parent_rate).2 (AVB_ID_TO_DIV idx)).testBit i =
        (clk_readl base (AVB_ID_TO_DIV idx)).testBit i) ∧
    (∀ off, off ≠ AVB_ID_TO_DIV idx →
      (clk_avb_set_rate base idx rate parent_rate).2 off = base off) ∧
    (∀ j, j < 8 → j ≠ idx →
      clk_readl (clk_avb_set_rate base idx rate parent_rate).2 (AVB_ID_TO_DIV j) =
        clk_readl base (AVB_ID_TO_DIV j)) ∧
    clk_readl (clk_avb_set_rate base idx rate parent_rate).2 AVB_CLK_CONFIG =
      clk_readl base AVB_CLK_CONFIG := by
  have hmask : AVB_DIV_MASK = 0x3ffff := rfl
  have hown := clk_avb_set_rate_own base idx rate parent_rate
  have hdlt := clk_avb_calc_div_lt rate parent_rate
  have hframe : ∀ off, off ≠ AVB_ID_TO_DIV idx →
      (clk_avb_set_rate base idx rate parent_rate).2 off = base off := by
    intro off hoff
    simp only [clk_avb_set_rate, clk_writel, if_neg hoff]
  refine ⟨rfl, ?_, ?_, ?_, ?_, hframe, ?_, ?_⟩
  · unfold AVB_ID_TO_DIV u32; omega
  · rw [hown, hmask]
  · have hins := avb_div_field_insert (v := clk_readl base (AVB_ID_TO_DIV idx)) hdlt
    rw [u32_of_lt (avb_div_word_lt (clk_readl_lt base (AVB_ID_TO_DIV idx)) hdlt)] at hins
    rw [hown, ← hmask, hins]
  · intro i hi
    have hd : (clk_avb_calc_div rate parent_rate).testBit i = false :=
      Nat.testBit_lt_two_pow (Nat.lt_of_lt_of_le hdlt (Nat.pow_le_pow_right (by decide) hi))
    rw [hown, Nat.testBit_or, Nat.testBit_and, testBit_not_u32_avb_div_mask, hd]
    by_cases h32 : i < 32
    · have h18 : ¬ i < 18 := by omega
      simp [h32, h18]
    · simp [h32, testBit_eq_false_of_lt_u32 (clk_readl_lt base (AVB_ID_TO_DIV idx))
        (by omega : 32 ≤ i)]
  · intro j hj hne
    unfold clk_readl
    rw [hframe]
    unfold AVB_ID_TO_DIV u32
    omega
  · unfold clk_readl
    rw [hframe]
    unfold AVB_ID_TO_DIV AVB_CLK_CONFIG u32
    omega

/-- C9, on a register block with enable word `0x80000005`: enabling instance
1 gives `0x80000007`, disabling instance 2 gives `0x80000001`, the call
returns 0 and instance 1 then reads as enabled. -/
theorem clk_avb_enabledisable_frame_witness :
    clk_readl avb_regs_sample AVB_CLK_CONFIG = 0x80000005 ∧
    (clk_avb_enabledisable avb_regs_sample 1 1).1 = 0 ∧
    clk_readl (clk_avb_enabledisable avb_regs_sample 1 1).2 AVB_CLK_CONFIG = 0x80000007 ∧
    (clk_avb_is_enabled (clk_avb_enabledisable avb_regs_sample 1 1).2 1 ≠ 0 ↔ (1 : Int) ≠ 0) ∧
    clk_readl (clk_avb_enabledisable avb_regs_sample 2 0).2 AVB_CLK_CONFIG = 0x80000001 ∧
    clk_avb_is_enabled (clk_avb_enabledisable avb_regs_sample 2 0).2 2 = 0 :=
  ⟨by decide,
   (clk_avb_enabledisable_frame avb_regs_sample 1 1 (by decide)).1,
   by decide,
   (clk_avb_enabledisable_frame avb_regs_sample 1 1 (by decide)).2.2.2.2.1,
   by decide,
   by decide⟩

/-- C10, on a divider register holding `0xffffffc0`: setting instance 3 to
3 MHz under a parent of 25 MHz returns 0 and leaves `0xfffc010b` (divisor 267
under the untouched upper bits); instance 2 and the enable register keep
their words. -/
theorem clk_avb_set_rate_frame_witness :
    clk_readl avb_regs_sample (AVB_ID_TO_DIV 3) = 0xffffffc0 ∧
    (clk_avb_set_rate avb_regs_sample 3 3000000 25000000).1 = 0 ∧
    clk_readl (clk_avb_set_rate avb_regs_sample 3 3000000 25000000).2 (AVB_ID_TO_DIV 3) =
      0xfffc010b ∧
    clk_readl (clk_avb_set_rate avb_regs_sample 3 3000000 25000000).2 (AVB_ID_TO_DIV 3) &&&
      0x3ffff = clk_avb_calc_div 3000000 25000000 ∧
    clk_readl (clk_avb_set_rate avb_regs_sample 3 3000000 25000000).2 (AVB_ID_TO_DIV 2) =
      0xffffffc0 ∧
    clk_readl (clk_avb_set_rate avb_regs_sample 3 3000000 25000000).2 AVB_CLK_CONFIG =
      0x80000005 :=
  ⟨by decide,
   (clk_avb_set_rate_frame avb_regs_sample 3 3000000 25000000 (by decide)).1,
   by decide,
   (clk_avb_set_rate_frame avb_regs_sample 3 3000000 25000000 (by decide)).2.2.2.1,
   by decide,
   by decide⟩

/-! ## The power-up and power-down sequences -/

/-- On the legacy topology a start request on an enabled encoder does
nothing: `rcar_du_lvdsenc_start` returns 0 at its first test. -/
theorem rcar_du_lvdsenc_enable_legacy_enabled (k : rcar_lvds_regs) (lvds : rcar_du_lvdsenc)
    (rcrtc : rcar_du_crtc) (clk_ret : Int)
    (hpll : lvds.has_lvds_pll = false) (hen : lvds.enabled = true) :
    rcar_du_lvdsenc_enable k lvds (some rcrtc) true clk_ret =
      { ret := 0, lvds := lvds, trace := [] } := by
  simp [rcar_du_lvdsenc_enable, rcar_du_lvdsenc_start, hpll, hen]

/-- C11, the input on which enabling twice is not a no-op: on the shared-PLL
topology `rcar_du_lvdsenc_enable` goes to `rcar_du_lvdsenc_pll_start`, which
does not test `lvds->enabled`; on an encoder that is already enabled it writes
`LVDCTRCR`, `LVDCHCR`, `LVDSTRIPE`, `LVDCR1` and three times `LVDCR0` again
(for every assignment of the register constants, and spelled out for the
sample one). On the legacy topology the second call is the no-op the claim
describes. -/
theorem rcar_du_lvdsenc_pll_start_rewrites_when_enabled :
    (∀ (k : rcar_lvds_regs) (gen index input mode : Nat) (lanes : Bool) (rcrtc : rcar_du_crtc)
        (clk_ret : Int),
      (rcar_du_lvdsenc_enable k
          { gen := gen, has_lvds_pll := true, needs_lvds_lanes := lanes, index := index,
            enabled := true, input := input, mode := mode } (some rcrtc) true clk_ret).trace =
        [lvds_event.rcar_lvds_write k.LVDCTRCR (lvdctrcr_routing k),
         lvds_event.rcar_lvds_write k.LVDCHCR
           (u32 (k.LVDCHCR_CHSEL_CH 0 0 ||| k.LVDCHCR_CHSEL_CH 1 1 ||| k.LVDCHCR_CHSEL_CH 2 2 |||
             k.LVDCHCR_CHSEL_CH 3 3)),
         lvds_event.rcar_lvds_write k.LVDSTRIPE 0,
         lvds_event.rcar_lvds_write k.LVDCR1
           (u32 (k.LVDCR1_CHSTBY_GEN3 3 ||| k.LVDCR1_CHSTBY_GEN3 2 |||
             k.LVDCR1_CHSTBY_GEN3 1 ||| k.LVDCR1_CHSTBY_GEN3 0 ||| k.LVDCR1_CLKSTBY_GEN3)),
         lvds_event.rcar_lvds_write k.LVDCR0
           (u32 ((mode <<< k.LVDCR0_LVMD_SHIFT) ||| k.LVDCR0_PWD)),
         lvds_event.rcar_lvds_write k.LVDCR0
           (u32 (u32 ((mode <<< k.LVDCR0_LVMD_SHIFT) ||| k.LVDCR0_PWD) ||| k.LVDCR0_LVEN)),
         lvds_event.rcar_lvds_write k.LVDCR0
           (u32 (u32 (u32 ((mode <<< k.LVDCR0_LVMD_SHIFT) ||| k.LVDCR0_PWD) ||| k.LVDCR0_LVEN) |||
             k.LVDCR0_LVRES))]) ∧
    rcar_du_lvdsenc_enable rcar_lvds_regs_sample
        { gen := 3, has_lvds_pll := true, needs_lvds_lanes := false, index := 0,
          enabled := true, input := 0, mode := 0 } (some ⟨0, 148500⟩) true 0 =
      { ret := 0,
        lvds := { gen := 3, has_lvds_pll := true, needs_lvds_lanes := false, index := 0,
                  enabled := true, input := 0, mode := 0 },
        trace := [lvds_event.rcar_lvds_write 0x000c 0x321,
                  lvds_event.rcar_lvds_write 0x0010 0,
                  lvds_event.rcar_lvds_write 0x0014 0,
                  lvds_event.rcar_lvds_write 0x0004 0x155,
                  lvds_event.rcar_lvds_write 0x0000 4,
                  lvds_event.rcar_lvds_write 0x0000 6,
                  lvds_event.rcar_lvds_write 0x0000 7] } ∧
    (∀ (k : rcar_lvds_regs) (lvds : rcar_du_lvdsenc) (rcrtc : rcar_du_crtc) (clk_ret : Int),
      lvds.has_lvds_pll = false → lvds.enabled = true →
      rcar_du_lvdsenc_enable k lvds (some rcrtc) true clk_ret =
        { ret := 0, lvds := lvds, trace := [] }) := by
  refine ⟨fun k gen index input mode lanes rcrtc clk_ret => rfl, by decide,
    fun k lvds rcrtc clk_ret hpll hen =>
      rcar_du_lvdsenc_enable_legacy_enabled k lvds rcrtc clk_ret hpll hen⟩

/-- The trace of a successful legacy start: reset release, clock enable, the
routing and channel writes, then the sequence of the generation. -/
theorem rcar_du_lvdsenc_enable_legacy_start (k : rcar_lvds_regs) (lvds : rcar_du_lvdsenc)
    (rcrtc : rcar_du_crtc) (clk_ret : Int)
    (hpll : lvds.has_lvds_pll = false) (hen : lvds.enabled = false) (hclk : 0 ≤ clk_ret) :
    rcar_du_lvdsenc_enable k lvds (some rcrtc) true clk_ret =
      { ret := 0,
        lvds := { lvds with enabled := true },
        trace :=
          [lvds_event.reset_control_deassert, lvds_event.clk_prepare_enable,
           lvds_event.rcar_lvds_write k.LVDCTRCR (lvdctrcr_routing k),
           lvds_event.rcar_lvds_write k.LVDCHCR (start_lvdhcr k lvds)] ++
          (if lvds.gen < 3 then rcar_du_lvdsenc_start_gen2 k lvds rcrtc
           else rcar_du_lvdsenc_start_gen3 k lvds rcrtc) } := by
  have hnot : ¬ clk_ret < 0 := by omega
  simp [rcar_du_lvdsenc_enable, rcar_du_lvdsenc_start, hpll, hen, hnot]

/-- C12: on the older generation without the shared PLL, enabling a disabled
encoder at a mode clock of 60000 with a clock that can be enabled returns 0,
leaves the encoder enabled, and emits exactly: reset deassert, clock enable,
the `LVDCTRCR` routing write, the `LVDCHCR` channel write, `LVDPLLCR` with the
60 MHz constant `LVDPLLCR_PLLDLYCNT_60M`, `LVDCR0`, `LVDCR1`, `LVDCR0` with
`LVDCR0_PLLON`, the delay of 100 to 150 microseconds, and `LVDCR0` with
`LVDCR0_LVRES`. The seven events of the claim occur in it in the stated order
and the ready-bit write is the last event. -/
theorem rcar_du_lvdsenc_enable_gen2_60000 (k : rcar_lvds_regs) (lvds : rcar_du_lvdsenc)
    (rcrtc : rcar_du_crtc) (clk_ret : Int)
    (hgen : lvds.gen < 3) (hpll : lvds.has_lvds_pll = false) (hen : lvds.enabled = false)
    (hclk : 0 ≤ clk_ret) (hfreq : rcrtc.mode_clock = 60000) :
    (rcar_du_lvdsenc_enable k lvds (some rcrtc) true clk_ret).ret = 0 ∧
    (rcar_du_lvdsenc_enable k lvds (some rcrtc) true clk_ret).lvds =
      { lvds with enabled := true } ∧
    (rcar_du_lvdsenc_enable k lvds (some rcrtc) true clk_ret).trace =
      [lvds_event.reset_control_deassert,
       lvds_event.clk_prepare_enable,
       lvds_event.rcar_lvds_write k.LVDCTRCR (lvdctrcr_routing k),
       lvds_event.rcar_lvds_write k.LVDCHCR (start_lvdhcr k lvds),
       lvds_event.rcar_lvds_write k.LVDPLLCR
         (u32 (k.LVDPLLCR_CEEN ||| k.LVDPLLCR_COSEL ||| k.LVDPLLCR_PLLDLYCNT_60M)),
       lvds_event.rcar_lvds_write k.LVDCR0 (start_gen2_lvdcr0 k lvds rcrtc),
       lvds_event.rcar_lvds_write k.LVDCR1
         (u32 (k.LVDCR1_CHSTBY_GEN2 3 ||| k.LVDCR1_CHSTBY_GEN2 2 ||| k.LVDCR1_CHSTBY_GEN2 1 |||
           k.LVDCR1_CHSTBY_GEN2 0 ||| k.LVDCR1_CLKSTBY_GEN2)),
       lvds_event.rcar_lvds_write k.LVDCR0
         (u32 (start_gen2_lvdcr0 k lvds rcrtc ||| k.LVDCR0_PLLON)),
       lvds_event.usleep_range 100 150,
       lvds_event.rcar_lvds_write k.LVDCR0
         (u32 (u32 (start_gen2_lvdcr0 k lvds rcrtc ||| k.LVDCR0_PLLON) ||| k.LVDCR0_LVRES))] ∧
    List.Sublist
      [lvds_event.reset_control_deassert,
       lvds_event.clk_prepare_enable,
       lvds_event.rcar_lvds_write k.LVDCTRCR (lvdctrcr_routing k),
       lvds_event.rcar_lvds_write k.LVDCHCR (start_lvdhcr k lvds),
       lvds_event.rcar_lvds_write k.LVDCR0
         (u32 (start_gen2_lvdcr0 k lvds rcrtc ||| k.LVDCR0_PLLON)),
       lvds_event.usleep_range 100 150,
       lvds_event.rcar_lvds_write k.LVDCR0
         (u32 (u32 (start_gen2_lvdcr0 k lvds rcrtc ||| k.LVDCR0_PLLON) ||| k.LVDCR0_LVRES))]
      (rcar_du_lvdsenc_enable k lvds (some rcrtc) true clk_ret).trace ∧
    (rcar_du_lvdsenc_enable k lvds (some rcrtc) true clk_ret).trace.getLast? =
      some (lvds_event.rcar_lvds_write k.LVDCR0
        (u32 (u32 (start_gen2_lvdcr0 k lvds rcrtc ||| k.LVDCR0_PLLON) ||| k.LVDCR0_LVRES))) := by
  have htrace : (rcar_du_lvdsenc_enable k lvds (some rcrtc) true clk_ret).trace =
      [lvds_event.reset_control_deassert,
       lvds_event.clk_prepare_enable,
       lvds_event.rcar_lvds_write k.LVDCTRCR (lvdctrcr_routing k),
       lvds_event.rcar_lvds_write k.LVDCHCR (start_lvdhcr k lvds),
       lvds_event.rcar_lvds_write k.LVDPLLCR
         (u32 (k.LVDPLLCR_CEEN ||| k.LVDPLLCR_COSEL ||| k.LVDPLLCR_PLLDLYCNT_60M)),
       lvds_event.rcar_lvds_write k.LVDCR0 (start_gen2_lvdcr0 k lvds rcrtc),
       lvds_event.rcar_lvds_write k.LVDCR1
         (u32 (k.LVDCR1_CHSTBY_GEN2 3 ||| k.LVDCR1_CHSTBY_GEN2 2 ||| k.LVDCR1_CHSTBY_GEN2 1 |||
           k.LVDCR1_CHSTBY_GEN2 0 ||| k.LVDCR1_CLKSTBY_GEN2)),
       lvds_event.rcar_lvds_write k.LVDCR0
         (u32 (start_gen2_lvdcr0 k lvds rcrtc ||| k.LVDCR0_PLLON)),
       lvds_event.usleep_range 100 150,
       lvds_event.rcar_lvds_write k.LVDCR0
         (u32 (u32 (start_gen2_lvdcr0 k lvds rcrtc ||| k.LVDCR0_PLLON) ||| k.LVDCR0_LVRES))] := by
    rw [rcar_du_lvdsenc_enable_legacy_start k lvds rcrtc clk_ret hpll hen hclk]
    have hp : start_gen2_pllcr k 60000 =
        u32 (k.LVDPLLCR_CEEN ||| k.LVDPLLCR_COSEL ||| k.LVDPLLCR_PLLDLYCNT_60M) := by
      unfold start_gen2_pllcr
      rw [if_neg (by decide), if_pos (by decide)]
    simp only [if_pos hgen, rcar_du_lvdsenc_start_gen2, hfreq, hp, List.cons_append,
      List.nil_append]
  refine ⟨?_, ?_, htrace, ?_, ?_⟩
  · rw [rcar_du_lvdsenc_enable_legacy_start k lvds rcrtc clk_ret hpll hen hclk]
  · rw [rcar_du_lvdsenc_enable_legacy_start k lvds rcrtc clk_ret hpll hen hclk]
  · rw [htrace]
    exact ((((((List.Sublist.slnil.cons₂ _).cons₂ _).cons₂ _).cons _).cons _).cons _
      |>.cons₂ _ |>.cons₂ _ |>.cons₂ _ |>.cons₂ _)
  · rw [htrace]
    rfl

/-- C12, on a Gen2 encoder with the sample register constants: the call
returns 0, the encoder is enabled, and the trace is the ten events below,
`LVDPLLCR` receiving `CEEN | COSEL | 0x77b`. -/
theorem rcar_du_lvdsenc_enable_gen2_60000_witness :
    rcar_du_lvdsenc_sample_gen2.gen < 3 ∧
    rcar_du_lvdsenc_sample_gen2.has_lvds_pll = false ∧
    rcar_du_lvdsenc_sample_gen2.enabled = false ∧
    (rcar_du_lvdsenc_enable rcar_lvds_regs_sample rcar_du_lvdsenc_sample_gen2
      (some ⟨0, 60000⟩) true 0).ret = 0 ∧
    (rcar_du_lvdsenc_enable rcar_lvds_regs_sample rcar_du_lvdsenc_sample_gen2
      (some ⟨0, 60000⟩) true 0).lvds.enabled = true ∧
    (rcar_du_lvdsenc_enable rcar_lvds_regs_sample rcar_du_lvdsenc_sample_gen2
      (some ⟨0, 60000⟩) true 0).trace =
      [lvds_event.reset_control_deassert,
       lvds_event.clk_prepare_enable,
       lvds_event.rcar_lvds_write 0x000c 0x321,
       lvds_event.rcar_lvds_write 0x0010 0,
       lvds_event.rcar_lvds_write 0x0008 0x577b,
       lvds_event.rcar_lvds_write 0x0000 0x6,
       lvds_event.rcar_lvds_write 0x0004 0x3ff,
       lvds_event.rcar_lvds_write 0x0000 0x16,
       lvds_event.usleep_range 100 150,
       lvds_event.rcar_lvds_write 0x0000 0x17] := by
  have h := rcar_du_lvdsenc_enable_gen2_60000 rcar_lvds_regs_sample rcar_du_lvdsenc_sample_gen2
    ⟨0, 60000⟩ 0 (by decide) rfl rfl (by decide) rfl
  refine ⟨by decide, rfl, rfl, h.1, ?_, ?_⟩
  · rw [h.2.1]
  · rw [h.2.2.1]
    decide

/-- C13, as stated, fails on the order of the three writes: on an enabled
legacy encoder (sample register constants, `LVDCR0` at 0, `LVDCR1` at 4,
`LVDPLLCR` at 8) the disable request zeroes `LVDCR0` first, then `LVDCR1`, and
the PLL register `LVDPLLCR` last, not first. -/
theorem rcar_du_lvdsenc_stop_zeroes_pll_last :
    rcar_lvds_regs_sample.LVDCR0 = 0 ∧ rcar_lvds_regs_sample.LVDCR1 = 4 ∧
    rcar_lvds_regs_sample.LVDPLLCR = 8 ∧
    (rcar_du_lvdsenc_enable rcar_lvds_regs_sample
        { rcar_du_lvdsenc_sample_gen2 with enabled := true } none false 0).trace =
      [lvds_event.rcar_lvds_write 0 0,
       lvds_event.rcar_lvds_write 4 0,
       lvds_event.rcar_lvds_write 8 0,
       lvds_event.clk_disable_unprepare,
       lvds_event.reset_control_assert] ∧
    (rcar_du_lvdsenc_enable rcar_lvds_regs_sample
        { rcar_du_lvdsenc_sample_gen2 with enabled := true } none false 0).trace ≠
      [lvds_event.rcar_lvds_write 8 0,
       lvds_event.rcar_lvds_write 4 0,
       lvds_event.rcar_lvds_write 0 0,
       lvds_event.clk_disable_unprepare,
       lvds_event.reset_control_assert] := by
  decide

/-- C13, amended: for every enabled encoder on the legacy topology, the
disable request returns 0 and writes zero to the three registers in the order
enable/control register `LVDCR0`, then channel register `LVDCR1`, then PLL
register `LVDPLLCR`; it then disables the feeding clock, asserts the reset,
and leaves the encoder disabled. -/
theorem rcar_du_lvdsenc_enable_false_stops (k : rcar_lvds_regs) (lvds : rcar_du_lvdsenc)
    (crtc : Option rcar_du_crtc) (clk_ret : Int)
    (hpll : lvds.has_lvds_pll = false) (hen : lvds.enabled = true) :
    rcar_du_lvdsenc_enable k lvds crtc false clk_ret =
      { ret := 0,
        lvds := { lvds with enabled := false },
        trace := [lvds_event.rcar_lvds_write k.LVDCR0 0,
                  lvds_event.rcar_lvds_write k.LVDCR1 0,
                  lvds_event.rcar_lvds_write k.LVDPLLCR 0,
                  lvds_event.clk_disable_unprepare,
                  lvds_event.reset_control_assert] } := by
  simp [rcar_du_lvdsenc_enable, rcar_du_lvdsenc_stop, __rcar_du_lvdsenc_stop, hpll, hen]

/-- C13, amended, on an enabled Gen2 encoder with the sample register
constants. -/
theorem rcar_du_lvdsenc_enable_false_stops_witness :
    rcar_du_lvdsenc_enable rcar_lvds_regs_sample
        { rcar_du_lvdsenc_sample_gen2 with enabled := true } none false 0 =
      { ret := 0,
        lvds := rcar_du_lvdsenc_sample_gen2,
        trace := [lvds_event.rcar_lvds_write 0 0,
                  lvds_event.rcar_lvds_write 4 0,
                  lvds_event.rcar_lvds_write 8 0,
                  lvds_event.clk_disable_unprepare,
                  lvds_event.reset_control_assert] } :=
  rcar_du_lvdsenc_enable_false_stops rcar_lvds_regs_sample
    { rcar_du_lvdsenc_sample_gen2 with enabled := true } none 0 rfl rfl

/-- C14: on a disabled encoder, if `clk_prepare_enable` returns a negative
code, `rcar_du_lvdsenc_start` returns that code after the reset release and
the clock-enable attempt, writes no register, and leaves the encoder as it
was, so disabled; on the legacy topology that is also what
`rcar_du_lvdsenc_enable` returns. -/
theorem rcar_du_lvdsenc_start_clk_failure (k : rcar_lvds_regs) (lvds : rcar_du_lvdsenc)
    (rcrtc : rcar_du_crtc) (clk_ret : Int)
    (hpll : lvds.has_lvds_pll = false) (hen : lvds.enabled = false) (hclk : clk_ret < 0) :
    rcar_du_lvdsenc_start k lvds rcrtc clk_ret =
      { ret := clk_ret, lvds := lvds,
        trace := [lvds_event.reset_control_deassert, lvds_event.clk_prepare_enable] } ∧
    rcar_du_lvdsenc_enable k lvds (some rcrtc) true clk_ret =
      rcar_du_lvdsenc_start k lvds rcrtc clk_ret ∧
    (∀ reg data, lvds_event.rcar_lvds_write reg data ∉
      (rcar_du_lvdsenc_start k lvds rcrtc clk_ret).trace) ∧
    (rcar_du_lvdsenc_start k lvds rcrtc clk_ret).lvds.enabled = false := by
  have hs : rcar_du_lvdsenc_start k lvds rcrtc clk_ret =
      { ret := clk_ret, lvds := lvds,
        trace := [lvds_event.reset_control_deassert, lvds_event.clk_prepare_enable] } := by
    simp [rcar_du_lvdsenc_start, hen, hclk]
  refine ⟨hs, ?_, ?_, ?_⟩
  · simp [rcar_du_lvdsenc_enable, hpll]
  · intro reg data
    rw [hs]
    simp
  · rw [hs]
    exact hen

/-- C14, on a Gen2 encoder whose clock fails with -5: the call returns -5
after two events, neither of them a register write. -/
theorem rcar_du_lvdsenc_start_clk_failure_witness :
    rcar_du_lvdsenc_enable rcar_lvds_regs_sample rcar_du_lvdsenc_sample_gen2
        (some ⟨0, 60000⟩) true (-5) =
      { ret := -5, lvds := rcar_du_lvdsenc_sample_gen2,
        trace := [lvds_event.reset_control_deassert, lvds_event.clk_prepare_enable] } := by
  have h := rcar_du_lvdsenc_start_clk_failure rcar_lvds_regs_sample rcar_du_lvdsenc_sample_gen2
    ⟨0, 60000⟩ (-5) rfl rfl (by decide)
  rw [h.2.1, h.1]

/-- C15, the input on which the reset stays released: when
`clk_prepare_enable` fails (here with -5), `rcar_du_lvdsenc_enable` on a
disabled legacy encoder and `rcar_du_lvdsenc_pll_pre_start` on a disabled
shared-PLL encoder both return right after the failed call; the trace is the
reset deassert and the clock-enable attempt, with no reset assert after them.
Neither function asserts the reset on any path. -/
theorem rcar_du_lvdsenc_clk_failure_leaves_reset_released :
    (rcar_du_lvdsenc_enable rcar_lvds_regs_sample rcar_du_lvdsenc_sample_gen2
        (some ⟨0, 60000⟩) true (-5)).trace =
      [lvds_event.reset_control_deassert, lvds_event.clk_prepare_enable] ∧
    rcar_du_lvdsenc_pll_pre_start rcar_lvds_regs_sample rcar_du_lvdsenc_sample 60000
        (fun _ => true) (-5) =
      [lvds_event.reset_control_deassert, lvds_event.clk_prepare_enable] ∧
    (∀ (k : rcar_lvds_regs) (lvds : rcar_du_lvdsenc) (rcrtc : rcar_du_crtc) (clk_ret : Int),
      lvds_event.reset_control_assert ∉ (rcar_du_lvdsenc_start k lvds rcrtc clk_ret).trace) ∧
    (∀ (k : rcar_lvds_regs) (lvds : rcar_du_lvdsenc) (mode_clock : Nat)
        (kzalloc_ok : Nat → Bool) (clk_ret : Int),
      lvds_event.reset_control_assert ∉
        rcar_du_lvdsenc_pll_pre_start k lvds mode_clock kzalloc_ok clk_ret) := by
  refine ⟨by decide, by decide, ?_, ?_⟩
  · intro k lvds rcrtc clk_ret
    unfold rcar_du_lvdsenc_start rcar_du_lvdsenc_start_gen2 rcar_du_lvdsenc_start_gen3
    split_ifs <;> simp
  · intro k lvds mode_clock kzalloc_ok clk_ret
    unfold rcar_du_lvdsenc_pll_pre_start
    split_ifs <;> simp

/-- Every encoder `rcar_du_lvdsenc_init` stores in `rcdu->lvds[]` is
disabled. -/
theorem rcar_du_lvdsenc_init_from_disabled (gen : Nat) (has_lvds_pll needs_lvds_lanes : Bool)
    (kzalloc_ok : Nat → Bool) (get_resources : Nat → Int) (remaining i : Nat) :
    ∀ lvds ∈ (rcar_du_lvdsenc_init_from gen has_lvds_pll needs_lvds_lanes kzalloc_ok
      get_resources i remaining).2, lvds.enabled = false := by
  induction remaining generalizing i with
  | zero => intro lvds h; simp [rcar_du_lvdsenc_init_from] at h
  | succ r ih =>
    intro lvds h
    unfold rcar_du_lvdsenc_init_from at h
    by_cases h1 : (!kzalloc_ok i) = true
    · rw [if_pos h1] at h
      simp at h
    · rw [if_neg h1] at h
      by_cases h2 : get_resources i < 0
      · rw [if_pos h2] at h
        simp at h
      · rw [if_neg h2] at h
        rcases List.mem_cons.1 h with h | h
        · rw [h]
        · exact ih (i + 1) lvds h

/-- C16: on an encoder that is not enabled, whatever its generation and
topology and whatever the crtc argument, the disable request
`rcar_du_lvdsenc_enable(lvds, crtc, false)` returns 0 with an empty trace (no
register write, no clock or reset operation) and leaves the encoder as it
was, so disabled. -/
theorem rcar_du_lvdsenc_enable_false_disabled (k : rcar_lvds_regs) (lvds : rcar_du_lvdsenc)
    (crtc : Option rcar_du_crtc) (clk_ret : Int) (hen : lvds.enabled = false) :
    rcar_du_lvdsenc_enable k lvds crtc false clk_ret =
      { ret := 0, lvds := lvds, trace := [] } ∧
    (rcar_du_lvdsenc_enable k lvds crtc false clk_ret).lvds.enabled = false := by
  have h : rcar_du_lvdsenc_enable k lvds crtc false clk_ret =
      { ret := 0, lvds := lvds, trace := [] } := by
    simp [rcar_du_lvdsenc_enable, rcar_du_lvdsenc_stop, hen]
  exact ⟨h, by rw [h]; exact hen⟩

/-- C16, on the encoders `rcar_du_lvdsenc_init` creates for a device with two
LVDS outputs: both are disabled, and a disable request on either one, never
enabled, does nothing. -/
theorem rcar_du_lvdsenc_enable_false_disabled_witness :
    rcar_du_lvdsenc_init 2 false false 2 (fun _ => true) (fun _ => 0) =
      (0, [{ gen := 2, has_lvds_pll := false, needs_lvds_lanes := false, index := 0,
             enabled := false, input := 0, mode := 0 },
           { gen := 2, has_lvds_pll := false, needs_lvds_lanes := false, index := 1,
             enabled := false, input := 1, mode := 0 }]) ∧
    (∀ lvds ∈ (rcar_du_lvdsenc_init 2 false false 2 (fun _ => true) (fun _ => 0)).2,
      rcar_du_lvdsenc_enable rcar_lvds_regs_sample lvds none false 0 =
        { ret := 0, lvds := lvds, trace := [] }) :=
  ⟨by decide, fun lvds h =>
    (rcar_du_lvdsenc_enable_false_disabled rcar_lvds_regs_sample lvds none 0
      (rcar_du_lvdsenc_init_from_disabled 2 false false (fun _ => true) (fun _ => 0) 2 0
        lvds h)).1⟩

/-- C17: `rcar_du_lvdsenc_atomic_check` always returns, leaves the encoder
untouched, and sets the mode clock to `min (max c 30000) 150000` on the older
generation (`gen < 3`) and to `min (max c 25175) 148500` otherwise: a clock
below the band becomes its lower end, a clock above it the upper end, a clock
inside it is kept; 10000 becomes 30000 or 25175 and 999000 becomes 150000 or
148500. -/
theorem rcar_du_lvdsenc_atomic_check_clamps (lvds : rcar_du_lvdsenc) (c : Int) :
    (rcar_du_lvdsenc_atomic_check lvds c).1 = lvds ∧
    (lvds.gen < 3 →
      (rcar_du_lvdsenc_atomic_check lvds c).2 = min (max c 30000) 150000 ∧
      (c < 30000 → (rcar_du_lvdsenc_atomic_check lvds c).2 = 30000) ∧
      (150000 < c → (rcar_du_lvdsenc_atomic_check lvds c).2 = 150000) ∧
      (30000 ≤ c → c ≤ 150000 → (rcar_du_lvdsenc_atomic_check lvds c).2 = c) ∧
      (rcar_du_lvdsenc_atomic_check lvds 10000).2 = 30000 ∧
      (rcar_du_lvdsenc_atomic_check lvds 999000).2 = 150000) ∧
    (¬ lvds.gen < 3 →
      (rcar_du_lvdsenc_atomic_check lvds c).2 = min (max c 25175) 148500 ∧
      (c < 25175 → (rcar_du_lvdsenc_atomic_check lvds c).2 = 25175) ∧
      (148500 < c → (rcar_du_lvdsenc_atomic_check lvds c).2 = 148500) ∧
      (25175 ≤ c → c ≤ 148500 → (rcar_du_lvdsenc_atomic_check lvds c).2 = c) ∧
      (rcar_du_lvdsenc_atomic_check lvds 10000).2 = 25175 ∧
      (rcar_du_lvdsenc_atomic_check lvds 999000).2 = 148500) := by
  have hclamp : ∀ v lo hi : Int, lo ≤ hi → clamp v lo hi = min (max v lo) hi := by
    intro v lo hi _
    unfold clamp kernel_min kernel_max
    split_ifs <;> omega
  refine ⟨?_, ?_, ?_⟩
  · unfold rcar_du_lvdsenc_atomic_check
    split_ifs <;> rfl
  · intro hgen
    have h : ∀ v, (rcar_du_lvdsenc_atomic_check lvds v).2 = min (max v 30000) 150000 := by
      intro v
      unfold rcar_du_lvdsenc_atomic_check
      rw [if_pos hgen]
      exact hclamp v 30000 150000 (by decide)
    refine ⟨h c, ?_, ?_, ?_, ?_, ?_⟩
    · intro hc; rw [h]; omega
    · intro hc; rw [h]; omega
    · intro h1 h2; rw [h]; omega
    · rw [h]; decide
    · rw [h]; decide
  · intro hgen
    have h : ∀ v, (rcar_du_lvdsenc_atomic_check lvds v).2 = min (max v 25175) 148500 := by
      intro v
      unfold rcar_du_lvdsenc_atomic_check
      rw [if_neg hgen]
      exact hclamp v 25175 148500 (by decide)
    refine ⟨h c, ?_, ?_, ?_, ?_, ?_⟩
    · intro hc; rw [h]; omega
    · intro hc; rw [h]; omega
    · intro h1 h2; rw [h]; omega
    · rw [h]; decide
    · rw [h]; decide

/-- C18: on the shared-PLL topology the disable request
`rcar_du_lvdsenc_enable(lvds, crtc, false)` skips the teardown whatever the
state of the encoder: it returns 0 with an empty trace, so it writes no
register (`LVDPLLCR` in particular), does not disable the clock and does not
assert the reset, and the encoder structure is left as it was. -/
theorem rcar_du_lvdsenc_enable_false_shared_pll (k : rcar_lvds_regs) (lvds : rcar_du_lvdsenc)
    (crtc : Option rcar_du_crtc) (clk_ret : Int) (hpll : lvds.has_lvds_pll = true) :
    rcar_du_lvdsenc_enable k lvds crtc false clk_ret =
      { ret := 0, lvds := lvds, trace := [] } ∧
    (∀ data, lvds_event.rcar_lvds_write k.LVDPLLCR data ∉
      (rcar_du_lvdsenc_enable k lvds crtc false clk_ret).trace) ∧
    lvds_event.clk_disable_unprepare ∉
      (rcar_du_lvdsenc_enable k lvds crtc false clk_ret).trace ∧
    lvds_event.reset_control_assert ∉
      (rcar_du_lvdsenc_enable k lvds crtc false clk_ret).trace := by
  have h : rcar_du_lvdsenc_enable k lvds crtc false clk_ret =
      { ret := 0, lvds := lvds, trace := [] } := by
    simp [rcar_du_lvdsenc_enable, rcar_du_lvdsenc_stop, hpll]
  refine ⟨h, ?_, ?_, ?_⟩ <;> rw [h] <;> simp

/-- C18, on an enabled Gen3 encoder with the shared PLL: the disable request
returns 0, emits nothing and the encoder stays enabled. -/
theorem rcar_du_lvdsenc_enable_false_shared_pll_witness :
    rcar_du_lvdsenc_enable rcar_lvds_regs_sample
        { rcar_du_lvdsenc_sample with enabled := true } none false 0 =
      { ret := 0, lvds := { rcar_du_lvdsenc_sample with enabled := true }, trace := [] } :=
  (rcar_du_lvdsenc_enable_false_shared_pll rcar_lvds_regs_sample
    { rcar_du_lvdsenc_sample with enabled := true } none 0 rfl).1

/-! ## The PLL parameter search: order of the search and the stage formulas -/

/-- When some pair of the search domain is legal, the search stores a
result. -/
theorem pll_calc_run_stores {pll : pll_info} {in_fre mode_freq : Nat} {edivider : Bool}
    (hlo : 12000000 ≤ in_fre) (hhi : in_fre ≤ 192000000) (hmode : mode_freq < 4294967296)
    (hex : ∃ n m, pll_legal in_fre edivider n m) :
    (pll_calc_run pll in_fre mode_freq edivider).clk_diff_set = false := by
  have hinv := pll_calc_run_inv pll in_fre mode_freq edivider hlo hhi hmode
  obtain ⟨n0, m0, hl0⟩ := hex
  cases hcd : (pll_calc_run pll in_fre mode_freq edivider).clk_diff_set with
  | false => rfl
  | true =>
    exact absurd (pll_seen_end hl0 (by decide : 0 < 64)) ((hinv.fresh hcd).2.2 n0 m0 0)

/-- For an input clock of at most 192 MHz and `n + 1` at most 120 none of the
`unsigned long` products of the stage frequencies wraps. -/
theorem pll_calc_stage_eq {in_fre n m : Nat} (hhi : in_fre ≤ 192000000) (hn : n + 1 ≤ 120)
    (hm : m + 1 ≤ 7) :
    pll_calc_fvco in_fre n m = in_fre / 1000 * (n + 1) / (m + 1) * 1000 ∧
    pll_calc_fout in_fre n m 0 false = in_fre / 1000 * (n + 1) / (m + 1) * 1000 ∧
    pll_calc_fout in_fre n m 0 true = in_fre / 1000 * (n + 1) / ((m + 1) * 2) * 1000 := by
  have ha : in_fre / 1000 ≤ 192000 := by omega
  have hp : in_fre / 1000 * (n + 1) ≤ 192000 * 120 := Nat.mul_le_mul ha hn
  have hq1 : in_fre / 1000 * (n + 1) / (m + 1) ≤ in_fre / 1000 * (n + 1) := Nat.div_le_self _ _
  have hq2 : in_fre / 1000 * (n + 1) / ((m + 1) * 2) ≤ in_fre / 1000 * (n + 1) :=
    Nat.div_le_self _ _
  have hu : u32 (in_fre / 1000) = in_fre / 1000 := u32_of_lt (by omega)
  have hul : ulong (in_fre / 1000 * (n + 1)) = in_fre / 1000 * (n + 1) := ulong_of_lt (by omega)
  have hd : ulong ((m + 1) * (0 + 1) * 2) = (m + 1) * 2 := by
    rw [ulong_of_lt (by omega)]; omega
  have hq1u : ulong (in_fre / 1000 * (n + 1) / (m + 1)) = in_fre / 1000 * (n + 1) / (m + 1) :=
    ulong_of_lt (by omega)
  have hq2u : ulong (in_fre / 1000 * (n + 1) / ((m + 1) * 2)) =
      in_fre / 1000 * (n + 1) / ((m + 1) * 2) := ulong_of_lt (by omega)
  have ho1 : ulong (in_fre / 1000 * (n + 1) / (m + 1) * 1000) =
      in_fre / 1000 * (n + 1) / (m + 1) * 1000 := ulong_of_lt (by omega)
  have ho2 : ulong (in_fre / 1000 * (n + 1) / ((m + 1) * 2) * 1000) =
      in_fre / 1000 * (n + 1) / ((m + 1) * 2) * 1000 := ulong_of_lt (by omega)
  refine ⟨?_, ?_, ?_⟩
  · unfold pll_calc_fvco
    rw [hu, hul, hq1u, ho1]
  · unfold pll_calc_fout
    rw [if_neg (by decide), hu, hul, hq1u, ho1]
  · unfold pll_calc_fout
    rw [if_pos rfl, hu, hul, hd, hq2u, ho2]

/-- The VCO frequency the function computes from the kHz-truncated input
clock never exceeds the documented one. -/
theorem pll_calc_fvco_le_doc {in_fre n m : Nat} (hhi : in_fre ≤ 192000000) (hn : n + 1 ≤ 120)
    (hm : m + 1 ≤ 7) : pll_calc_fvco in_fre n m ≤ pll_doc_fvco in_fre n m := by
  rw [(pll_calc_stage_eq hhi hn hm).1]
  unfold pll_doc_fvco
  rw [Nat.le_div_iff_mul_le (by omega)]
  have h1 : in_fre / 1000 * (n + 1) / (m + 1) * (m + 1) ≤ in_fre / 1000 * (n + 1) :=
    Nat.div_mul_le_self _ _
  have h2 : in_fre / 1000 * 1000 ≤ in_fre := Nat.div_mul_le_self _ _
  calc in_fre / 1000 * (n + 1) / (m + 1) * 1000 * (m + 1)
      = in_fre / 1000 * (n + 1) / (m + 1) * (m + 1) * 1000 := by ring
    _ ≤ in_fre / 1000 * (n + 1) * 1000 := Nat.mul_le_mul_right 1000 h1
    _ = in_fre / 1000 * 1000 * (n + 1) := by ring
    _ ≤ in_fre * (n + 1) := Nat.mul_le_mul_right (n + 1) h2

/-- C20, as stated, fails under the documented formulas. At 16.500001 MHz in
and 148.5 MHz wanted without the E-divider the search stores `N + 1 = 63`,
`M + 1 = 1`, for which the documented output before the divide-by-7 stage is
`16500001 * 63 = 1039500063`, above 1039500000. At 15.000001 MHz in and
128571428 Hz wanted with the E-divider it stores `N + 1 = 120`, `M + 1 = 1`,
for which the documented `fvco` is `1800000120`, above 1800000000. -/
theorem rcar_du_lvdsenc_pll_calc_exceeds_documented_bounds :
    rcar_du_lvdsenc_pll_calc pll_info_zero 16500001 148500000 false =
      { pllclk := 148500000, diff := 0, clk_n := 62, clk_m := 0, clk_e := 0, div := 0 } ∧
    (pll_calc_run pll_info_zero 16500001 148500000 false).clk_diff_set = false ∧
    pll_doc_fout_pre 16500001 62 0 false = 1039500063 ∧
    ¬ (pll_doc_fout_pre 16500001 62 0 false ≤ 1039500000) ∧
    rcar_du_lvdsenc_pll_calc pll_info_zero 15000001 128571428 true =
      { pllclk := 128571428, diff := 0, clk_n := 119, clk_m := 0, clk_e := 0, div := 0 } ∧
    (pll_calc_run pll_info_zero 15000001 128571428 true).clk_diff_set = false ∧
    pll_doc_fvco 15000001 119 0 = 1800000120 ∧
    ¬ (pll_doc_fvco 15000001 119 0 ≤ 1800000000) := by
  refine ⟨by decide!, by decide!, by decide, by decide, by decide!, by decide!, by decide,
    by decide⟩

/-- C20, amended: for an input clock in `[12 MHz, 192 MHz]`, when the search
stores `(clk_n, clk_m)`, the stage frequencies computed from the input clock
truncated to kHz are legal: with `N + 1 = clk_n + 1` and `M + 1 = clk_m + 1`,
`fvco = (in_fre / 1000) * (N + 1) / (M + 1) * 1000` lies in
`[900 MHz, 1800 MHz]`, `fpfd = in_fre / (M + 1)` lies in `[12 MHz, 24 MHz]`,
and the output before the divide-by-7 stage, which is
`(in_fre / 1000) * (N + 1) / ((M + 1) * 2) * 1000` with the extra divider and
`fvco` without it, does not exceed 1039500000. Of the documented formulas,
`fpfd` is in range and `fvco = in_fre * (N + 1) / (M + 1)` is at least
900 MHz. -/
theorem rcar_du_lvdsenc_pll_calc_result_legal (pll : pll_info) (in_fre mode_freq : Nat)
    (edivider : Bool) (hlo : 12000000 ≤ in_fre) (hhi : in_fre ≤ 192000000)
    (hmode : mode_freq < 4294967296)
    (hres : (pll_calc_run pll in_fre mode_freq edivider).clk_diff_set = false) :
    900000000 ≤ in_fre / 1000 *
        ((rcar_du_lvdsenc_pll_calc pll in_fre mode_freq edivider).clk_n + 1) /
        ((rcar_du_lvdsenc_pll_calc pll in_fre mode_freq edivider).clk_m + 1) * 1000 ∧
    in_fre / 1000 * ((rcar_du_lvdsenc_pll_calc pll in_fre mode_freq edivider).clk_n + 1) /
        ((rcar_du_lvdsenc_pll_calc pll in_fre mode_freq edivider).clk_m + 1) * 1000 ≤
      1800000000 ∧
    12000000 ≤ in_fre / ((rcar_du_lvdsenc_pll_calc pll in_fre mode_freq edivider).clk_m + 1) ∧
    in_fre / ((rcar_du_lvdsenc_pll_calc pll in_fre mode_freq edivider).clk_m + 1) ≤ 24000000 ∧
    (if edivider then
        in_fre / 1000 * ((rcar_du_lvdsenc_pll_calc pll in_fre mode_freq edivider).clk_n + 1) /
          (((rcar_du_lvdsenc_pll_calc pll in_fre mode_freq edivider).clk_m + 1) * 2) * 1000
      else
        in_fre / 1000 * ((rcar_du_lvdsenc_pll_calc pll in_fre mode_freq edivider).clk_n + 1) /
          ((rcar_du_lvdsenc_pll_calc pll in_fre mode_freq edivider).clk_m + 1) * 1000) ≤
      1039500000 ∧
    900000000 ≤ pll_doc_fvco in_fre
      (rcar_du_lvdsenc_pll_calc pll in_fre mode_freq edivider).clk_n
      (rcar_du_lvdsenc_pll_calc pll in_fre mode_freq edivider).clk_m ∧
    12000000 ≤ pll_doc_fpfd in_fre
      (rcar_du_lvdsenc_pll_calc pll in_fre mode_freq edivider).clk_m ∧
    pll_doc_fpfd in_fre (rcar_du_lvdsenc_pll_calc pll in_fre mode_freq edivider).clk_m ≤
      24000000 := by
  have hinv := pll_calc_run_inv pll in_fre mode_freq edivider hlo hhi hmode
  unfold rcar_du_lvdsenc_pll_calc
  generalize pll_calc_run pll in_fre mode_freq edivider = s at hinv hres
  obtain ⟨_, hn, _, hm, hfout, hpf1, hpf2, hv1, hv2⟩ := (hinv.stored_seen hres).1
  have hdoc := pll_calc_fvco_le_doc (m := s.pll.clk_m) hhi hn hm
  obtain ⟨e1, e2, e3⟩ := pll_calc_stage_eq (m := s.pll.clk_m) hhi hn hm
  rw [e1] at hv1 hv2
  unfold pll_calc_fpfd at hpf1 hpf2
  refine ⟨hv1, hv2, hpf1, hpf2, ?_, ?_, hpf1, hpf2⟩
  · cases edivider with
    | true => rw [e3] at hfout; simpa using hfout
    | false => rw [e2] at hfout; simpa using hfout
  · rw [e1] at hdoc
    omega

/-- C20, amended, at 48 MHz in, 148.5 MHz wanted, no E-divider: the stored
pair `(85, 3)` has `fvco = 1032 MHz`, `fpfd = 12 MHz` and an output of
1032 MHz before the divide-by-7 stage. -/
theorem rcar_du_lvdsenc_pll_calc_result_legal_witness :
    rcar_du_lvdsenc_pll_calc pll_info_zero 48000000 148500000 false =
      { pllclk := 147428571, diff := 1071429, clk_n := 85, clk_m := 3, clk_e := 0, div := 0 } ∧
    48000000 / 1000 * (85 + 1) / (3 + 1) * 1000 = 1032000000 ∧
    900000000 ≤ 48000000 / 1000 * (85 + 1) / (3 + 1) * 1000 ∧
    48000000 / 1000 * (85 + 1) / (3 + 1) * 1000 ≤ 1039500000 ∧
    12000000 ≤ 48000000 / (3 + 1) ∧ 48000000 / (3 + 1) ≤ 24000000 := by
  have e : rcar_du_lvdsenc_pll_calc pll_info_zero 48000000 148500000 false =
      { pllclk := 147428571, diff := 1071429, clk_n := 85, clk_m := 3, clk_e := 0, div := 0 } := by
    decide!
  have h := rcar_du_lvdsenc_pll_calc_result_legal pll_info_zero 48000000 148500000 false
    (by decide) (by decide) (by decide) (by decide!)
  rw [e] at h
  exact ⟨e, by decide, h.1, h.2.2.2.2.1, h.2.2.1, h.2.2.2.1⟩

/-! ## The start sequences: band selection and the order around the delay -/

/-- The writes to `LVDPLLCR` during a successful legacy start: exactly one,
with the value the generation's band selection computes. -/
theorem lvds_writes_to_lvdpllcr_start (k : rcar_lvds_regs) (lvds : rcar_du_lvdsenc)
    (rcrtc : rcar_du_crtc) (clk_ret : Int) (hk : rcar_lvds_regs_layout k)
    (hpll : lvds.has_lvds_pll = false) (hen : lvds.enabled = false) (hclk : 0 ≤ clk_ret) :
    lvds_writes_to k.LVDPLLCR
        (rcar_du_lvdsenc_enable k lvds (some rcrtc) true clk_ret).trace =
      [if lvds.gen < 3 then start_gen2_pllcr k rcrtc.mode_clock
       else start_gen3_pllcr k rcrtc.mode_clock] := by
  rw [rcar_du_lvdsenc_enable_legacy_start k lvds rcrtc clk_ret hpll hen hclk]
  have h1 := hk.lvdpllcr_ne_lvdctrcr.symm
  have h2 := hk.lvdpllcr_ne_lvdchcr.symm
  have h3 := hk.lvdpllcr_ne_lvdcr0.symm
  have h4 := hk.lvdpllcr_ne_lvdcr1.symm
  by_cases hgen : lvds.gen < 3
  · simp [hgen, rcar_du_lvdsenc_start_gen2, lvds_writes_to, h1, h2, h3, h4]
  · simp [hgen, rcar_du_lvdsenc_start_gen3, lvds_writes_to, h1, h2, h3, h4]

/-- C21: during a successful legacy start `LVDPLLCR` is written exactly once,
and the value is a step function of the mode clock `f` with four bands per
generation. On the older generation (`gen < 3`) it is built from
`PLLDLYCNT_38M` for `f < 39000`, `PLLDLYCNT_60M` for `39000 ≤ f < 61000`,
`PLLDLYCNT_121M` for `61000 ≤ f < 121000` (each with `CEEN | COSEL`) and is
`PLLDLYCNT_150M` for `f ≥ 121000`; on the newer generation it is
`PLLDIVCNT_42M` for `f < 42000`, `PLLDIVCNT_85M` for `42000 ≤ f < 85000`,
`PLLDIVCNT_128M` for `85000 ≤ f < 128000` and `PLLDIVCNT_148M` for
`f ≥ 128000`. The register offsets are assumed distinct. -/
theorem rcar_du_lvdsenc_start_band (k : rcar_lvds_regs) (lvds : rcar_du_lvdsenc)
    (rcrtc : rcar_du_crtc) (clk_ret : Int) (hk : rcar_lvds_regs_layout k)
    (hpll : lvds.has_lvds_pll = false) (hen : lvds.enabled = false) (hclk : 0 ≤ clk_ret) :
    (lvds.gen < 3 →
      (rcrtc.mode_clock < 39000 →
        lvds_writes_to k.LVDPLLCR
            (rcar_du_lvdsenc_enable k lvds (some rcrtc) true clk_ret).trace =
          [u32 (k.LVDPLLCR_CEEN ||| k.LVDPLLCR_COSEL ||| k.LVDPLLCR_PLLDLYCNT_38M)]) ∧
      (39000 ≤ rcrtc.mode_clock → rcrtc.mode_clock < 61000 →
        lvds_writes_to k.LVDPLLCR
            (rcar_du_lvdsenc_enable k lvds (some rcrtc) true clk_ret).trace =
          [u32 (k.LVDPLLCR_CEEN ||| k.LVDPLLCR_COSEL ||| k.LVDPLLCR_PLLDLYCNT_60M)]) ∧
      (61000 ≤ rcrtc.mode_clock → rcrtc.mode_clock < 121000 →
        lvds_writes_to k.LVDPLLCR
            (rcar_du_lvdsenc_enable k lvds (some rcrtc) true clk_ret).trace =
          [u32 (k.LVDPLLCR_CEEN ||| k.LVDPLLCR_COSEL ||| k.LVDPLLCR_PLLDLYCNT_121M)]) ∧
      (121000 ≤ rcrtc.mode_clock →
        lvds_writes_to k.LVDPLLCR
            (rcar_du_lvdsenc_enable k lvds (some rcrtc) true clk_ret).trace =
          [u32 k.LVDPLLCR_PLLDLYCNT_150M])) ∧
    (¬ lvds.gen < 3 →
      (rcrtc.mode_clock < 42000 →
        lvds_writes_to k.LVDPLLCR
            (rcar_du_lvdsenc_enable k lvds (some rcrtc) true clk_ret).trace =
          [u32 k.LVDPLLCR_PLLDIVCNT_42M]) ∧
      (42000 ≤ rcrtc.mode_clock → rcrtc.mode_clock < 85000 →
        lvds_writes_to k.LVDPLLCR
            (rcar_du_lvdsenc_enable k lvds (some rcrtc) true clk_ret).trace =
          [u32 k.LVDPLLCR_PLLDIVCNT_85M]) ∧
      (85000 ≤ rcrtc.mode_clock → rcrtc.mode_clock < 128000 →
        lvds_writes_to k.LVDPLLCR
            (rcar_du_lvdsenc_enable k lvds (some rcrtc) true clk_ret).trace =
          [u32 k.LVDPLLCR_PLLDIVCNT_128M]) ∧
      (128000 ≤ rcrtc.mode_clock →
        lvds_writes_to k.LVDPLLCR
            (rcar_du_lvdsenc_enable k lvds (some rcrtc) true clk_ret).trace =
          [u32 k.LVDPLLCR_PLLDIVCNT_148M])) := by
  have hw := lvds_writes_to_lvdpllcr_start k lvds rcrtc clk_ret hk hpll hen hclk
  rw [hw]
  constructor
  · intro hgen
    rw [if_pos hgen]
    unfold start_gen2_pllcr
    refine ⟨fun h => ?_, fun h1 h2 => ?_, fun h1 h2 => ?_, fun h => ?_⟩
    · rw [if_pos h]
    · rw [if_neg (by omega), if_pos h2]
    · rw [if_neg (by omega), if_neg (by omega), if_pos h2]
    · rw [if_neg (by omega), if_neg (by omega), if_neg (by omega)]
  · intro hgen
    rw [if_neg hgen]
    unfold start_gen3_pllcr
    refine ⟨fun h => ?_, fun h1 h2 => ?_, fun h1 h2 => ?_, fun h => ?_⟩
    · rw [if_pos h]
    · rw [if_neg (by omega), if_pos h2]
    · rw [if_neg (by omega), if_neg (by omega), if_pos h2]
    · rw [if_neg (by omega), if_neg (by omega), if_neg (by omega)]

/-- The sample register constants have the assumed layout. -/
theorem rcar_lvds_regs_sample_layout : rcar_lvds_regs_layout rcar_lvds_regs_sample where
  lvdpllcr_ne_lvdctrcr := by decide
  lvdpllcr_ne_lvdchcr := by decide
  lvdpllcr_ne_lvdcr0 := by decide
  lvdpllcr_ne_lvdcr1 := by decide
  lvdcr0_ne_lvdctrcr := by decide
  lvdcr0_ne_lvdchcr := by decide
  lvdcr0_ne_lvdcr1 := by decide
  pllon_lt := by decide
  lvres_lt := by decide
  lvres_ne_zero := by decide
  lvres_below_mode := by decide
  ben_lvres := by decide
  lven_lvres := by decide
  dusel_lvres := by decide
  pllon_lvres := by decide
  pwd_lvres := by decide

/-- C21, with the sample register constants: a Gen2 encoder started at 60000
and at 121000 writes `LVDPLLCR` once, with `CEEN | COSEL | 0x77b` and with
`0x1bf`; a Gen3 encoder without the shared PLL started at 84999 and at 85000
writes it once, with `0xa45` and with `0x6c3`. -/
theorem rcar_du_lvdsenc_start_band_witness :
    lvds_writes_to 0x0008
        (rcar_du_lvdsenc_enable rcar_lvds_regs_sample rcar_du_lvdsenc_sample_gen2
          (some ⟨0, 60000⟩) true 0).trace = [0x577b] ∧
    lvds_writes_to 0x0008
        (rcar_du_lvdsenc_enable rcar_lvds_regs_sample rcar_du_lvdsenc_sample_gen2
          (some ⟨0, 121000⟩) true 0).trace = [0x1bf] ∧
    lvds_writes_to 0x0008
        (rcar_du_lvdsenc_enable rcar_lvds_regs_sample
          { rcar_du_lvdsenc_sample with has_lvds_pll := false }
          (some ⟨0, 84999⟩) true 0).trace = [0xa45] ∧
    lvds_writes_to 0x0008
        (rcar_du_lvdsenc_enable rcar_lvds_regs_sample
          { rcar_du_lvdsenc_sample with has_lvds_pll := false }
          (some ⟨0, 85000⟩) true 0).trace = [0x6c3] :=
  ⟨((rcar_du_lvdsenc_start_band rcar_lvds_regs_sample rcar_du_lvdsenc_sample_gen2 ⟨0, 60000⟩ 0
      rcar_lvds_regs_sample_layout rfl rfl (by decide)).1 (by decide)).2.1
      (by decide) (by decide),
   ((rcar_du_lvdsenc_start_band rcar_lvds_regs_sample rcar_du_lvdsenc_sample_gen2 ⟨0, 121000⟩ 0
      rcar_lvds_regs_sample_layout rfl rfl (by decide)).1 (by decide)).2.2.2 (by decide),
   ((rcar_du_lvdsenc_start_band rcar_lvds_regs_sample
      { rcar_du_lvdsenc_sample with has_lvds_pll := false } ⟨0, 84999⟩ 0
      rcar_lvds_regs_sample_layout rfl rfl (by decide)).2 (by decide)).2.1
      (by decide) (by decide),
   ((rcar_du_lvdsenc_start_band rcar_lvds_regs_sample
      { rcar_du_lvdsenc_sample with has_lvds_pll := false } ⟨0, 85000⟩ 0
      rcar_lvds_regs_sample_layout rfl rfl (by decide)).2 (by decide)).2.2.1
      (by decide) (by decide)⟩

/-- Two numbers share no bit exactly when their bitwise and is 0. -/
theorem and_eq_zero_iff_testBit (x l : Nat) :
    x &&& l = 0 ↔ ∀ i, x.testBit i = true → l.testBit i = false := by
  constructor
  · intro h i hx
    have h' : (x &&& l).testBit i = false := by rw [h]; exact Nat.zero_testBit i
    rw [Nat.testBit_and, hx] at h'
    simpa using h'
  · intro h
    apply Nat.eq_of_testBit_eq
    intro i
    rw [Nat.testBit_and, Nat.zero_testBit]
    cases hx : x.testBit i with
    | false => rfl
    | true => simp [h i hx]

theorem u32_and_eq_zero {x l : Nat} (h : x &&& l = 0) : u32 x &&& l = 0 := by
  rw [and_eq_zero_iff_testBit] at h ⊢
  intro i hx
  unfold u32 at hx
  rw [show (4294967296 : Nat) = 2 ^ 32 from rfl, Nat.testBit_mod_two_pow] at hx
  simp only [Bool.and_eq_true, decide_eq_true_eq] at hx
  exact h i hx.2

theorem or_and_eq_zero {x y l : Nat} (hx : x &&& l = 0) (hy : y &&& l = 0) :
    (x ||| y) &&& l = 0 := by
  rw [and_eq_zero_iff_testBit] at hx hy ⊢
  intro i h
  rw [Nat.testBit_or] at h
  simp only [Bool.or_eq_true] at h
  rcases h with h | h
  · exact hx i h
  · exact hy i h

theorem shiftLeft_and_eq_zero (m : Nat) {s l : Nat} (h : l < 2 ^ s) : (m <<< s) &&& l = 0 := by
  rw [and_eq_zero_iff_testBit]
  intro i hi
  rw [Nat.testBit_shiftLeft] at hi
  simp only [Bool.and_eq_true, decide_eq_true_eq] at hi
  exact Nat.testBit_lt_two_pow (Nat.lt_of_lt_of_le h (Nat.pow_le_pow_right (by decide) hi.1))

theorem u32_or_and_self (x : Nat) {p : Nat} (hp : p < 2 ^ 32) : u32 (x ||| p) &&& p = p := by
  apply Nat.eq_of_testBit_eq
  intro i
  unfold u32
  rw [show (4294967296 : Nat) = 2 ^ 32 from rfl, Nat.testBit_and, Nat.testBit_mod_two_pow,
    Nat.testBit_or]
  cases hpi : p.testBit i with
  | false => simp
  | true =>
    have hi : i < 32 := by
      by_contra hc
      have := Nat.testBit_lt_two_pow
        (Nat.lt_of_lt_of_le hp (Nat.pow_le_pow_right (by decide) (Nat.le_of_not_lt hc)))
      rw [this] at hpi
      exact Bool.noConfusion hpi
    simp [hi]

/-- C22: for both generations, every mode clock and every signal mode, the
trace of a successful legacy start holds exactly one delay, of 100 to 150
microseconds. It splits into the events before the delay, the delay, and one
last event: among the writes to `LVDCR0` before the delay there is one with
`LVDCR0_PLLON` set and none with `LVDCR0_LVRES` set, and the last event, after
the delay, is the write to `LVDCR0` with `LVDCR0_LVRES` set. The register
constants are assumed to have distinct offsets and `LVDCR0_LVRES` to share no
bit with the other `LVDCR0` constants. -/
theorem rcar_du_lvdsenc_start_delay_before_lvres (k : rcar_lvds_regs) (lvds : rcar_du_lvdsenc)
    (rcrtc : rcar_du_crtc) (clk_ret : Int) (hk : rcar_lvds_regs_layout k)
    (hpll : lvds.has_lvds_pll = false) (hen : lvds.enabled = false) (hclk : 0 ≤ clk_ret) :
    lvds_delays (rcar_du_lvdsenc_enable k lvds (some rcrtc) true clk_ret).trace = [(100, 150)] ∧
    ∃ pre w,
      (rcar_du_lvdsenc_enable k lvds (some rcrtc) true clk_ret).trace =
        pre ++ [lvds_event.usleep_range 100 150, lvds_event.rcar_lvds_write k.LVDCR0 w] ∧
      lvds_delays pre = [] ∧
      (∃ v ∈ lvds_writes_to k.LVDCR0 pre, v &&& k.LVDCR0_PLLON = k.LVDCR0_PLLON) ∧
      (∀ v ∈ lvds_writes_to k.LVDCR0 pre, v &&& k.LVDCR0_LVRES = 0) ∧
      w &&& k.LVDCR0_LVRES = k.LVDCR0_LVRES ∧ w &&& k.LVDCR0_LVRES ≠ 0 ∧
      (rcar_du_lvdsenc_enable k lvds (some rcrtc) true clk_ret).trace.getLast? =
        some (lvds_event.rcar_lvds_write k.LVDCR0 w) := by
  rw [rcar_du_lvdsenc_enable_legacy_start k lvds rcrtc clk_ret hpll hen hclk]
  have h1 := hk.lvdcr0_ne_lvdctrcr.symm
  have h2 := hk.lvdcr0_ne_lvdchcr.symm
  have h3 := hk.lvdpllcr_ne_lvdcr0
  have h4 := hk.lvdcr0_ne_lvdcr1.symm
  have hmode : (lvds.mode <<< k.LVDCR0_LVMD_SHIFT) &&& k.LVDCR0_LVRES = 0 :=
    shiftLeft_and_eq_zero lvds.mode hk.lvres_below_mode
  have hres : ∀ x, u32 (x ||| k.LVDCR0_LVRES) &&& k.LVDCR0_LVRES = k.LVDCR0_LVRES :=
    fun x => u32_or_and_self x hk.lvres_lt
  have hres' : ∀ x, u32 (x ||| k.LVDCR0_LVRES) &&& k.LVDCR0_LVRES ≠ 0 := by
    intro x; rw [hres x]; exact hk.lvres_ne_zero
  by_cases hgen : lvds.gen < 3
  · -- the older generation
    have ha : start_gen2_lvdcr0 k lvds rcrtc &&& k.LVDCR0_LVRES = 0 := by
      have hbase : u32 ((lvds.mode <<< k.LVDCR0_LVMD_SHIFT) ||| k.LVDCR0_BEN |||
          k.LVDCR0_LVEN) &&& k.LVDCR0_LVRES = 0 :=
        u32_and_eq_zero (or_and_eq_zero (or_and_eq_zero hmode hk.ben_lvres) hk.lven_lvres)
      unfold start_gen2_lvdcr0
      simp only
      split_ifs
      · exact u32_and_eq_zero (or_and_eq_zero hbase hk.dusel_lvres)
      · exact hbase
    have hb : u32 (start_gen2_lvdcr0 k lvds rcrtc ||| k.LVDCR0_PLLON) &&& k.LVDCR0_LVRES = 0 :=
      u32_and_eq_zero (or_and_eq_zero ha hk.pllon_lvres)
    refine ⟨by simp [hgen, rcar_du_lvdsenc_start_gen2, lvds_delays], ?_⟩
    refine ⟨[lvds_event.reset_control_deassert, lvds_event.clk_prepare_enable,
        lvds_event.rcar_lvds_write k.LVDCTRCR (lvdctrcr_routing k),
        lvds_event.rcar_lvds_write k.LVDCHCR (start_lvdhcr k lvds),
        lvds_event.rcar_lvds_write k.LVDPLLCR (start_gen2_pllcr k rcrtc.mode_clock),
        lvds_event.rcar_lvds_write k.LVDCR0 (start_gen2_lvdcr0 k lvds rcrtc),
        lvds_event.rcar_lvds_write k.LVDCR1
          (u32 (k.LVDCR1_CHSTBY_GEN2 3 ||| k.LVDCR1_CHSTBY_GEN2 2 |||
            k.LVDCR1_CHSTBY_GEN2 1 ||| k.LVDCR1_CHSTBY_GEN2 0 ||| k.LVDCR1_CLKSTBY_GEN2)),
        lvds_event.rcar_lvds_write k.LVDCR0
          (u32 (start_gen2_lvdcr0 k lvds rcrtc ||| k.LVDCR0_PLLON))],
      u32 (u32 (start_gen2_lvdcr0 k lvds rcrtc ||| k.LVDCR0_PLLON) ||| k.LVDCR0_LVRES),
      ?_, ?_, ?_, ?_, hres _, hres' _, ?_⟩
    · simp [hgen, rcar_du_lvdsenc_start_gen2]
    · simp [lvds_delays]
    · refine ⟨u32 (start_gen2_lvdcr0 k lvds rcrtc ||| k.LVDCR0_PLLON), ?_,
        u32_or_and_self _ hk.pllon_lt⟩
      simp [lvds_writes_to, h1, h2, h3, h4]
    · intro v hv
      simp [lvds_writes_to, h1, h2, h3, h4] at hv
      rcases hv with rfl | rfl
      · exact ha
      · exact hb
    · simp [hgen, rcar_du_lvdsenc_start_gen2]
  · -- the newer generation
    have ha : u32 ((lvds.mode <<< k.LVDCR0_LVMD_SHIFT) ||| k.LVDCR0_PLLON) &&&
        k.LVDCR0_LVRES = 0 :=
      u32_and_eq_zero (or_and_eq_zero hmode hk.pllon_lvres)
    have hb : u32 (u32 ((lvds.mode <<< k.LVDCR0_LVMD_SHIFT) ||| k.LVDCR0_PLLON) |||
        k.LVDCR0_PWD) &&& k.LVDCR0_LVRES = 0 :=
      u32_and_eq_zero (or_and_eq_zero ha hk.pwd_lvres)
    refine ⟨by simp [hgen, rcar_du_lvdsenc_start_gen3, lvds_delays], ?_⟩
    refine ⟨[lvds_event.reset_control_deassert, lvds_event.clk_prepare_enable,
        lvds_event.rcar_lvds_write k.LVDCTRCR (lvdctrcr_routing k),
        lvds_event.rcar_lvds_write k.LVDCHCR (start_lvdhcr k lvds),
        lvds_event.rcar_lvds_write k.LVDPLLCR (start_gen3_pllcr k rcrtc.mode_clock),
        lvds_event.rcar_lvds_write k.LVDCR1
          (u32 (k.LVDCR1_CHSTBY_GEN3 3 ||| k.LVDCR1_CHSTBY_GEN3 2 |||
            k.LVDCR1_CHSTBY_GEN3 1 ||| k.LVDCR1_CHSTBY_GEN3 0 ||| k.LVDCR1_CLKSTBY_GEN3)),
        lvds_event.rcar_lvds_write k.LVDCR0
          (u32 ((lvds.mode <<< k.LVDCR0_LVMD_SHIFT) ||| k.LVDCR0_PLLON)),
        lvds_event.rcar_lvds_write k.LVDCR0
          (u32 (u32 ((lvds.mode <<< k.LVDCR0_LVMD_SHIFT) ||| k.LVDCR0_PLLON) |||
            k.LVDCR0_PWD))],
      u32 (u32 (u32 ((lvds.mode <<< k.LVDCR0_LVMD_SHIFT) ||| k.LVDCR0_PLLON) |||
        k.LVDCR0_PWD) ||| k.LVDCR0_LVRES),
      ?_, ?_, ?_, ?_, hres _, hres' _, ?_⟩
    · simp [hgen, rcar_du_lvdsenc_start_gen3]
    · simp [lvds_delays]
    · refine ⟨u32 ((lvds.mode <<< k.LVDCR0_LVMD_SHIFT) ||| k.LVDCR0_PLLON), ?_,
        u32_or_and_self _ hk.pllon_lt⟩
      simp [lvds_writes_to, h1, h2, h3, h4]
    · intro v hv
      simp [lvds_writes_to, h1, h2, h3, h4] at hv
      rcases hv with rfl | rfl
      · exact ha
      · exact hb
    · simp [hgen, rcar_du_lvdsenc_start_gen3]

/-- C22, with the sample register constants on a Gen2 encoder in mode 4
(VESA) at 148500: the writes to `LVDCR0` are `0x406`, `0x416` (PLL on), then,
after the single delay, `0x417` (PLL on and ready), which is the last event. -/
theorem rcar_du_lvdsenc_start_delay_before_lvres_witness :
    rcar_lvds_regs_layout rcar_lvds_regs_sample ∧
    lvds_delays (rcar_du_lvdsenc_enable rcar_lvds_regs_sample
      { rcar_du_lvdsenc_sample_gen2 with mode := 4 } (some ⟨0, 148500⟩) true 0).trace =
      [(100, 150)] ∧
    lvds_writes_to 0 (rcar_du_lvdsenc_enable rcar_lvds_regs_sample
      { rcar_du_lvdsenc_sample_gen2 with mode := 4 } (some ⟨0, 148500⟩) true 0).trace =
      [0x406, 0x416, 0x417] ∧
    (rcar_du_lvdsenc_enable rcar_lvds_regs_sample
      { rcar_du_lvdsenc_sample_gen2 with mode := 4 } (some ⟨0, 148500⟩) true 0).trace.getLast? =
      some (lvds_event.rcar_lvds_write 0 0x417) :=
  ⟨rcar_lvds_regs_sample_layout,
   (rcar_du_lvdsenc_start_delay_before_lvres rcar_lvds_regs_sample
      { rcar_du_lvdsenc_sample_gen2 with mode := 4 } ⟨0, 148500⟩ 0
      rcar_lvds_regs_sample_layout rfl rfl (by decide)).1,
   by decide, by decide⟩

/-! ## The AVB dividers: registration and sequences of calls -/

theorem avb_id_to_div_eq {j : Nat} (hj : j < 8) : AVB_ID_TO_DIV j = 4 * j := by
  unfold AVB_ID_TO_DIV u32; omega

/-- A write to a register other than the one read does not change the value
read. -/
theorem clk_readl_clk_writel_ne (val : Nat) (base : avb_regs) {off off' : Nat}
    (h : off' ≠ off) : clk_readl (clk_writel val base off) off' = clk_readl base off' := by
  simp only [clk_readl, clk_writel, if_neg h]

theorem clk_readl_clk_writel_self (val : Nat) (base : avb_regs) (off : Nat) :
    clk_readl (clk_writel val base off) off = u32 val := by
  simp only [clk_readl, clk_writel, if_true]
  exact u32_of_lt (u32_lt _)

/-- A word below `2 ^ 18` has nothing outside the divider field. -/
theorem and_not_avb_div_mask_eq_zero {v : Nat} (hv : v < 2 ^ 18) :
    v &&& not_u32 AVB_DIV_MASK = 0 := by
  rw [and_eq_zero_iff_testBit]
  intro i hi
  rw [testBit_not_u32_avb_div_mask]
  have h18 : i < 18 := by
    by_contra hc
    have := Nat.testBit_lt_two_pow
      (Nat.lt_of_lt_of_le hv (Nat.pow_le_pow_right (by decide) (Nat.le_of_not_lt hc)))
    rw [this] at hi
    exact Bool.noConfusion hi
  simp [h18]

/-- The state in which every divider register holds at most `AVB_MAX_DIV`. -/
theorem avb_divs_le_register_all (base : avb_regs) :
    ∀ j, j < 8 → clk_readl (clk_avb_register_all base) (AVB_ID_TO_DIV j) = AVB_MAX_DIV := by
  have h := foldl_range_inv (fun b i => clk_register_avb b i true)
    (fun n b => ∀ j, j < n → j < 8 → clk_readl b (AVB_ID_TO_DIV j) = AVB_MAX_DIV)
    AVB_COUNTER_NUM base (fun j hj => absurd hj (Nat.not_lt_zero j))
    (by
      intro i b hi hI j hj hj8
      have hi8 : i < 8 := hi
      simp only [clk_register_avb, Bool.not_true, Bool.false_eq_true, if_false]
      by_cases hji : j = i
      · subst hji
        rw [clk_readl_clk_writel_self]
        decide
      · rw [clk_readl_clk_writel_ne]
        · exact hI j (by omega) hj8
        · rw [avb_id_to_div_eq hj8, avb_id_to_div_eq hi8]; omega)
  intro j hj
  exact h j hj hj

/-- One call on an instance below 8 keeps every divider register at or below
`AVB_MAX_DIV`. -/
theorem avb_call_run_divs_le (base : avb_regs) (c : avb_call) (hc : avb_call_idx c < 8)
    (h : ∀ j, j < 8 → clk_readl base (AVB_ID_TO_DIV j) ≤ AVB_MAX_DIV) :
    ∀ j, j < 8 → clk_readl (avb_call_run base c) (AVB_ID_TO_DIV j) ≤ AVB_MAX_DIV := by
  intro j hj
  have hcfg : AVB_ID_TO_DIV j ≠ AVB_CLK_CONFIG := by
    rw [avb_id_to_div_eq hj]; unfold AVB_CLK_CONFIG; omega
  cases c with
  | enable idx =>
    simp only [avb_call_run, clk_avb_enable, clk_avb_enabledisable]
    rw [clk_readl_clk_writel_ne _ _ hcfg]
    exact h j hj
  | disable idx =>
    simp only [avb_call_run, clk_avb_disable, clk_avb_enabledisable]
    rw [clk_readl_clk_writel_ne _ _ hcfg]
    exact h j hj
  | set_rate idx rate parent_rate =>
    have hidx : idx < 8 := hc
    simp only [avb_call_run]
    by_cases hji : j = idx
    · subst hji
      rw [clk_avb_set_rate_own]
      have hold : clk_readl base (AVB_ID_TO_DIV j) < 2 ^ 18 :=
        Nat.lt_of_le_of_lt (h j hj) (by decide)
      rw [and_not_avb_div_mask_eq_zero hold, Nat.zero_or]
      exact clk_avb_calc_div_le rate parent_rate
    · simp only [clk_avb_set_rate]
      rw [clk_readl_clk_writel_ne]
      · exact h j hj
      · rw [avb_id_to_div_eq hj, avb_id_to_div_eq hidx]; omega

theorem avb_calls_run_divs_le (calls : List avb_call) :
    ∀ base : avb_regs, (∀ c ∈ calls, avb_call_idx c < 8) →
      (∀ j, j < 8 → clk_readl base (AVB_ID_TO_DIV j) ≤ AVB_MAX_DIV) →
      ∀ j, j < 8 → clk_readl (avb_calls_run base calls) (AVB_ID_TO_DIV j) ≤ AVB_MAX_DIV := by
  induction calls with
  | nil => intro base _ h; exact h
  | cons c rest ih =>
    intro base hc h
    unfold avb_calls_run
    rw [List.foldl_cons]
    exact ih (avb_call_run base c) (fun c' hc' => hc c' (List.mem_cons_of_mem c hc'))
      (avb_call_run_divs_le base c (hc c (List.mem_cons_self c rest)) h)

/-- C23: whatever the register block held before, once `clk_register_avb` has
run for all 8 instances (each divider register then holds `AVB_MAX_DIV`),
also after the write of `AVB_DIV_EN_COM` that ends `clk_avb_setup`, every
finite sequence of enable, disable and set_rate calls on instances below 8,
with any rates and parent rates, leaves every instance's divider register
with a value in `[0, 0x3ffc0]`. -/
theorem clk_avb_divider_registers_bounded (base : avb_regs) (calls : List avb_call)
    (hcalls : ∀ c ∈ calls, avb_call_idx c < 8) :
    (∀ j, j < 8 → clk_readl (clk_avb_register_all base) (AVB_ID_TO_DIV j) = 0x3ffc0) ∧
    (∀ j, j < 8 →
      clk_readl (avb_calls_run (clk_avb_register_all base) calls) (AVB_ID_TO_DIV j) ≤ 0x3ffc0) ∧
    (∀ j, j < 8 →
      clk_readl (avb_calls_run (clk_avb_setup base) calls) (AVB_ID_TO_DIV j) ≤ 0x3ffc0) := by
  have hreg := avb_divs_le_register_all base
  have hmax : AVB_MAX_DIV = 0x3ffc0 := rfl
  refine ⟨fun j hj => by rw [hreg j hj, hmax], ?_, ?_⟩
  · intro j hj
    rw [← hmax]
    exact avb_calls_run_divs_le calls _ hcalls (fun i hi => Nat.le_of_eq (hreg i hi)) j hj
  · intro j hj
    rw [← hmax]
    refine avb_calls_run_divs_le calls _ hcalls (fun i hi => ?_) j hj
    unfold clk_avb_setup
    rw [clk_readl_clk_writel_ne]
    · exact Nat.le_of_eq (hreg i hi)
    · rw [avb_id_to_div_eq hi]; unfold AVB_CLK_CONFIG; omega

/-- C23, on a register block whose divider registers first hold
`0xffffffc0`: after setup, a set_rate on instance 3 for 1 Hz under a parent
of `2 ^ 27` Hz, an enable of instance 3, a set_rate on instance 5 for 3 MHz
under 25 MHz and a disable of instance 0, the three registers read 0, 267 and
`0x3ffc0`. -/
theorem clk_avb_divider_registers_bounded_witness :
    clk_readl avb_regs_sample (AVB_ID_TO_DIV 3) = 0xffffffc0 ∧
    clk_readl (avb_calls_run (clk_avb_setup avb_regs_sample)
      [avb_call.set_rate 3 1 134217728, avb_call.enable 3,
       avb_call.set_rate 5 3000000 25000000, avb_call.disable 0]) (AVB_ID_TO_DIV 3) = 0 ∧
    clk_readl (avb_calls_run (clk_avb_setup avb_regs_sample)
      [avb_call.set_rate 3 1 134217728, avb_call.enable 3,
       avb_call.set_rate 5 3000000 25000000, avb_call.disable 0]) (AVB_ID_TO_DIV 5) = 267 ∧
    clk_readl (avb_calls_run (clk_avb_setup avb_regs_sample)
      [avb_call.set_rate 3 1 134217728, avb_call.enable 3,
       avb_call.set_rate 5 3000000 25000000, avb_call.disable 0]) (AVB_ID_TO_DIV 7) ≤
      0x3ffc0 :=
  ⟨by decide, by decide, by decide,
   (clk_avb_divider_registers_bounded avb_regs_sample
      [avb_call.set_rate 3 1 134217728, avb_call.enable 3,
       avb_call.set_rate 5 3000000 25000000, avb_call.disable 0]
      (by decide)).2.2 7 (by decide)⟩

/-! ## The PLL parameter search: the fields of a result -/

/-- For `n` below 128 and `m` below 8 the fields `n << 3` and `m` share no
bit and are read back from the combined word by shifting and masking. -/
theorem pll_fields_decode {n m : Nat} (hn : n < 128) (hm : m < 8) :
    (n <<< 3) &&& m = 0 ∧
    (u32 (0 <<< 10) ||| u32 (n <<< 3) ||| m) &&& 7 = m ∧
    ((u32 (0 <<< 10) ||| u32 (n <<< 3) ||| m) >>> 3) &&& 127 = n ∧
    (u32 (0 <<< 10) ||| u32 (n <<< 3) ||| m) >>> 10 = 0 := by
  have hw : u32 (0 <<< 10) ||| u32 (n <<< 3) ||| m = 2 ^ 3 * n + m := by
    rw [Nat.mul_add_lt_is_or hm, Nat.shiftLeft_eq, Nat.shiftLeft_eq, Nat.zero_mul,
      u32_of_lt (by decide), u32_of_lt (by omega), Nat.zero_or, Nat.mul_comm]
  refine ⟨?_, ?_, ?_, ?_⟩
  · rw [Nat.shiftLeft_eq]
    have h7 : (n * 2 ^ 3) &&& (2 ^ 3 - 1) = 0 := by
      rw [Nat.and_pow_two_sub_one_eq_mod]; omega
    rw [and_eq_zero_iff_testBit] at h7 ⊢
    intro i hi
    have h := h7 i hi
    rw [Nat.testBit_two_pow_sub_one] at h
    simp only [decide_eq_false_iff_not, Nat.not_lt] at h
    exact Nat.testBit_lt_two_pow
      (Nat.lt_of_lt_of_le (show m < 2 ^ 3 from hm) (Nat.pow_le_pow_right (by decide) h))
  · rw [hw, show (7 : Nat) = 2 ^ 3 - 1 from rfl, Nat.and_pow_two_sub_one_eq_mod]
    omega
  · rw [hw, Nat.shiftRight_eq_div_pow, show (127 : Nat) = 2 ^ 7 - 1 from rfl,
      Nat.and_pow_two_sub_one_eq_mod]
    omega
  · rw [hw, Nat.shiftRight_eq_div_pow]
    omega

/-- The bounds on the fields of a stored result. -/
theorem pll_calc_run_field_bounds (pll : pll_info) (in_fre mode_freq : Nat) (edivider : Bool)
    (hmode : mode_freq < 4294967296)
    (hres : (pll_calc_run pll in_fre mode_freq edivider).clk_diff_set = false) :
    59 ≤ (rcar_du_lvdsenc_pll_calc pll in_fre mode_freq edivider).clk_n ∧
    (rcar_du_lvdsenc_pll_calc pll in_fre mode_freq edivider).clk_n ≤ 119 ∧
    (rcar_du_lvdsenc_pll_calc pll in_fre mode_freq edivider).clk_m ≤ 6 ∧
    (rcar_du_lvdsenc_pll_calc pll in_fre mode_freq edivider).div ≤ 63 ∧
    (rcar_du_lvdsenc_pll_calc pll in_fre mode_freq edivider).clk_e = 0 := by
  by_cases hr : in_fre < 12000000 ∨ in_fre > 192000000
  · have hrun : pll_calc_run pll in_fre mode_freq edivider =
        { pll := pll, clk_diff_set := true, done := false } := by
      unfold pll_calc_run
      rw [if_pos (by simpa only [Bool.or_eq_true, decide_eq_true_eq] using hr)]
    rw [hrun] at hres
    exact Bool.noConfusion hres
  · have hinv := pll_calc_run_inv pll in_fre mode_freq edivider (by omega) (by omega) hmode
    unfold rcar_du_lvdsenc_pll_calc
    generalize pll_calc_run pll in_fre mode_freq edivider = s at hinv hres
    obtain ⟨hl, hd, _⟩ := hinv.stored_seen hres
    have h1 := hl.1
    have h2 := hl.2.1
    have h3 := hl.2.2.2.1
    exact ⟨by omega, by omega, by omega, by omega, (hinv.stored_clk hres).2⟩

/-- C24: whenever `rcar_du_lvdsenc_pll_calc` stores a result,
`59 ≤ clk_n ≤ 119`, `clk_m ≤ 6`, `div ≤ 63` and `clk_e = 0`, with or without
the extra divider; so the fields `clk_e << 10`, `clk_n << 3` and `clk_m` of
the `LVDPLLCR` value share no bit, and `clk_m`, `clk_n` and `clk_e` are read
back from the combined word as `w & 7`, `(w >> 3) & 127` and `w >> 10`. This
holds in particular for the record `rcar_du_lvdsenc_pll_pre_start` programs,
at every mode clock. -/
theorem rcar_du_lvdsenc_pll_calc_fields (pll : pll_info) (in_fre mode_freq : Nat)
    (edivider : Bool) (hmode : mode_freq < 4294967296)
    (hres : (pll_calc_run pll in_fre mode_freq edivider).clk_diff_set = false) :
    (59 ≤ (rcar_du_lvdsenc_pll_calc pll in_fre mode_freq edivider).clk_n ∧
      (rcar_du_lvdsenc_pll_calc pll in_fre mode_freq edivider).clk_n ≤ 119 ∧
      (rcar_du_lvdsenc_pll_calc pll in_fre mode_freq edivider).clk_m ≤ 6 ∧
      (rcar_du_lvdsenc_pll_calc pll in_fre mode_freq edivider).div ≤ 63 ∧
      (rcar_du_lvdsenc_pll_calc pll in_fre mode_freq edivider).clk_e = 0) ∧
    (((rcar_du_lvdsenc_pll_calc pll in_fre mode_freq edivider).clk_n <<< 3) &&&
        (rcar_du_lvdsenc_pll_calc pll in_fre mode_freq edivider).clk_m = 0 ∧
      ((rcar_du_lvdsenc_pll_calc pll in_fre mode_freq edivider).clk_e <<< 10) &&&
        ((rcar_du_lvdsenc_pll_calc pll in_fre mode_freq edivider).clk_n <<< 3) = 0 ∧
      ((rcar_du_lvdsenc_pll_calc pll in_fre mode_freq edivider).clk_e <<< 10) &&&
        (rcar_du_lvdsenc_pll_calc pll in_fre mode_freq edivider).clk_m = 0) ∧
    ((u32 ((rcar_du_lvdsenc_pll_calc pll in_fre mode_freq edivider).clk_e <<< 10) |||
        u32 ((rcar_du_lvdsenc_pll_calc pll in_fre mode_freq edivider).clk_n <<< 3) |||
        (rcar_du_lvdsenc_pll_calc pll in_fre mode_freq edivider).clk_m) &&& 7 =
        (rcar_du_lvdsenc_pll_calc pll in_fre mode_freq edivider).clk_m ∧
      ((u32 ((rcar_du_lvdsenc_pll_calc pll in_fre mode_freq edivider).clk_e <<< 10) |||
        u32 ((rcar_du_lvdsenc_pll_calc pll in_fre mode_freq edivider).clk_n <<< 3) |||
        (rcar_du_lvdsenc_pll_calc pll in_fre mode_freq edivider).clk_m) >>> 3) &&& 127 =
        (rcar_du_lvdsenc_pll_calc pll in_fre mode_freq edivider).clk_n ∧
      (u32 ((rcar_du_lvdsenc_pll_calc pll in_fre mode_freq edivider).clk_e <<< 10) |||
        u32 ((rcar_du_lvdsenc_pll_calc pll in_fre mode_freq edivider).clk_n <<< 3) |||
        (rcar_du_lvdsenc_pll_calc pll in_fre mode_freq edivider).clk_m) >>> 10 =
        (rcar_du_lvdsenc_pll_calc pll in_fre mode_freq edivider).clk_e) ∧
    (∀ mode_clock : Nat,
      59 ≤ (pll_pre_start_chosen mode_clock).clk_n ∧
      (pll_pre_start_chosen mode_clock).clk_n ≤ 119 ∧
      (pll_pre_start_chosen mode_clock).clk_m ≤ 6 ∧
      (pll_pre_start_chosen mode_clock).div ≤ 63 ∧
      (pll_pre_start_chosen mode_clock).clk_e = 0) := by
  have hb := pll_calc_run_field_bounds pll in_fre mode_freq edivider hmode hres
  obtain ⟨h1, h2, h3, h4, h5⟩ := hb
  have hdec := pll_fields_decode
    (by omega : (rcar_du_lvdsenc_pll_calc pll in_fre mode_freq edivider).clk_n < 128)
    (by omega : (rcar_du_lvdsenc_pll_calc pll in_fre mode_freq edivider).clk_m < 8)
  refine ⟨⟨h1, h2, h3, h4, h5⟩, ⟨hdec.1, ?_, ?_⟩, ?_, ?_⟩
  · rw [h5, Nat.zero_shiftLeft, Nat.zero_and]
  · rw [h5, Nat.zero_shiftLeft, Nat.zero_and]
  · rw [h5]
    exact ⟨hdec.2.1, hdec.2.2.1, hdec.2.2.2⟩
  · intro mode_clock
    have hmf : pll_pre_start_mode_freq mode_clock < 4294967296 := u32_lt _
    have ht := pll_calc_run_field_bounds pll_info_zero 48000000
      (pll_pre_start_mode_freq mode_clock) true hmf
      (pll_calc_run_stores (by decide) (by decide) hmf ⟨59, 2, by decide⟩)
    have hf := pll_calc_run_field_bounds pll_info_zero 48000000
      (pll_pre_start_mode_freq mode_clock) false hmf
      (pll_calc_run_stores (by decide) (by decide) hmf ⟨59, 2, by decide⟩)
    unfold pll_pre_start_chosen
    have hr : pll_pre_start_runs mode_clock =
        (rcar_du_lvdsenc_pll_calc pll_info_zero 48000000 (pll_pre_start_mode_freq mode_clock)
          true,
         rcar_du_lvdsenc_pll_calc pll_info_zero 48000000 (pll_pre_start_mode_freq mode_clock)
          false) := rfl
    rw [hr]
    by_cases hi : pll_pre_start_index mode_clock = 0
    · rw [if_pos hi]; exact ht
    · rw [if_neg hi]; exact hf

/-- C24, at 48 MHz in, 148.5 MHz wanted, no E-divider: the stored fields are
`clk_n = 85`, `clk_m = 3`, `clk_e = 0`, `div = 0`; the combined word is
`85 * 8 + 3 = 683`, from which 3, 85 and 0 are read back. -/
theorem rcar_du_lvdsenc_pll_calc_fields_witness :
    rcar_du_lvdsenc_pll_calc pll_info_zero 48000000 148500000 false =
      { pllclk := 147428571, diff := 1071429, clk_n := 85, clk_m := 3, clk_e := 0, div := 0 } ∧
    (u32 (0 <<< 10) ||| u32 (85 <<< 3) ||| 3) = 683 ∧
    (u32 (0 <<< 10) ||| u32 (85 <<< 3) ||| 3) &&& 7 = 3 ∧
    ((u32 (0 <<< 10) ||| u32 (85 <<< 3) ||| 3) >>> 3) &&& 127 = 85 ∧
    (u32 (0 <<< 10) ||| u32 (85 <<< 3) ||| 3) >>> 10 = 0 := by
  have e : rcar_du_lvdsenc_pll_calc pll_info_zero 48000000 148500000 false =
      { pllclk := 147428571, diff := 1071429, clk_n := 85, clk_m := 3, clk_e := 0, div := 0 } := by
    decide!
  have h := rcar_du_lvdsenc_pll_calc_fields pll_info_zero 48000000 148500000 false
    (by decide) (by decide!)
  rw [e] at h
  exact ⟨e, by decide, h.2.2.1.1, h.2.2.1.2.1, h.2.2.1.2.2⟩

/-! ## The AVB dividers: requests at or below the parent rate -/

/-- C25: where nothing wraps (`32 * p + 12500000 < 2 ^ 32`), for a parent rate
`p ≥ 1` and a rate `r` whose clamped value `min (max r 1) 25000000` does not
exceed `p`, `clk_avb_calc_div r p` lies in `[32, 0x3ffc0]`; so the division in
`clk_avb_round_rate` is not a division by zero, and `clk_avb_round_rate r p`
is `32 * p / d`, which does not exceed `p`. -/
theorem clk_avb_round_rate_downscale (r p : Nat) (hp1 : 1 ≤ p)
    (hp : 32 * p + 12500000 < 4294967296) (hr : min (max r 1) 25000000 ≤ p) :
    32 ≤ clk_avb_calc_div r p ∧ clk_avb_calc_div r p ≤ 0x3ffc0 ∧
    clk_avb_calc_div r p ≠ 0 ∧
    clk_avb_round_rate r p = some (Int.ofNat (32 * p / clk_avb_calc_div r p)) ∧
    32 * p / clk_avb_calc_div r p ≤ p := by
  have hspec := @clk_avb_calc_div_eq_spec r p hp
  unfold calc_div_spec at hspec
  simp only at hspec
  have h1 : 1 ≤ min (max r 1) 25000000 := by omega
  generalize min (max r 1) 25000000 = r' at hspec hr h1
  have hle := clk_avb_calc_div_le r p
  have hmax : AVB_MAX_DIV = 0x3ffc0 := rfl
  have h32 : 32 ≤ clk_avb_calc_div r p := by
    have hq : 32 ≤ (32 * p + r' / 2) / r' := by
      rw [Nat.le_div_iff_mul_le (by omega)]
      have : 32 * r' ≤ 32 * p := Nat.mul_le_mul_left 32 hr
      omega
    rw [hspec]; omega
  have hdiv : 32 * p / clk_avb_calc_div r p ≤ p :=
    calc 32 * p / clk_avb_calc_div r p ≤ 32 * p / 32 := Nat.div_le_div_left h32 (by decide)
      _ = p := Nat.mul_div_cancel_left p (by decide)
  refine ⟨h32, by rw [← hmax]; exact hle, by omega, ?_, hdiv⟩
  unfold clk_avb_round_rate
  simp only [if_neg (by omega : ¬ clk_avb_calc_div r p = 0)]
  rw [ulong_of_lt (by omega), Nat.mul_comm p 32]
  unfold to_long
  rw [ulong_of_lt (by omega), if_pos (by omega)]

/-- C25, for a request of 3 MHz and for a request of 0 Hz (treated as 1 Hz)
under a parent of 25 MHz: the divisors are 267 and `0x3ffc0`, and
`clk_avb_round_rate` returns 2996254 and 3052. -/
theorem clk_avb_round_rate_downscale_witness :
    clk_avb_calc_div 3000000 25000000 = 267 ∧
    clk_avb_round_rate 3000000 25000000 = some 2996254 ∧
    clk_avb_calc_div 0 25000000 = 0x3ffc0 ∧
    clk_avb_round_rate 0 25000000 = some 3052 := by
  have h1 := clk_avb_round_rate_downscale 3000000 25000000 (by decide) (by decide) (by decide)
  have h2 := clk_avb_round_rate_downscale 0 25000000 (by decide) (by decide) (by decide)
  have hd1 : clk_avb_calc_div 3000000 25000000 = 267 := by decide
  have hd2 : clk_avb_calc_div 0 25000000 = 0x3ffc0 := by decide
  rw [hd1] at h1
  rw [hd2] at h2
  exact ⟨hd1, h1.2.2.2.1, hd2, h2.2.2.2.1⟩

/-! ## Decoding the mode pins -/

/-- The index `CPG_PLL_CONFIG_INDEX` computes, by the four mode pins. -/
theorem cpg_pll_config_index_eq (md : Nat) :
    CPG_PLL_CONFIG_INDEX md =
      8 * (md.testBit 14).toNat + 4 * (md.testBit 13).toNat + 2 * (md.testBit 19).toNat +
        (md.testBit 17).toNat := by
  unfold CPG_PLL_CONFIG_INDEX
  rw [BIT_eq (by decide : 14 < 64), BIT_eq (by decide : 13 < 64), BIT_eq (by decide : 19 < 64),
    BIT_eq (by decide : 17 < 64), Nat.and_two_pow, Nat.and_two_pow, Nat.and_two_pow,
    Nat.and_two_pow]
  generalize md.testBit 14 = a
  generalize md.testBit 13 = b
  generalize md.testBit 19 = c
  generalize md.testBit 17 = d
  cases a <;> cases b <;> cases c <;> cases d <;> decide

/-- C26: for every mode-pin word `md`, `CPG_PLL_CONFIG_INDEX md` is
`8 * MD14 + 4 * MD13 + 2 * MD19 + MD17` and so below 16, the length of
`cpg_pll_configs`. When reading the mode pins succeeds,
`r8a77965_cpg_mssr_init` returns `-EINVAL` exactly when MD19 is 1 and MD17 is
0, which are exactly the rows the documented table marks as prohibited; for
every other `md` it goes on to `rcar_gen3_cpg_init` with the EXTAL divider and
the PLL1 and PLL3 multipliers the documented table lists for the row, with
`CLK_EXTALR` and with `md`. When reading the mode pins fails it returns the
error of the read. -/
theorem r8a77965_cpg_mssr_init_decodes (clk_osc md : Nat) :
    CPG_PLL_CONFIG_INDEX md =
      8 * (md.testBit 14).toNat + 4 * (md.testBit 13).toNat + 2 * (md.testBit 19).toNat +
        (md.testBit 17).toNat ∧
    CPG_PLL_CONFIG_INDEX md < 16 ∧
    CPG_PLL_CONFIG_INDEX md < cpg_pll_configs.length ∧
    (r8a77965_cpg_mssr_init clk_osc 0 md = cpg_mssr_init_result.returned (-EINVAL) ↔
      (md.testBit 19 = true ∧ md.testBit 17 = false)) ∧
    (cpg_pll_documented (md.testBit 14) (md.testBit 13) (md.testBit 19) (md.testBit 17) = none ↔
      (md.testBit 19 = true ∧ md.testBit 17 = false)) ∧
    (∀ config,
      cpg_pll_documented (md.testBit 14) (md.testBit 13) (md.testBit 19) (md.testBit 17) =
        some config →
      r8a77965_cpg_mssr_init clk_osc 0 md =
        cpg_mssr_init_result.rcar_gen3_cpg_init config (clk_osc + 2) md) ∧
    (∀ read_error : Int, read_error ≠ 0 →
      r8a77965_cpg_mssr_init clk_osc read_error md =
        cpg_mssr_init_result.returned read_error) := by
  have hidx := cpg_pll_config_index_eq md
  have hinit : r8a77965_cpg_mssr_init clk_osc 0 md =
      if (cpg_pll_configs.getD (CPG_PLL_CONFIG_INDEX md) ⟨0, 0, 0⟩).extal_div = 0 then
        cpg_mssr_init_result.returned (-EINVAL)
      else cpg_mssr_init_result.rcar_gen3_cpg_init
        (cpg_pll_configs.getD (CPG_PLL_CONFIG_INDEX md) ⟨0, 0, 0⟩) (clk_osc + 2) md := by
    unfold r8a77965_cpg_mssr_init
    rw [if_neg (by decide)]
  refine ⟨hidx, ?_, ?_, ?_, ?_, ?_, ?_⟩
  · rw [hidx]
    cases md.testBit 14 <;> cases md.testBit 13 <;> cases md.testBit 19 <;>
      cases md.testBit 17 <;> decide
  · rw [hidx]
    cases md.testBit 14 <;> cases md.testBit 13 <;> cases md.testBit 19 <;>
      cases md.testBit 17 <;> decide
  · rw [hinit, hidx]
    cases md.testBit 14 <;> cases md.testBit 13 <;> cases md.testBit 19 <;>
      cases md.testBit 17 <;> simp [cpg_pll_configs, EINVAL]
  · cases md.testBit 14 <;> cases md.testBit 13 <;> cases md.testBit 19 <;>
      cases md.testBit 17 <;> simp [cpg_pll_documented]
  · intro config
    rw [hinit, hidx]
    cases md.testBit 14 <;> cases md.testBit 13 <;> cases md.testBit 19 <;>
      cases md.testBit 17 <;> simp [cpg_pll_documented, cpg_pll_configs]
  · intro read_error hne
    unfold r8a77965_cpg_mssr_init
    rw [if_pos hne]

/-! ## The PLL parameter search: the documented and the truncated formulas -/

/-- For an input clock of at most 192 MHz and a pair of the search domain the
stage frequencies the function computes are those of the truncated formulas
in plain arithmetic. -/
theorem pll_khz_stage_eq {in_fre : Nat} {edivider : Bool} {n m : Nat}
    (hhi : in_fre ≤ 192000000) (hn : n + 1 ≤ 120) (hm : m + 1 ≤ 7) :
    pll_calc_fvco in_fre n m = pll_khz_fvco in_fre n m ∧
    pll_calc_fout in_fre n m 0 edivider = pll_khz_fout_pre in_fre n m edivider ∧
    pll_calc_fpfd in_fre m = in_fre / (m + 1) := by
  obtain ⟨e1, e2, e3⟩ := @pll_calc_stage_eq in_fre n m hhi hn hm
  refine ⟨e1, ?_, rfl⟩
  unfold pll_khz_fout_pre pll_khz_fvco
  cases edivider with
  | true => rw [e3]; rfl
  | false => rw [e2]; rfl

/-- For an input clock of at most 192 MHz the legality checks of the function
are those of the truncated formulas. -/
theorem pll_legal_iff_khz {in_fre : Nat} {edivider : Bool} {n m : Nat}
    (hhi : in_fre ≤ 192000000) :
    pll_legal in_fre edivider n m ↔ pll_khz_legal in_fre edivider n m := by
  unfold pll_legal pll_khz_legal
  constructor
  · rintro ⟨h1, hn, h3, hm, h⟩
    obtain ⟨e1, e2, e3⟩ := @pll_khz_stage_eq in_fre edivider n m hhi hn hm
    rw [e1, e2, e3] at h
    exact ⟨h1, hn, h3, hm, h⟩
  · rintro ⟨h1, hn, h3, hm, h⟩
    obtain ⟨e1, e2, e3⟩ := @pll_khz_stage_eq in_fre edivider n m hhi hn hm
    rw [e1, e2, e3]
    exact ⟨h1, hn, h3, hm, h⟩

/-- For an input clock of at most 192 MHz and a pair of the search domain the
error and the post-divide-by-7 frequency of the function are those of the
truncated formulas. -/
theorem pll_error_eq_khz {in_fre : Nat} {edivider : Bool} {n m : Nat} (mode_freq d : Nat)
    (hhi : in_fre ≤ 192000000) (hn : n + 1 ≤ 120) (hm : m + 1 ≤ 7) :
    pll_error in_fre mode_freq edivider n m d = pll_khz_error in_fre mode_freq edivider n m d ∧
    pll_fout7 in_fre edivider n m = pll_khz_fout_pre in_fre n m edivider / 7 := by
  obtain ⟨_, e2, _⟩ := @pll_khz_stage_eq in_fre edivider n m hhi hn hm
  unfold pll_error pll_khz_error pll_fout7
  rw [e2]
  exact ⟨rfl, rfl⟩

/-- The least stored error over the legal domain, in the truncated
formulas. -/
theorem pll_calc_run_khz_least {pll : pll_info} {in_fre mode_freq : Nat} {edivider : Bool}
    (hlo : 12000000 ≤ in_fre) (hhi : in_fre ≤ 192000000) (hmode : mode_freq < 4294967296)
    (hres : (pll_calc_run pll in_fre mode_freq edivider).clk_diff_set = false) :
    (pll_khz_legal in_fre edivider
        (pll_calc_run pll in_fre mode_freq edivider).pll.clk_n
        (pll_calc_run pll in_fre mode_freq edivider).pll.clk_m ∧
      (pll_calc_run pll in_fre mode_freq edivider).pll.div < 64 ∧
      (pll_calc_run pll in_fre mode_freq edivider).pll.diff =
        pll_khz_error in_fre mode_freq edivider
          (pll_calc_run pll in_fre mode_freq edivider).pll.clk_n
          (pll_calc_run pll in_fre mode_freq edivider).pll.clk_m
          (pll_calc_run pll in_fre mode_freq edivider).pll.div ∧
      (pll_calc_run pll in_fre mode_freq edivider).pll.pllclk =
        pll_khz_fout_pre in_fre
          (pll_calc_run pll in_fre mode_freq edivider).pll.clk_n
          (pll_calc_run pll in_fre mode_freq edivider).pll.clk_m edivider / 7) ∧
    (∀ n m d, pll_khz_legal in_fre edivider n m → d < 64 →
      (pll_calc_run pll in_fre mode_freq edivider).pll.diff ≤
        pll_khz_error in_fre mode_freq edivider n m d) ∧
    (∀ n m d, pll_khz_legal in_fre edivider n m → d < 64 →
      pll_before n m d
        (pll_calc_run pll in_fre mode_freq edivider).pll.clk_n
        (pll_calc_run pll in_fre mode_freq edivider).pll.clk_m
        (pll_calc_run pll in_fre mode_freq edivider).pll.div →
      (pll_calc_run pll in_fre mode_freq edivider).pll.diff <
        pll_khz_error in_fre mode_freq edivider n m d) := by
  have hinv := pll_calc_run_inv pll in_fre mode_freq edivider hlo hhi hmode
  generalize pll_calc_run pll in_fre mode_freq edivider = s at hinv hres
  have hs := hinv.stored_seen hres
  have hsn := hs.1.2.1
  have hsm := hs.1.2.2.2.1
  obtain ⟨ee, ef⟩ := @pll_error_eq_khz in_fre edivider s.pll.clk_n s.pll.clk_m mode_freq
    s.pll.div hhi hsn hsm
  refine ⟨⟨(pll_legal_iff_khz hhi).1 hs.1, hs.2.1, ?_, ?_⟩, ?_, ?_⟩
  · rw [← ee]; exact hinv.stored_diff hres
  · rw [← ef]; exact (hinv.stored_clk hres).1
  · intro n m d hl hd
    rw [← (pll_error_eq_khz mode_freq d hhi hl.2.1 hl.2.2.2.1).1]
    have hl2 := (pll_legal_iff_khz hhi).2 hl
    cases hdn : s.done with
    | true =>
      have := (hinv.done_iff hres).1 hdn
      omega
    | false => exact hinv.least hres hdn n m d (pll_seen_end hl2 hd)
  · intro n m d hl hd hb
    rw [← (pll_error_eq_khz mode_freq d hhi hl.2.1 hl.2.2.2.1).1]
    exact hinv.first hres n m d ((pll_legal_iff_khz hhi).2 hl) hd hb

/-- C1, as stated, fails when the legal domain and the error are those of the
documented formulas. At 13.000999 MHz in and 130 MHz wanted without the
E-divider the pair `N + 1 = 70`, `M + 1 = 1` passes the three documented
checks, the search stores it with `diff = 0`, yet its documented error is
`13000999 * 70 / 7 - 130000000 = 9990`, and no documented-legal `(N, M)` and
`DIV` in `[1, 64]` has a smaller one: the stored `diff` is below the
documented minimum. -/
theorem rcar_du_lvdsenc_pll_calc_diff_below_documented_min :
    pll_doc_legal 13000999 false 69 0 ∧
    rcar_du_lvdsenc_pll_calc pll_info_zero 13000999 130000000 false =
      { pllclk := 130000000, diff := 0, clk_n := 69, clk_m := 0, clk_e := 0, div := 0 } ∧
    pll_doc_error 13000999 130000000 false 69 0 0 = 9990 ∧
    (∀ n m div, pll_doc_legal 13000999 false n m → div < 64 →
      9990 ≤ pll_doc_error 13000999 130000000 false n m div) ∧
    (rcar_du_lvdsenc_pll_calc pll_info_zero 13000999 130000000 false).diff < 9990 := by
  have hb : ∀ n < 120, ∀ m < 7, pll_doc_legal 13000999 false n m → ∀ d < 64,
      9990 ≤ pll_doc_error 13000999 130000000 false n m d := by decide!
  have e : rcar_du_lvdsenc_pll_calc pll_info_zero 13000999 130000000 false =
      { pllclk := 130000000, diff := 0, clk_n := 69, clk_m := 0, clk_e := 0, div := 0 } := by
    decide!
  refine ⟨by decide, e, by decide, ?_, ?_⟩
  · intro n m d hl hd
    have h1 := hl.2.1
    have h2 := hl.2.2.2.1
    exact hb n (by omega) m (by omega) hl d hd
  · rw [e]; decide

/-- C1, amended: for an input clock in `[12 MHz, 192 MHz]` and a mode
frequency for which some pair `(n, m)` of the search domain passes the three
legality checks on the stage frequencies computed from the input clock
truncated to kHz, `rcar_du_lvdsenc_pll_calc` stores a pair that is legal in
that sense, a `div` below 64, the post-divide-by-7 frequency of that pair and
its error, and the stored `diff` is the least error `|fout / DIV - mode_freq|`
over all such legal `(n, m)` and all `DIV` in `[1, 64]`, where `fout` is the
truncated output divided by 7. -/
theorem rcar_du_lvdsenc_pll_calc_min_error (pll : pll_info) (in_fre mode_freq : Nat)
    (edivider : Bool) (hlo : 12000000 ≤ in_fre) (hhi : in_fre ≤ 192000000)
    (hmode : mode_freq < 4294967296) (hex : ∃ n m, pll_khz_legal in_fre edivider n m) :
    (pll_khz_legal in_fre edivider
        (rcar_du_lvdsenc_pll_calc pll in_fre mode_freq edivider).clk_n
        (rcar_du_lvdsenc_pll_calc pll in_fre mode_freq edivider).clk_m ∧
      (rcar_du_lvdsenc_pll_calc pll in_fre mode_freq edivider).div < 64 ∧
      (rcar_du_lvdsenc_pll_calc pll in_fre mode_freq edivider).diff =
        pll_khz_error in_fre mode_freq edivider
          (rcar_du_lvdsenc_pll_calc pll in_fre mode_freq edivider).clk_n
          (rcar_du_lvdsenc_pll_calc pll in_fre mode_freq edivider).clk_m
          (rcar_du_lvdsenc_pll_calc pll in_fre mode_freq edivider).div ∧
      (rcar_du_lvdsenc_pll_calc pll in_fre mode_freq edivider).pllclk =
        pll_khz_fout_pre in_fre
          (rcar_du_lvdsenc_pll_calc pll in_fre mode_freq edivider).clk_n
          (rcar_du_lvdsenc_pll_calc pll in_fre mode_freq edivider).clk_m edivider / 7) ∧
    ∀ n m div, pll_khz_legal in_fre edivider n m → div < 64 →
      (rcar_du_lvdsenc_pll_calc pll in_fre mode_freq edivider).diff ≤
        pll_khz_error in_fre mode_freq edivider n m div := by
  obtain ⟨n0, m0, hl0⟩ := hex
  have hres := @pll_calc_run_stores pll in_fre mode_freq edivider hlo hhi hmode
    ⟨n0, m0, (pll_legal_iff_khz hhi).2 hl0⟩
  have h := @pll_calc_run_khz_least pll in_fre mode_freq edivider hlo hhi hmode hres
  exact ⟨h.1, h.2.1⟩

/-- C1, amended, at the documented input: 48 MHz in, 148.5 MHz wanted, no
E-divider. The search returns `N + 1 = 86`, `M + 1 = 4`, `DIV = 1`,
147428571 Hz, and its error 1071429 is the least over the legal domain, both
with the truncated and with the documented formulas. -/
theorem rcar_du_lvdsenc_pll_calc_min_error_witness :
    rcar_du_lvdsenc_pll_calc pll_info_zero 48000000 148500000 false =
      { pllclk := 147428571, diff := 1071429, clk_n := 85, clk_m := 3, clk_e := 0, div := 0 } ∧
    pll_khz_legal 48000000 false 85 3 ∧
    pll_khz_error 48000000 148500000 false 85 3 0 = 1071429 ∧
    (∀ n m div, pll_khz_legal 48000000 false n m → div < 64 →
      1071429 ≤ pll_khz_error 48000000 148500000 false n m div) ∧
    pll_doc_legal 48000000 false 85 3 ∧
    pll_doc_error 48000000 148500000 false 85 3 0 = 1071429 ∧
    (∀ n m div, pll_doc_legal 48000000 false n m → div < 64 →
      1071429 ≤ pll_doc_error 48000000 148500000 false n m div) := by
  have e : rcar_du_lvdsenc_pll_calc pll_info_zero 48000000 148500000 false =
      { pllclk := 147428571, diff := 1071429, clk_n := 85, clk_m := 3, clk_e := 0, div := 0 } := by
    decide!
  have h := rcar_du_lvdsenc_pll_calc_min_error pll_info_zero 48000000 148500000 false
    (by decide) (by decide) (by decide) ⟨59, 2, by decide⟩
  rw [e] at h
  have hb : ∀ n < 120, ∀ m < 7, pll_doc_legal 48000000 false n m → ∀ d < 64,
      1071429 ≤ pll_doc_error 48000000 148500000 false n m d := by decide!
  refine ⟨e, h.1.1, h.1.2.2.1.symm, h.2, by decide, by decide, ?_⟩
  intro n m d hl hd
  have h1 := hl.2.1
  have h2 := hl.2.2.2.1
  exact hb n (by omega) m (by omega) hl d hd

/-- C19, as stated, fails when the legal triples are those of the documented
formulas. At 16.500001 MHz in and 148.5 MHz wanted without the E-divider the
search produces the result `(clk_n, clk_m, div) = (62, 0, 0)` with `diff = 0`,
but `N + 1 = 63`, `M + 1 = 1` is not documented-legal (its documented output
before the divide-by-7 stage is 1039500063). The first documented-legal
triple attaining the documented minimum error is `(61, 0, 0)`, with error
2357134: the stored triple is not that one, and no documented-legal triple
has error 0 although the stored `diff` is 0. -/
theorem rcar_du_lvdsenc_pll_calc_stores_documented_illegal :
    (pll_calc_run pll_info_zero 16500001 148500000 false).clk_diff_set = false ∧
    rcar_du_lvdsenc_pll_calc pll_info_zero 16500001 148500000 false =
      { pllclk := 148500000, diff := 0, clk_n := 62, clk_m := 0, clk_e := 0, div := 0 } ∧
    ¬ pll_doc_legal 16500001 false 62 0 ∧
    pll_doc_legal 16500001 false 61 0 ∧
    pll_doc_error 16500001 148500000 false 61 0 0 = 2357134 ∧
    (∀ n m d, pll_doc_legal 16500001 false n m → d < 64 →
      2357134 ≤ pll_doc_error 16500001 148500000 false n m d) ∧
    (∀ n m d, pll_doc_legal 16500001 false n m → d < 64 → pll_before n m d 61 0 0 →
      2357134 < pll_doc_error 16500001 148500000 false n m d) := by
  have hb : ∀ n < 120, ∀ m < 7, pll_doc_legal 16500001 false n m → ∀ d < 64,
      2357134 ≤ pll_doc_error 16500001 148500000 false n m d ∧
      (pll_before n m d 61 0 0 → 2357134 < pll_doc_error 16500001 148500000 false n m d) := by
    decide!
  refine ⟨by decide!, by decide!, by decide, by decide, by decide, ?_, ?_⟩
  · intro n m d hl hd
    have h1 := hl.2.1
    have h2 := hl.2.2.2.1
    exact (hb n (by omega) m (by omega) hl d hd).1
  · intro n m d hl hd hbf
    have h1 := hl.2.1
    have h2 := hl.2.2.2.1
    exact (hb n (by omega) m (by omega) hl d hd).2 hbf

/-- C19, amended: for an input clock in `[12 MHz, 192 MHz]`, when the search
stores a result, the stored `(clk_n, clk_m, div)` is a triple legal under the
stage formulas computed from the input clock truncated to kHz, the stored
`diff` is its error under the same formulas, no such legal triple has a
smaller error, and every such legal triple that comes before it in the order
of the search (lowest `n`, then lowest `m`, then lowest `div`) has a strictly
larger error: the stored triple is the first one attaining the minimum, and a
later triple with the same error is never the one stored. If some such legal
triple has error 0, the stored `diff` is 0 and that triple does not come
before the stored one. -/
theorem rcar_du_lvdsenc_pll_calc_first_min (pll : pll_info) (in_fre mode_freq : Nat)
    (edivider : Bool) (hlo : 12000000 ≤ in_fre) (hhi : in_fre ≤ 192000000)
    (hmode : mode_freq < 4294967296)
    (hres : (pll_calc_run pll in_fre mode_freq edivider).clk_diff_set = false) :
    pll_khz_legal in_fre edivider
      (rcar_du_lvdsenc_pll_calc pll in_fre mode_freq edivider).clk_n
      (rcar_du_lvdsenc_pll_calc pll in_fre mode_freq edivider).clk_m ∧
    (rcar_du_lvdsenc_pll_calc pll in_fre mode_freq edivider).div < 64 ∧
    (rcar_du_lvdsenc_pll_calc pll in_fre mode_freq edivider).diff =
      pll_khz_error in_fre mode_freq edivider
        (rcar_du_lvdsenc_pll_calc pll in_fre mode_freq edivider).clk_n
        (rcar_du_lvdsenc_pll_calc pll in_fre mode_freq edivider).clk_m
        (rcar_du_lvdsenc_pll_calc pll in_fre mode_freq edivider).div ∧
    (∀ n m d, pll_khz_legal in_fre edivider n m → d < 64 →
      (rcar_du_lvdsenc_pll_calc pll in_fre mode_freq edivider).diff ≤
        pll_khz_error in_fre mode_freq edivider n m d) ∧
    (∀ n m d, pll_khz_legal in_fre edivider n m → d < 64 →
      pll_before n m d
        (rcar_du_lvdsenc_pll_calc pll in_fre mode_freq edivider).clk_n
        (rcar_du_lvdsenc_pll_calc pll in_fre mode_freq edivider).clk_m
        (rcar_du_lvdsenc_pll_calc pll in_fre mode_freq edivider).div →
      (rcar_du_lvdsenc_pll_calc pll in_fre mode_freq edivider).diff <
        pll_khz_error in_fre mode_freq edivider n m d) ∧
    (∀ n m d, pll_khz_legal in_fre edivider n m → d < 64 →
      pll_khz_error in_fre mode_freq edivider n m d =
        (rcar_du_lvdsenc_pll_calc pll in_fre mode_freq edivider).diff →
      ¬ pll_before n m d
        (rcar_du_lvdsenc_pll_calc pll in_fre mode_freq edivider).clk_n
        (rcar_du_lvdsenc_pll_calc pll in_fre mode_freq edivider).clk_m
        (rcar_du_lvdsenc_pll_calc pll in_fre mode_freq edivider).div) ∧
    (∀ n m d, pll_khz_legal in_fre edivider n m → d < 64 →
      pll_khz_error in_fre mode_freq edivider n m d = 0 →
      (rcar_du_lvdsenc_pll_calc pll in_fre mode_freq edivider).diff = 0 ∧
      ¬ pll_before n m d
        (rcar_du_lvdsenc_pll_calc pll in_fre mode_freq edivider).clk_n
        (rcar_du_lvdsenc_pll_calc pll in_fre mode_freq edivider).clk_m
        (rcar_du_lvdsenc_pll_calc pll in_fre mode_freq edivider).div) := by
  have h := @pll_calc_run_khz_least pll in_fre mode_freq edivider hlo hhi hmode hres
  unfold rcar_du_lvdsenc_pll_calc
  generalize pll_calc_run pll in_fre mode_freq edivider = s at h
  obtain ⟨⟨hl0, hd0, hdiff, _⟩, hleast, hfirst⟩ := h
  refine ⟨hl0, hd0, hdiff, hleast, hfirst, ?_, ?_⟩
  · intro n m d hl hd heq hb
    have := hfirst n m d hl hd hb
    omega
  · intro n m d hl hd h0
    have h1 := hleast n m d hl hd
    refine ⟨by omega, fun hb => ?_⟩
    have := hfirst n m d hl hd hb
    omega

/-- C19, amended, at 48 MHz in, 72 MHz wanted, no E-divider: the triples
`(62, 2, 1)` and `(83, 3, 1)` are both legal with error 0; the search stores
the first of them and stops. -/
theorem rcar_du_lvdsenc_pll_calc_first_min_witness :
    rcar_du_lvdsenc_pll_calc pll_info_zero 48000000 72000000 false =
      { pllclk := 144000000, diff := 0, clk_n := 62, clk_m := 2, clk_e := 0, div := 1 } ∧
    pll_khz_legal 48000000 false 83 3 ∧ pll_khz_error 48000000 72000000 false 83 3 1 = 0 ∧
    pll_before 62 2 1 83 3 1 ∧ ¬ pll_before 83 3 1 62 2 1 := by
  have e : rcar_du_lvdsenc_pll_calc pll_info_zero 48000000 72000000 false =
      { pllclk := 144000000, diff := 0, clk_n := 62, clk_m := 2, clk_e := 0, div := 1 } := by
    decide!
  have h := rcar_du_lvdsenc_pll_calc_first_min pll_info_zero 48000000 72000000 false
    (by decide) (by decide) (by decide) (by decide!)
  rw [e] at h
  have hl : pll_khz_legal 48000000 false 83 3 := by decide
  have he : pll_khz_error 48000000 72000000 false 83 3 1 = 0 := by decide
  exact ⟨e, hl, he, by unfold pll_before; omega, (h.2.2.2.2.2.2 83 3 1 hl (by decide) he).2⟩

end RcarBsp
